import Mathlib

/-!
OpenNAN: a shallow embedding of the core and its checked properties

The C sources are embedded as pure Lean functions.  Machine integers are
natural numbers (or integers for signed types) and every operation that can
wrap in C carries its modulus explicitly.  A little-endian LP64 host is assumed
wherever the C code depends on the host (unions, bit-fields, `long`).

Pointers to mutable structures become explicit state passing: a function that
mutates `*state` returns the new state.
-/

namespace OpenNAN

/-! ## Machine arithmetic -/

/-- Subtraction of two `uint64_t` values. -/
def sub_u64 (a b : Nat) : Nat := (a % 2 ^ 64 + (2 ^ 64 - b % 2 ^ 64)) % 2 ^ 64

/-- Addition of two `uint64_t` values. -/
def add_u64 (a b : Nat) : Nat := (a + b) % 2 ^ 64

/-- Multiplication of two `uint64_t` values. -/
def mul_u64 (a b : Nat) : Nat := (a * b) % 2 ^ 64

/-- Conversion of a signed integer to `uint64_t`. -/
def to_u64 (i : Int) : Nat := (i % 2 ^ 64).toNat

/-- Conversion of a `uint64_t` to `long` (64 bit, two's complement). -/
def to_i64 (n : Nat) : Int :=
  if n % 2 ^ 64 < 2 ^ 63 then ((n % 2 ^ 64 : Nat) : Int) else ((n % 2 ^ 64 : Nat) : Int) - 2 ^ 64

/-- Conversion of an integer to `int` (32 bit, two's complement). -/
def to_i32 (i : Int) : Int :=
  if 2 ^ 31 ≤ i % 2 ^ 32 then i % 2 ^ 32 - 2 ^ 32 else i % 2 ^ 32

/-- Conversion of an integer to `signed char` (8 bit, two's complement). -/
def to_i8 (i : Int) : Int :=
  if 2 ^ 7 ≤ i % 2 ^ 8 then i % 2 ^ 8 - 2 ^ 8 else i % 2 ^ 8

/-- The macro `USEC_TO_TU(usec)`, `(usec) / 1024`, on an unsigned value. -/
def USEC_TO_TU (usec : Nat) : Nat := usec / 1024

/-- The macro `TU_TO_USEC(tu)`, `(tu) * 1024`, on a `uint64_t`. -/
def TU_TO_USEC (tu : Nat) : Nat := mul_u64 tu 1024

def NAN_DW_LENGTH_TU : Nat := 16
def NAN_DW_INTERVAL_TU : Nat := 512
def NAN_WARMUP_TIMER_SEC : Nat := 120
def NAN_INITIAL_SCAN_TIMER_USEC : Nat := 1000000
def NAN_DISCOVERY_BEACON_INTERVAL_TU : Nat := 100
def NAN_MASTER_PREFERENCE_UPDATE_MIN_DW : Nat := 240
def NAN_RANDOM_FACTOR_UPDATE_MIN_DW : Nat := 120
def NAN_MASTER_PREFERENCE : Nat := 200

/-! ## Memory

A region of memory is the list of its bytes, addressed from the pointer it
starts at; a pointer into the region is an offset. -/

/-- The `n` bytes at offset `pos` (a `memcpy` out of `data`); memory past the
end of the list reads as zero. -/
def mem_read (data : List Nat) (pos : Nat) : Nat → List Nat
  | 0 => []
  | n + 1 => data.getD pos 0 :: mem_read data (pos + 1) n

/-- The region after `bytes` are stored at offset `pos` (a `memcpy` into
`data`). -/
def mem_write (data : List Nat) (pos : Nat) : List Nat → List Nat
  | [] => data
  | b :: bytes => mem_write (data.set pos b) (pos + 1) bytes

/-- The unsigned value of a little-endian byte sequence. -/
def le_value : List Nat → Nat
  | [] => 0
  | b :: bytes => b + 256 * le_value bytes

/-- The `n` little-endian bytes of a value. -/
def le_bytes (value : Nat) : Nat → List Nat
  | 0 => []
  | n + 1 => value % 256 :: le_bytes (value / 256) n

/-! ## Ethernet addresses (`struct ether_addr`, utils.c) -/

/-- The six octets `ether_addr_octet[0..5]` of a `struct ether_addr`. -/
structure ether_addr where
  o0 : Nat
  o1 : Nat
  o2 : Nat
  o3 : Nat
  o4 : Nat
  o5 : Nat
deriving DecidableEq, Repr

/-- The array access `addr->ether_addr_octet[i]`. -/
def ether_addr.ether_addr_octet (a : ether_addr) (i : Nat) : Nat :=
  match i with
  | 0 => a.o0
  | 1 => a.o1
  | 2 => a.o2
  | 3 => a.o3
  | 4 => a.o4
  | _ => a.o5

/-- The loop of `ether_addr_equal`, started at octet `i` with `n` octets left. -/
def ether_addr_equal_from (addrA addrB : ether_addr) (i : Nat) : Nat → Bool
  | 0 => true
  | n + 1 =>
    if addrA.ether_addr_octet i ≠ addrB.ether_addr_octet i then false
    else ether_addr_equal_from addrA addrB (i + 1) n

/-- Octet-wise comparison, utils.c `ether_addr_equal`. -/
def ether_addr_equal (addrA addrB : ether_addr) : Bool :=
  ether_addr_equal_from addrA addrB 0 6

/-! ## Random numbers (utils.c) -/

/-- The rejection loop of `get_rand_num`: `rand` lists the values successive
calls of the C library's `rand()` return, each stored in a `uint32_t`; `none`
when the list ends before a value is accepted. -/
def get_rand_num_loop (end_of_last_chunk : Nat) : List Nat → Option Nat
  | [] => none
  | r :: rand =>
    if r % 2 ^ 32 ≥ end_of_last_chunk then get_rand_num_loop end_of_last_chunk rand
    else some (r % 2 ^ 32)

/-- The value utils.c `get_rand_num` returns.  `RAND_MAX` is the constant of
the C library.  `range` is a `uint16_t`, `chunk_size` and `end_of_last_chunk`
are `uint32_t`, the result is a `uint8_t`; a division by a zero `range` or
`chunk_size`, undefined in C, gives 0 here. -/
def get_rand_num (RAND_MAX : Nat) (min max : Nat) (rand : List Nat) : Option Nat :=
  let range := (((max : Int) - (min : Int) + 1) % 2 ^ 16).toNat
  let chunk_size := (RAND_MAX / range) % 2 ^ 32
  let end_of_last_chunk := (chunk_size * range) % 2 ^ 32
  (get_rand_num_loop end_of_last_chunk rand).map (fun r => (min + r / chunk_size) % 256)

/-! ## Moving average (moving_average.h) -/

/-- The ring of a moving average, `moving_average_t`; `buffer` holds the
`buffer_size` samples of the allocation. -/
structure moving_average_t where
  buffer : List Int
  position : Nat
  buffer_size : Nat
  buffer_full : Bool
deriving DecidableEq, Repr

/-- The state part of `moving_average_init(state, average, type, size)`. -/
def moving_average_init (size : Nat) : moving_average_t :=
  { buffer := List.replicate size 0, position := 0, buffer_size := size, buffer_full := false }

/-- The macro `moving_average_add(state, average, type, value)`: the new ring
and the new average.  `conv` is the conversion to `type`; the arithmetic
between conversions is exact, `/` truncates toward zero. -/
def moving_average_add (conv : Int → Int) (state : moving_average_t) (average value : Int) :
    moving_average_t × Int :=
  let average :=
    if state.buffer_full then
      let diff := conv (value - state.buffer.getD state.position 0)
      conv (average + Int.tdiv diff state.buffer_size)
    else
      conv (Int.tdiv (average * state.position + value) (state.position + 1))
  let state := { state with buffer := state.buffer.set state.position value }
  let state := { state with position := state.position + 1 }
  let state :=
    if state.position = state.buffer_size then { state with position := 0, buffer_full := true }
    else state
  (state, average)

/-! ## Timer (timer.h, timer.c) -/

/-- The timer, `struct nan_timer_state`. -/
structure nan_timer_state where
  now_usec : Nat
  base_time_usec : Nat
  last_discovery_beacon_usec : Nat
  warmup_done : Bool
  initial_scan_done : Bool
  average_error : Int
  average_error_state : moving_average_t
deriving DecidableEq, Repr

def nan_timer_state_init (now_usec : Nat) : nan_timer_state :=
  { now_usec := now_usec
    base_time_usec := now_usec
    last_discovery_beacon_usec := 0
    warmup_done := false
    initial_scan_done := true
    average_error := 0
    average_error_state := moving_average_init 32 }

def nan_timer_get_synced_time_usec (state : nan_timer_state) (now_usec : Nat) : Nat :=
  sub_u64 now_usec state.base_time_usec

def nan_timer_get_synced_time_tu (state : nan_timer_state) (now_usec : Nat) : Nat :=
  USEC_TO_TU (nan_timer_get_synced_time_usec state now_usec)

/-- The `int` operand `average_error` is converted to `uint64_t` before the
second subtraction. -/
def nan_timer_get_fixed_time_usec (state : nan_timer_state) (now_usec : Nat) : Nat :=
  sub_u64 (sub_u64 now_usec state.base_time_usec) (to_u64 state.average_error)

def nan_timer_get_fixed_time_tu (state : nan_timer_state) (now_usec : Nat) : Nat :=
  USEC_TO_TU (nan_timer_get_fixed_time_usec state now_usec)

/-- The operands of `(long)synced - timestamp` are brought to `uint64_t`, the
difference is stored in a `long` and added to the unsigned base time. -/
def nan_timer_sync_time (state : nan_timer_state) (now_usec timestamp : Nat) : nan_timer_state :=
  let diff_usec : Int := to_i64 (sub_u64 (nan_timer_get_synced_time_usec state now_usec) timestamp)
  { state with base_time_usec := add_u64 state.base_time_usec (to_u64 diff_usec) }

/-- The difference `(int)synced - timestamp` is formed in `uint64_t` and stored
in an `int`; samples whose magnitude exceeds one DW interval are skipped. -/
def nan_timer_sync_error (state : nan_timer_state) (now_usec timestamp : Nat) : nan_timer_state :=
  let error_usec : Int :=
    to_i32 (sub_u64 (to_u64 (to_i32 (nan_timer_get_synced_time_usec state now_usec))) timestamp)
  if to_i32 (Int.natAbs error_usec) > (NAN_DW_INTERVAL_TU : Int) * 1024 then state
  else
    let r := moving_average_add to_i32 state.average_error_state state.average_error error_usec
    { state with average_error_state := r.1, average_error := r.2 }

/-- The `uint64_t` difference of the two times in TU, returned as `unsigned int`. -/
def nan_time_difference_tu (old_time new_time : Nat) : Nat :=
  sub_u64 (USEC_TO_TU new_time) (USEC_TO_TU old_time) % 2 ^ 32

def nan_time_difference_dw (old_time new_time : Nat) : Nat :=
  nan_time_difference_tu old_time new_time / NAN_DW_INTERVAL_TU

def nan_timer_initial_scan_done (state : nan_timer_state) (now_usec : Nat) : Bool :=
  state.initial_scan_done ||
    decide (sub_u64 now_usec state.base_time_usec > NAN_INITIAL_SCAN_TIMER_USEC)

def nan_timer_initial_scan_cancel (state : nan_timer_state) : nan_timer_state :=
  { state with initial_scan_done := true }

def nan_timer_in_dw (state : nan_timer_state) (now_usec : Nat) : Bool :=
  let synced_time_tu := nan_timer_get_fixed_time_tu state now_usec
  let interval_time_tu := synced_time_tu % NAN_DW_INTERVAL_TU
  decide (interval_time_tu ≤ NAN_DW_LENGTH_TU)

def nan_timer_next_dw_usec (state : nan_timer_state) (now_usec : Nat) : Nat :=
  let synced_time_tu := nan_timer_get_fixed_time_tu state now_usec
  let interval_tu := NAN_DW_INTERVAL_TU
  let next_dw_tu := sub_u64 interval_tu (synced_time_tu % interval_tu)
  TU_TO_USEC next_dw_tu

/-- The arguments `now_usec - TU_TO_USEC(NAN_DW_LENGTH_TU)` and the sum with
`TU_TO_USEC(NAN_DW_LENGTH_TU)` are formed in `uint64_t`. -/
def nan_timer_dw_end_usec (state : nan_timer_state) (now_usec : Nat) : Nat :=
  if nan_timer_in_dw state now_usec then
    nan_timer_next_dw_usec state (sub_u64 now_usec (NAN_DW_LENGTH_TU * 1024))
  else
    add_u64 (nan_timer_next_dw_usec state now_usec) (NAN_DW_LENGTH_TU * 1024)

def nan_timer_set_now_usec (state : nan_timer_state) (now_usec : Nat) : nan_timer_state :=
  { state with now_usec := now_usec }

/-- The return value and the timer after timer.c `nan_timer_warmup_expired`;
`SEC_TO_USEC(NAN_WARMUP_TIMER_SEC)` is the `int` 120000000, compared with the
`uint64_t` difference. -/
def nan_timer_warmup_expired (state : nan_timer_state) (now_usec : Nat) : Bool × nan_timer_state :=
  if ¬ (state.warmup_done = true) ∧
      sub_u64 now_usec state.base_time_usec ≥ NAN_WARMUP_TIMER_SEC * 1000000 then
    (true, { state with warmup_done := true })
  else
    (false, state)

def nan_timer_warmup_cancel (state : nan_timer_state) : nan_timer_state :=
  { state with warmup_done := true }

/-- The `int` value `TU_TO_USEC(NAN_DISCOVERY_BEACON_INTERVAL_TU)`, 102400, is
compared with the `uint64_t` difference. -/
def nan_timer_can_send_discovery_beacon (state : nan_timer_state) (now_usec : Nat) : Bool :=
  decide (sub_u64 now_usec state.last_discovery_beacon_usec
    ≥ NAN_DISCOVERY_BEACON_INTERVAL_TU * 1024)

/-- The expression `now_usec - state->last_discovery_beacon_usec +
TU_TO_USEC(NAN_DISCOVERY_BEACON_INTERVAL_TU)` in `uint64_t`. -/
def nan_timer_next_discovery_beacon_usec (state : nan_timer_state) (now_usec : Nat) : Nat :=
  if nan_timer_can_send_discovery_beacon state now_usec then 0
  else
    add_u64 (sub_u64 now_usec state.last_discovery_beacon_usec)
      (NAN_DISCOVERY_BEACON_INTERVAL_TU * 1024)

def nan_timer_set_last_discovery_beacon_usec (state : nan_timer_state) (time_usec : Nat) :
    nan_timer_state :=
  { state with last_discovery_beacon_usec := time_usec }

/-- A call of one of the timer functions that take a mutable timer and touch
neither the peers nor the election. -/
inductive nan_timer_call where
  | sync_time (now_usec timestamp : Nat)
  | sync_error (now_usec timestamp : Nat)
  | set_now_usec (now_usec : Nat)
  | warmup_expired (now_usec : Nat)
  | warmup_cancel
  | initial_scan_cancel
deriving DecidableEq, Repr

/-- The timer after one call. -/
def nan_timer_step (state : nan_timer_state) : nan_timer_call → nan_timer_state
  | nan_timer_call.sync_time now_usec timestamp => nan_timer_sync_time state now_usec timestamp
  | nan_timer_call.sync_error now_usec timestamp => nan_timer_sync_error state now_usec timestamp
  | nan_timer_call.set_now_usec now_usec => nan_timer_set_now_usec state now_usec
  | nan_timer_call.warmup_expired now_usec => (nan_timer_warmup_expired state now_usec).2
  | nan_timer_call.warmup_cancel => nan_timer_warmup_cancel state
  | nan_timer_call.initial_scan_cancel => nan_timer_initial_scan_cancel state

/-- The timer after a sequence of calls, first call first. -/
def nan_timer_run (state : nan_timer_state) (calls : List nan_timer_call) : nan_timer_state :=
  calls.foldl nan_timer_step state

/-! ## Peers (peer.h) -/

def PEER_RSSI_BUFFER_SIZE : Nat := 32
def RSSI_CLOSE : Int := -60
def RSSI_MIDDLE : Int := -75

/-- A known peer, `struct nan_peer` of peer.h, with the fields rx.c keeps per
peer in addition (`timer`, `old_timer`, `last_beacon_time`, `count_sync`,
`old_timer_send_count`).  The availability fields, which no embedded function
reads or writes, are left out. -/
structure nan_peer where
  cluster_id : ether_addr
  addr : ether_addr
  ipv6_addr : List Nat
  last_update : Nat
  last_timestamp : Nat
  master_preference : Nat
  last_master_preference : Nat
  random_factor : Nat
  anchor_master_rank : Nat
  last_anchor_master_rank : Nat
  ambtt : Nat
  hop_count : Nat
  master_candidate : Bool
  rssi_average : Int
  rssi_average_state : moving_average_t
  timer : nan_timer_state
  old_timer : nan_timer_state
  last_beacon_time : Nat
  count_sync : Nat
  old_timer_send_count : Nat
deriving DecidableEq, Repr

/-- Modified EUI-64 link-local address, utils.c `ether_addr_to_ipv6_addr`
(the bytes `s6_addr[0..15]`); `^ 0x02` acts on a `uint8_t`. -/
def ether_addr_to_ipv6_addr (ether_addr : ether_addr) : List Nat :=
  [0xfe, 0x80, 0, 0, 0, 0, 0, 0,
   (ether_addr.ether_addr_octet 0 ^^^ 0x02) % 256,
   ether_addr.ether_addr_octet 1,
   ether_addr.ether_addr_octet 2,
   0xff, 0xfe,
   ether_addr.ether_addr_octet 3,
   ether_addr.ether_addr_octet 4,
   ether_addr.ether_addr_octet 5]

/-- The allocation of peer.c `nan_peer_new`; the fields it leaves
uninitialised (the per-peer timers and counters of rx.c) start from zero. -/
def nan_peer_new (addr cluster_id : ether_addr) : nan_peer :=
  { cluster_id := cluster_id
    addr := addr
    ipv6_addr := ether_addr_to_ipv6_addr addr
    last_update := 0
    last_timestamp := 0
    master_preference := 0
    last_master_preference := 0
    random_factor := 0
    anchor_master_rank := 0
    last_anchor_master_rank := 0
    ambtt := 0
    hop_count := 0
    master_candidate := false
    rssi_average := 0
    rssi_average_state := moving_average_init PEER_RSSI_BUFFER_SIZE
    timer := nan_timer_state_init 0
    old_timer := nan_timer_state_init 0
    last_beacon_time := 0
    count_sync := 0
    old_timer_send_count := 0 }

def nan_peer_set_master_indication (peer : nan_peer) (master_preference random_factor : Nat) :
    nan_peer :=
  { peer with
    last_master_preference := peer.master_preference
    master_preference := master_preference
    random_factor := random_factor }

/-- With hop count zero the AMBTT is the low 32 bits of the peer's last
timestamp. -/
def nan_peer_set_anchor_master_information (peer : nan_peer) (anchor_master_rank ambtt hop_count : Nat) :
    nan_peer :=
  let peer := { peer with last_anchor_master_rank := peer.anchor_master_rank }
  let peer := { peer with anchor_master_rank := anchor_master_rank, hop_count := hop_count }
  if hop_count = 0 then { peer with ambtt := peer.last_timestamp % 2 ^ 32 }
  else { peer with ambtt := ambtt }

def nan_peer_set_beacon_information (peer : nan_peer) (rssi : Int) (timestamp : Nat) : nan_peer :=
  let r := moving_average_add to_i8 peer.rssi_average_state peer.rssi_average rssi
  { peer with rssi_average_state := r.1, rssi_average := r.2, last_timestamp := timestamp }

/-! ## Master rank (sync.c, election.c) -/

/-- The `uint64_t` whose eight bytes in memory, lowest address first, are
`b0 .. b7` on a little-endian host. -/
def u64_of_le_bytes (b0 b1 b2 b3 b4 b5 b6 b7 : Nat) : Nat :=
  b0 + 256 * (b1 + 256 * (b2 + 256 * (b3 + 256 * (b4 + 256 * (b5 + 256 * (b6 + 256 * b7))))))

/-- The union based `nan_calculate_master_rank` of sync.c on a little-endian
host: the packed struct lays out address (6 bytes), random factor, master
preference, and `value` reads the same eight bytes. -/
def nan_calculate_master_rank (master_preference random_factor : Nat) (address : ether_addr) : Nat :=
  u64_of_le_bytes address.o0 address.o1 address.o2 address.o3 address.o4 address.o5
    random_factor master_preference

/-- The shift based `nan_calculate_master_rank` of election.c; `<<=` and `+=`
act on a `uint64_t`. -/
def election_nan_calculate_master_rank (master_preference random_factor : Nat)
    (interface_address : ether_addr) : Nat :=
  let master_rank := master_preference % 2 ^ 64
  let master_rank := (master_rank <<< 8) % 2 ^ 64
  let master_rank := add_u64 master_rank random_factor
  let master_rank := (master_rank <<< 8) % 2 ^ 64
  let master_rank := add_u64 master_rank (interface_address.ether_addr_octet 5)
  let master_rank := (master_rank <<< 8) % 2 ^ 64
  let master_rank := add_u64 master_rank (interface_address.ether_addr_octet 4)
  let master_rank := (master_rank <<< 8) % 2 ^ 64
  let master_rank := add_u64 master_rank (interface_address.ether_addr_octet 3)
  let master_rank := (master_rank <<< 8) % 2 ^ 64
  let master_rank := add_u64 master_rank (interface_address.ether_addr_octet 2)
  let master_rank := (master_rank <<< 8) % 2 ^ 64
  let master_rank := add_u64 master_rank (interface_address.ether_addr_octet 1)
  let master_rank := (master_rank <<< 8) % 2 ^ 64
  let master_rank := add_u64 master_rank (interface_address.ether_addr_octet 0)
  master_rank

/-- The address part of the union over a master rank: its first six bytes in
memory, the six low-order bytes on a little-endian host. -/
def nan_get_address_from_master_rank (master_rank : Nat) : ether_addr :=
  { o0 := master_rank % 256
    o1 := master_rank / 256 % 256
    o2 := master_rank / 256 ^ 2 % 256
    o3 := master_rank / 256 ^ 3 % 256
    o4 := master_rank / 256 ^ 4 % 256
    o5 := master_rank / 256 ^ 5 % 256 }

def nan_is_master_rank_issuer (addr : ether_addr) (master_rank : Nat) : Bool :=
  ether_addr_equal addr (nan_get_address_from_master_rank master_rank)

def nan_is_same_master_rank_issuer (master_rank1 master_rank2 : Nat) : Bool :=
  nan_is_master_rank_issuer (nan_get_address_from_master_rank master_rank1) master_rank2

/-! ## Sync state (sync.h, sync.c) -/

inductive nan_role where
  | NON_SYNC
  | SYNC
  | MASTER
deriving DecidableEq, Repr

/-- The election state, `struct nan_sync_state`. -/
structure nan_sync_state where
  role : nan_role
  master_rank : Nat
  master_preference : Nat
  random_factor : Nat
  last_master_preference_update_usec : Nat
  last_random_factor_update_usec : Nat
  anchor_master_rank : Nat
  ambtt : Nat
  hop_count : Nat
  last_anchor_master_rank : Nat
  last_ambtt : Nat
  last_hop_count : Nat
  count_dws_without_ambtt_update : Nat
  count_dws_without_hop_count_update : Nat
deriving DecidableEq, Repr

def nan_is_anchor_master (state : nan_sync_state) (addr : ether_addr) : Bool :=
  nan_is_master_rank_issuer addr state.anchor_master_rank

def nan_is_anchor_master_self (state : nan_sync_state) : Bool :=
  nan_is_same_master_rank_issuer state.master_rank state.anchor_master_rank

def nan_sync_state_init (interface_address : ether_addr) : nan_sync_state :=
  let master_rank := nan_calculate_master_rank 0 0 interface_address
  { role := nan_role.MASTER
    master_rank := master_rank
    master_preference := 0
    random_factor := 0
    last_master_preference_update_usec := 0
    last_random_factor_update_usec := 0
    anchor_master_rank := master_rank
    ambtt := 0
    hop_count := 0
    last_anchor_master_rank := master_rank
    last_ambtt := 0
    last_hop_count := 0
    count_dws_without_ambtt_update := 0
    count_dws_without_hop_count_update := 0 }

def nan_save_current_anchor_master (state : nan_sync_state) : nan_sync_state :=
  { state with
    last_anchor_master_rank := state.anchor_master_rank
    last_ambtt := state.ambtt }

/-- The sum `peer->hop_count + 1` is an `int`, stored into a `uint8_t`. -/
def nan_set_anchor_master_other (state : nan_sync_state) (peer : nan_peer) :
    nan_sync_state :=
  let state := nan_save_current_anchor_master state
  { state with
    anchor_master_rank := peer.anchor_master_rank
    ambtt := peer.ambtt
    hop_count := (peer.hop_count + 1) % 256 }

def nan_set_anchor_master_self (state : nan_sync_state) : nan_sync_state :=
  let state := nan_save_current_anchor_master state
  { state with
    anchor_master_rank := state.master_rank
    ambtt := 0
    hop_count := 0 }

/-- The part of `nan_anchor_master_selection` after the anchor-master-self
block (from the comment `!state->anchor_master_self` on). -/
def nan_anchor_master_selection_other (state : nan_sync_state) (peer : nan_peer) :
    nan_sync_state :=
  if state.anchor_master_rank < peer.anchor_master_rank then
    if state.last_anchor_master_rank = peer.anchor_master_rank ∧ state.last_ambtt ≥ peer.ambtt then
      state
    else
      nan_set_anchor_master_other state peer
  else if state.anchor_master_rank > peer.anchor_master_rank then
    if ¬ (nan_is_same_master_rank_issuer state.anchor_master_rank peer.anchor_master_rank = true) then
      state
    else if state.master_rank > peer.anchor_master_rank then
      nan_set_anchor_master_self state
    else
      nan_set_anchor_master_other state peer
  else
    let state := if state.ambtt < peer.ambtt then { state with ambtt := peer.ambtt } else state
    let state :=
      if state.hop_count > peer.hop_count + 1 then { state with hop_count := peer.hop_count }
      else state
    state

/-- The product `synced_time_tu * 16 * 512` is computed in `uint64_t`.  After
the self block adopts the peer's anchor there is no `return`: control falls
through to the rest of the function. -/
def nan_anchor_master_selection (state : nan_sync_state) (peer : nan_peer)
    (synced_time_tu : Nat) : nan_sync_state :=
  if state.anchor_master_rank = peer.anchor_master_rank ∧
      peer.ambtt ≤ mul_u64 (mul_u64 synced_time_tu 16) 512 then
    state
  else if nan_is_anchor_master_self state = true then
    if state.master_rank ≥ peer.anchor_master_rank then
      state
    else if nan_is_same_master_rank_issuer state.master_rank peer.anchor_master_rank = true then
      state
    else
      nan_anchor_master_selection_other (nan_set_anchor_master_other state peer) peer
  else
    nan_anchor_master_selection_other state peer

/-! ## Linked list (list.h, list.c)

A `list_t` is embedded as the Lean list of its items, the sentinel head entry
left out.  Items are compared by value where the C code compares pointers. -/

/-- Walk of list.c `list_len`. -/
def list_len {α : Type} (list : List α) : Nat := list.length

/-- Append at the tail, list.c `list_add`. -/
def list_add {α : Type} (list : List α) (item : α) : List α := list ++ [item]

/-- Unlink the first entry holding `item`, list.c `list_remove`. -/
def list_remove {α : Type} [DecidableEq α] : List α → α → List α
  | [], _ => []
  | current :: next, item =>
    if current = item then next else current :: list_remove next item

/-- The macro `LIST_FIND`: the first item that meets the condition, `NULL`
(`none`) when the iteration ends without one. -/
def LIST_FIND {α : Type} (list : List α) (condition : α → Bool) : Option α :=
  match list with
  | [] => none
  | item :: rest => if condition item then some item else LIST_FIND rest condition

/-! ## Peer table (peer.h, peer.c) -/

/-- The constant `PEER_DEFAULT_TIMEOUT_USEC`, `TU_TO_USEC(512) * 10`. -/
def PEER_DEFAULT_TIMEOUT_USEC : Nat := 512 * 1024 * 10

/-- The constant `PEER_DEFAULT_CLEAN_INTERVAL_USEC`, `TU_TO_USEC(512) * 2`. -/
def PEER_DEFAULT_CLEAN_INTERVAL_USEC : Nat := 512 * 1024 * 2

inductive peer_status where
  | PEER_ADD
  | PEER_UPDATE
  | PEER_OK
  | PEER_MISSING
  | PEER_INTERNAL
deriving DecidableEq, Repr

/-- The peer table, `struct nan_peer_state`.  A callback pointer is embedded
as the flag "not `NULL`"; `peer_add_calls` and `peer_remove_calls` record, oldest
first, the peers the callbacks were invoked with. -/
structure nan_peer_state where
  peers : List nan_peer
  timeout_usec : Nat
  clean_interval_usec : Nat
  peer_add_callback : Bool
  peer_remove_callback : Bool
  peer_add_calls : List nan_peer
  peer_remove_calls : List nan_peer
deriving DecidableEq, Repr

def nan_peer_state_init : nan_peer_state :=
  { peers := []
    timeout_usec := PEER_DEFAULT_TIMEOUT_USEC
    clean_interval_usec := PEER_DEFAULT_CLEAN_INTERVAL_USEC
    peer_add_callback := false
    peer_remove_callback := false
    peer_add_calls := []
    peer_remove_calls := [] }

def nan_peer_set_callbacks (state : nan_peer_state) (peer_add_callback peer_remove_callback : Bool) :
    nan_peer_state :=
  { state with peer_add_callback := peer_add_callback, peer_remove_callback := peer_remove_callback }

/-- Lookup by address, peer.c `nan_peer_get`: `some peer` for `PEER_OK`, `none`
for `PEER_MISSING`. -/
def nan_peer_get (state : nan_peer_state) (addr : ether_addr) : Option nan_peer :=
  LIST_FIND state.peers (fun peer => ether_addr_equal peer.addr addr)

/-- The effect on the table of writing through the pointer `nan_peer_get`
returned for `addr`: the first entry with that address becomes `peer`. -/
def nan_peers_store (peers : List nan_peer) (addr : ether_addr) (peer : nan_peer) : List nan_peer :=
  match peers with
  | [] => []
  | item :: rest =>
    if ether_addr_equal item.addr addr then peer :: rest
    else item :: nan_peers_store rest addr peer

def nan_peer_add (state : nan_peer_state) (addr cluster_id : ether_addr) (now_usec : Nat) :
    peer_status × nan_peer_state :=
  match nan_peer_get state addr with
  | none =>
    let peer := nan_peer_new addr cluster_id
    let state :=
      if state.peer_add_callback then { state with peer_add_calls := state.peer_add_calls ++ [peer] }
      else state
    let peer := { peer with last_update := now_usec }
    (peer_status.PEER_ADD, { state with peers := list_add state.peers peer })
  | some peer =>
    let peer := { peer with last_update := now_usec }
    let peer :=
      if ¬ (ether_addr_equal peer.cluster_id cluster_id = true) then
        { peer with cluster_id := cluster_id }
      else peer
    (peer_status.PEER_UPDATE, { state with peers := nan_peers_store state.peers addr peer })

/-- Removal of a peer, peer.c `nan_peer_remove`.  The remove callback is
called without a `NULL` check: with no callback installed the call does not
return (`none`). -/
def nan_peer_remove (state : nan_peer_state) (peer : nan_peer) : Option nan_peer_state :=
  let state := { state with peers := list_remove state.peers peer }
  if state.peer_remove_callback then
    some { state with peer_remove_calls := state.peer_remove_calls ++ [peer] }
  else
    none

/-- How a run of `nan_peers_clean` ends. -/
inductive clean_result where
  | returned (state : nan_peer_state)
  | null_callback
  | out_of_fuel
deriving DecidableEq, Repr

/-- The `do … while (peer)` loop of peer.c `nan_peers_clean`, one iteration
per unit of fuel; `now_usec - state->timeout_usec` is a `uint64_t` difference. -/
def nan_peers_clean : Nat → nan_peer_state → Nat → clean_result
  | 0, _, _ => clean_result.out_of_fuel
  | fuel + 1, state, now_usec =>
    match LIST_FIND state.peers
        (fun peer => decide (peer.last_update < sub_u64 now_usec state.timeout_usec)) with
    | none => clean_result.returned state
    | some peer =>
      match nan_peer_remove state peer with
      | none => clean_result.null_callback
      | some state => nan_peers_clean fuel state now_usec

/-! ## Circular buffer (circular_buffer.h, circular_buffer.c) -/

/-- The hidden `struct circular_buf`; the stored `any_t` pointers are numbers. -/
structure circular_buf where
  buffer : List Nat
  head : Nat
  tail : Nat
  capacity : Nat
  full : Bool
deriving DecidableEq, Repr

def circular_buf_full (cbuf : circular_buf) : Bool := cbuf.full

def circular_buf_empty (cbuf : circular_buf) : Bool :=
  !cbuf.full && decide (cbuf.head = cbuf.tail)

def advance_pointer (cbuf : circular_buf) : circular_buf :=
  let cbuf := if cbuf.full then { cbuf with tail := (cbuf.tail + 1) % cbuf.capacity } else cbuf
  let cbuf := { cbuf with head := (cbuf.head + 1) % cbuf.capacity }
  { cbuf with full := decide (cbuf.head = cbuf.tail) }

def retreat_pointer (cbuf : circular_buf) : circular_buf :=
  let cbuf := { cbuf with full := false }
  { cbuf with tail := (cbuf.tail + 1) % cbuf.capacity }

def circular_buf_reset (cbuf : circular_buf) : circular_buf :=
  { cbuf with head := 0, tail := 0, full := false }

/-- The allocation of `circular_buf_init`; the fresh slots hold zeros. -/
def circular_buf_init (size : Nat) : circular_buf :=
  circular_buf_reset
    { buffer := List.replicate size 0, head := 0, tail := 0, capacity := size, full := false }

def circular_buf_size (cbuf : circular_buf) : Nat :=
  if circular_buf_full cbuf then cbuf.capacity
  else if cbuf.head ≥ cbuf.tail then cbuf.head - cbuf.tail
  else cbuf.capacity + cbuf.head - cbuf.tail

def circular_buf_capacity (cbuf : circular_buf) : Nat := cbuf.capacity

def circular_buf_put_override (cbuf : circular_buf) (data : Nat) : circular_buf :=
  advance_pointer { cbuf with buffer := cbuf.buffer.set cbuf.head data }

/-- The return value and the buffer after `circular_buf_put`. -/
def circular_buf_put (cbuf : circular_buf) (data : Nat) : Int × circular_buf :=
  if circular_buf_full cbuf then (-1, cbuf)
  else (0, advance_pointer { cbuf with buffer := cbuf.buffer.set cbuf.head data })

/-- The return value, the value left in `*data` (0 for `NULL`) and the buffer
after `circular_buf_get`; `data` is the value `*data` had before the call. -/
def circular_buf_get (cbuf : circular_buf) (data : Nat) (peek : Bool) : Int × Nat × circular_buf :=
  let data := if data ≠ 0 then 0 else data
  if circular_buf_empty cbuf then (-1, data, cbuf)
  else
    let data := cbuf.buffer.getD cbuf.tail 0
    if !peek then (0, data, retreat_pointer cbuf) else (0, data, cbuf)

/-- A call on a circular buffer. -/
inductive circular_buf_call where
  | put (data : Nat)
  | put_override (data : Nat)
  | get (data : Nat) (peek : Bool)
  | reset
deriving DecidableEq, Repr

/-- The buffer after one call. -/
def circular_buf_step (cbuf : circular_buf) : circular_buf_call → circular_buf
  | circular_buf_call.put data => (circular_buf_put cbuf data).2
  | circular_buf_call.put_override data => circular_buf_put_override cbuf data
  | circular_buf_call.get data peek => (circular_buf_get cbuf data peek).2.2
  | circular_buf_call.reset => circular_buf_reset cbuf

/-- The buffer after a sequence of calls, first call first. -/
def circular_buf_run (cbuf : circular_buf) (calls : List circular_buf_call) : circular_buf :=
  calls.foldl circular_buf_step cbuf

/-! ## Services (service.h, service.c, attributes.h) -/

def NAN_SERVICE_ID_LENGTH : Nat := 6

/-- The six bytes of a `struct nan_service_id`. -/
structure nan_service_id where
  byte : List Nat
deriving DecidableEq, Repr

inductive nan_service_type where
  | PUBLISHED
  | SUBSCRIBED
deriving DecidableEq, Repr

inductive nan_publish_type where
  | PUBLISH_UNSOLICITED
  | PUBLISH_SOLICITED
  | PUBLISH_BOTH
deriving DecidableEq, Repr

inductive nan_subscribe_type where
  | SUBSCRIBE_PASSIVE
  | SUBSCRIBE_ACTIVE
deriving DecidableEq, Repr

/-- The value of the enumerator. -/
def nan_publish_type.toNat : nan_publish_type → Nat
  | PUBLISH_UNSOLICITED => 0
  | PUBLISH_SOLICITED => 1
  | PUBLISH_BOTH => 2

/-- The value of the enumerator. -/
def nan_subscribe_type.toNat : nan_subscribe_type → Nat
  | SUBSCRIBE_PASSIVE => 0
  | SUBSCRIBE_ACTIVE => 1

/-- The union `parameters` of a service: its members `publish` and `subscribe`
are both an enum followed by a `bool` and share their storage, `type` being
`publish.type` / `subscribe.type` and `flag` being `publish.do_publish` /
`subscribe.is_subscribed`. -/
structure nan_service_parameters where
  type : Nat
  flag : Bool
deriving DecidableEq, Repr

/-- A registered service, `struct nan_service`; a C string is the list of its
characters, a `NULL` pointer is `none`. -/
structure nan_service where
  service_name : List Nat
  type : nan_service_type
  instance_id : Nat
  service_id : nan_service_id
  service_specific_info : Option (List Nat)
  service_specific_info_length : Nat
  service_update_indicator : Nat
  time_to_live : Int
  parameters : nan_service_parameters
deriving DecidableEq, Repr

structure nan_service_state where
  published_services : List nan_service
  subscribed_services : List nan_service
  last_instance_id : Nat
deriving DecidableEq, Repr

def nan_service_state_init : nan_service_state :=
  { published_services := [], subscribed_services := [], last_instance_id := 0 }

/-- The returned id and the new `*last_id` of utils.c `increase_non_zero_id`
(they are the same number); the increments act on a `uint8_t`. -/
def increase_non_zero_id (last_id : Nat) : Nat :=
  let last_id := (last_id + 1) % 256
  let last_id := if last_id = 0 then (last_id + 1) % 256 else last_id
  last_id

/-- The characters of the C string stored in `s`: those before the first NUL. -/
def c_string (s : List Nat) : List Nat := s.takeWhile (fun c => c ≠ 0)

/-- The C library's `strlen`. -/
def strlen (s : List Nat) : Nat := (c_string s).length

/-- The C library's `tolower` in the "C" locale: the letters `A`-`Z` move to
`a`-`z`, every other character is kept. -/
def tolower (c : Nat) : Nat := if 65 ≤ c ∧ c ≤ 90 then c + 32 else c

/-- The service id of a name, service.c `nan_service_id_create`.  The hash
function of sha256.h is the parameter `sha256`: `sha256 data` is the digest
written to `hash` for the message `data`, here the `strlen(service_name)`
lower-cased characters. -/
def nan_service_id_create (sha256 : List Nat → List Nat) (service_name : List Nat) :
    nan_service_id :=
  let service_name_length := strlen service_name
  let lower_case_name := (service_name.take service_name_length).map tolower
  let hash := sha256 lower_case_name
  { byte := mem_read hash 0 NAN_SERVICE_ID_LENGTH }

/-- The allocation of service.c `nan_service_new`.  The members the function
leaves uninitialised (`type`, `parameters`, `service_update_indicator`) are
given by `type`, `parameters` and zero; the callers set the first two right
after the call. -/
def nan_service_new (sha256 : List Nat → List Nat) (state : nan_service_state)
    (service_name : List Nat) (time_to_live : Int)
    (service_specific_info : Option (List Nat)) (service_specific_info_length : Nat)
    (type : nan_service_type) (parameters : nan_service_parameters) :
    nan_service × nan_service_state :=
  let instance_id := increase_non_zero_id state.last_instance_id
  let state := { state with last_instance_id := instance_id }
  let service : nan_service :=
    { service_name := c_string service_name
      type := type
      instance_id := instance_id
      service_id := nan_service_id_create sha256 service_name
      service_specific_info := none
      service_specific_info_length := 0
      service_update_indicator := 0
      time_to_live := time_to_live
      parameters := parameters }
  let service :=
    match service_specific_info with
    | some info =>
      if service_specific_info_length > 0 then
        { service with
          service_specific_info := some (info.take service_specific_info_length)
          service_specific_info_length := service_specific_info_length }
      else service
    | none => service
  (service, state)

/-- The returned instance id and the new state of service.c `nan_publish`. -/
def nan_publish (sha256 : List Nat → List Nat) (state : nan_service_state)
    (service_name : List Nat) (type : nan_publish_type) (time_to_live : Int)
    (service_specific_info : Option (List Nat)) (service_specific_info_length : Nat) :
    Nat × nan_service_state :=
  let (service, state) := nan_service_new sha256 state service_name time_to_live
    service_specific_info service_specific_info_length
    nan_service_type.PUBLISHED { type := type.toNat, flag := false }
  (service.instance_id, { state with published_services := list_add state.published_services service })

/-- The returned instance id and the new state of service.c `nan_subscribe`. -/
def nan_subscribe (sha256 : List Nat → List Nat) (state : nan_service_state)
    (service_name : List Nat) (type : nan_subscribe_type) (time_to_live : Int)
    (service_specific_info : Option (List Nat)) (service_specific_info_length : Nat) :
    Nat × nan_service_state :=
  let (service, state) := nan_service_new sha256 state service_name time_to_live
    service_specific_info service_specific_info_length
    nan_service_type.SUBSCRIBED { type := type.toNat, flag := false }
  (service.instance_id, { state with subscribed_services := list_add state.subscribed_services service })

/-- The macro `LIST_REMOVE`: the item `LIST_FIND` gives and the list with it
unlinked. -/
def LIST_REMOVE {α : Type} [DecidableEq α] (list : List α) (condition : α → Bool) :
    Option α × List α :=
  match LIST_FIND list condition with
  | none => (none, list)
  | some item => (some item, list_remove list item)

/-- The return value and the new state of service.c `nan_cancel_publish`. -/
def nan_cancel_publish (state : nan_service_state) (publish_id : Nat) : Int × nan_service_state :=
  let r := LIST_REMOVE state.published_services (fun service => service.instance_id = publish_id)
  let state := { state with published_services := r.2 }
  match r.1 with
  | some _ => (0, state)
  | none => (-1, state)

/-- The return value and the new state of service.c `nan_cancel_subscribe`. -/
def nan_cancel_subscribe (state : nan_service_state) (subscribe_id : Nat) :
    Int × nan_service_state :=
  let r := LIST_REMOVE state.subscribed_services (fun service => service.instance_id = subscribe_id)
  let state := { state with subscribed_services := r.2 }
  match r.1 with
  | some _ => (0, state)
  | none => (-1, state)

/-- The effect on a list of writing through the pointer `LIST_FIND` returned:
the first item that meets the condition becomes `item`. -/
def list_store {α : Type} (list : List α) (condition : α → Bool) (item : α) : List α :=
  match list with
  | [] => []
  | current :: next =>
    if condition current then item :: next else current :: list_store next condition item

/-- The return value and the new state of service.c `nan_update_publish`: the
info is reallocated to the new length and the bytes are copied; the member
`service_specific_info_length` is not assigned. -/
def nan_update_publish (state : nan_service_state) (publish_id : Nat)
    (service_specific_info : List Nat) (service_specific_info_length : Nat) :
    Int × nan_service_state :=
  match LIST_FIND state.published_services (fun service => service.instance_id = publish_id) with
  | some service =>
    let service :=
      { service with
        service_specific_info := some (service_specific_info.take service_specific_info_length) }
    (0, { state with
      published_services :=
        list_store state.published_services (fun service => service.instance_id = publish_id)
          service })
  | none => (-1, state)

def nan_should_announce_service (service : nan_service) : Bool :=
  if service.type = nan_service_type.PUBLISHED then
    if service.time_to_live = 0 then false
    else if service.parameters.type = nan_publish_type.PUBLISH_SOLICITED.toNat ∧
        ¬ (service.parameters.flag = true) then false
    else true
  else if service.type = nan_service_type.SUBSCRIBED then
    if service.parameters.type = nan_subscribe_type.SUBSCRIBE_PASSIVE.toNat then false
    else if service.parameters.flag = true then false
    else if service.time_to_live = 0 then false
    else true
  else false

/-- The list `announced_services` after service.c
`nan_get_services_to_announce`. -/
def nan_get_services_to_announce (state : nan_service_state)
    (announced_services : List nan_service) : List nan_service :=
  let announced_services :=
    (state.published_services.filter nan_should_announce_service).foldl list_add
      announced_services
  (state.subscribed_services.filter nan_should_announce_service).foldl list_add
    announced_services

def nan_updated_replied_service (service : nan_service) : nan_service :=
  { service with parameters := { service.parameters with flag := true } }

/-- The body of the loop of service.c `nan_update_announced_services` for one
announced service. -/
def nan_update_announced_service (service : nan_service) : nan_service :=
  let service :=
    if service.time_to_live > 0 then { service with time_to_live := service.time_to_live - 1 }
    else service
  if service.type = nan_service_type.PUBLISHED then
    { service with parameters := { service.parameters with flag := false } }
  else service

/-- The service state after service.c `nan_update_announced_services` ran over
the list `announced_services`, whose items point into the two registries: a
registered service that is in the list is updated, the others are kept. -/
def nan_update_announced_services (state : nan_service_state)
    (announced_services : List nan_service) : nan_service_state :=
  { state with
    published_services := state.published_services.map (fun service =>
      if service ∈ announced_services then nan_update_announced_service service else service)
    subscribed_services := state.subscribed_services.map (fun service =>
      if service ∈ announced_services then nan_update_announced_service service else service) }

/-- One announce round as the daemon runs it in a discovery window:
`nan_get_services_to_announce` into a fresh list, then
`nan_update_announced_services` on that list.  The services announced (as they
were when listed) and the state after the round. -/
def nan_announce_round (state : nan_service_state) : List nan_service × nan_service_state :=
  let announced_services := nan_get_services_to_announce state []
  (announced_services, nan_update_announced_services state announced_services)

/-- A call of one of the four registration functions of service.c. -/
inductive nan_service_call where
  | publish (service_name : List Nat) (type : nan_publish_type) (time_to_live : Int)
      (service_specific_info : Option (List Nat)) (service_specific_info_length : Nat)
  | subscribe (service_name : List Nat) (type : nan_subscribe_type) (time_to_live : Int)
      (service_specific_info : Option (List Nat)) (service_specific_info_length : Nat)
  | cancel_publish (publish_id : Nat)
  | cancel_subscribe (subscribe_id : Nat)
deriving DecidableEq, Repr

/-- The instance id a call returns (`none` for the cancel functions, which
return a status) and the state after it. -/
def nan_service_step (sha256 : List Nat → List Nat) (state : nan_service_state) :
    nan_service_call → Option Nat × nan_service_state
  | nan_service_call.publish name type ttl info len =>
    let r := nan_publish sha256 state name type ttl info len
    (some r.1, r.2)
  | nan_service_call.subscribe name type ttl info len =>
    let r := nan_subscribe sha256 state name type ttl info len
    (some r.1, r.2)
  | nan_service_call.cancel_publish publish_id => (none, (nan_cancel_publish state publish_id).2)
  | nan_service_call.cancel_subscribe subscribe_id =>
    (none, (nan_cancel_subscribe state subscribe_id).2)

/-- The instance ids returned by a sequence of calls, first call first, and the
state after it. -/
def nan_service_run (sha256 : List Nat → List Nat) :
    nan_service_state → List nan_service_call → List Nat × nan_service_state
  | state, [] => ([], state)
  | state, call :: calls =>
    let r := nan_service_step sha256 state call
    let rest := nan_service_run sha256 r.2 calls
    (r.1.toList ++ rest.1, rest.2)

/-! ## Wire buffer (wire.h, wire.c) -/

/-- The cursor buffer `struct buf`.  `data` is the memory the pointer `data`
addresses, `current` the distance of the pointer `current` from it, `end_` the
member `end`. -/
structure buf where
  data : List Nat
  current : Nat
  start : Int
  end_ : Int
  size : Nat
  owned : Bool
  error : Int
deriving DecidableEq, Repr

/-- The allocation of `buf_new_owned`; fresh memory holds zeros. -/
def buf_new_owned (size : Nat) : buf :=
  { data := List.replicate size 0
    current := 0
    size := size
    start := 0
    end_ := to_i32 size
    owned := true
    error := 0 }

def buf_new_copy (data : List Nat) (size : Nat) : buf :=
  let buf := buf_new_owned size
  { buf with data := mem_write buf.data 0 (mem_read data 0 size) }

def buf_new_const (data : List Nat) (size : Nat) : buf :=
  { data := data
    current := 0
    size := size
    start := 0
    end_ := to_i32 size
    owned := false
    error := 0 }

def buf_error (buf : buf) : Int := buf.error

/-- The pointer `buf->current`, as an offset from `buf->data`. -/
def buf_current (buf : buf) : Nat := buf.current

def buf_position (buf : buf) : Nat := buf.current

/-- The difference `buf->end - buf_position(buf)` is formed in `size_t` and
returned as an `int`. -/
def buf_rest (buf : buf) : Int := to_i32 (buf.end_ - (buf_position buf : Int))

/-- The return value and the buffer after `buf_advance`. -/
def buf_advance (buf : buf) (length : Nat) : Int × OpenNAN.buf :=
  if to_i32 length > buf_rest buf then (-1, { buf with error := -1 })
  else (to_i32 length, { buf with current := buf.current + length })

def buf_strip (buf : buf) (length : Nat) : Int × OpenNAN.buf :=
  if length > buf_position buf then (-1, { buf with error := -1 })
  else (to_i32 length, { buf with start := to_i32 (buf.start + length) })

def buf_take (buf : buf) (length : Nat) : Int × OpenNAN.buf :=
  if buf_rest buf < to_i32 length then (-1, { buf with error := -1 })
  else (to_i32 length, { buf with end_ := to_i32 (buf.end_ - length) })

/-- The macro `write(type, to)` for a little-endian store of `n` bytes. -/
def write_le (n : Nat) (buf : buf) (value : Nat) : Int × OpenNAN.buf :=
  if buf_rest buf < (n : Int) then (0, { buf with error := -1 })
  else
    (n, { buf with
      data := mem_write buf.data buf.current (le_bytes value n)
      current := buf.current + n })

/-- The macro `write(type, to)` for a big-endian store of `n` bytes. -/
def write_be (n : Nat) (buf : buf) (value : Nat) : Int × OpenNAN.buf :=
  if buf_rest buf < (n : Int) then (0, { buf with error := -1 })
  else
    (n, { buf with
      data := mem_write buf.data buf.current (le_bytes value n).reverse
      current := buf.current + n })

def write_u8 (buf : buf) (value : Nat) : Int × OpenNAN.buf := write_le 1 buf value
def write_le16 (buf : buf) (value : Nat) : Int × OpenNAN.buf := write_le 2 buf value
def write_be16 (buf : buf) (value : Nat) : Int × OpenNAN.buf := write_be 2 buf value
def write_le32 (buf : buf) (value : Nat) : Int × OpenNAN.buf := write_le 4 buf value
def write_be32 (buf : buf) (value : Nat) : Int × OpenNAN.buf := write_be 4 buf value
def write_le64 (buf : buf) (value : Nat) : Int × OpenNAN.buf := write_le 8 buf value
def write_be64 (buf : buf) (value : Nat) : Int × OpenNAN.buf := write_be 8 buf value

/-- Store of `size` bytes from the memory `bytes`, wire.c `write_bytes`. -/
def write_bytes (buf : buf) (bytes : List Nat) (size : Nat) : Int × OpenNAN.buf :=
  if buf_rest buf < to_i32 size then (-1, { buf with error := -1 })
  else
    (to_i32 size, { buf with
      data := mem_write buf.data buf.current (mem_read bytes 0 size)
      current := buf.current + size })

/-- What a `read_*` call leaves behind: its return value, the value stored
through the out-pointer (`none` when nothing is stored) and the buffer. -/
structure read_result (α : Type) where
  ret : Int
  value : Option α
  buf : buf

/-- The macro `read(type, to)` for a little-endian load of `n` bytes. -/
def read_le (n : Nat) (buf : buf) : read_result Nat :=
  if buf_rest buf < (n : Int) then { ret := 0, value := none, buf := { buf with error := -1 } }
  else
    { ret := n
      value := some (le_value (mem_read buf.data buf.current n) % 256 ^ n)
      buf := { buf with current := buf.current + n } }

/-- The macro `read(type, to)` for a big-endian load of `n` bytes. -/
def read_be (n : Nat) (buf : buf) : read_result Nat :=
  if buf_rest buf < (n : Int) then { ret := 0, value := none, buf := { buf with error := -1 } }
  else
    { ret := n
      value := some (le_value (mem_read buf.data buf.current n).reverse % 256 ^ n)
      buf := { buf with current := buf.current + n } }

def read_u8 (buf : buf) : read_result Nat := read_le 1 buf
def read_le16 (buf : buf) : read_result Nat := read_le 2 buf
def read_be16 (buf : buf) : read_result Nat := read_be 2 buf
def read_le32 (buf : buf) : read_result Nat := read_le 4 buf
def read_be32 (buf : buf) : read_result Nat := read_be 4 buf
def read_le64 (buf : buf) : read_result Nat := read_le 8 buf
def read_be64 (buf : buf) : read_result Nat := read_be 8 buf

/-- Pointer to the next `length` bytes, wire.c `read_bytes`: the value is the
offset of the bytes in `buf.data`. -/
def read_bytes (buf : buf) (length : Nat) : read_result Nat :=
  if buf_rest buf < to_i32 length then { ret := 0, value := none, buf := { buf with error := -1 } }
  else
    { ret := to_i32 length
      value := some buf.current
      buf := { buf with current := buf.current + length } }

/-- Copy of the next `length` bytes, wire.c `read_bytes_copy`. -/
def read_bytes_copy (buf : buf) (length : Nat) : read_result (List Nat) :=
  if buf_rest buf < to_i32 length then { ret := 0, value := none, buf := { buf with error := -1 } }
  else
    { ret := to_i32 length
      value := some (mem_read buf.data buf.current length)
      buf := { buf with current := buf.current + length } }

def ETHER_ADDR_LEN : Nat := 6

/-- The six octets of an address in memory. -/
def ether_addr.octets (a : ether_addr) : List Nat := [a.o0, a.o1, a.o2, a.o3, a.o4, a.o5]

/-- The return value and the buffer after wire.c `write_ether_addr`. -/
def write_ether_addr (buf : buf) (addr : ether_addr) : Int × OpenNAN.buf :=
  if buf_rest buf < ETHER_ADDR_LEN then (-1, { buf with error := -1 })
  else
    (ETHER_ADDR_LEN, { buf with
      data := mem_write buf.data buf.current addr.octets
      current := buf.current + ETHER_ADDR_LEN })

/-- The result of wire.c `read_ether_addr`, which leaves the cursor where it
is; the value is the six octets read. -/
def read_ether_addr (buf : buf) : read_result (List Nat) :=
  if (ETHER_ADDR_LEN : Int) > buf_rest buf then
    { ret := 0, value := none, buf := { buf with error := -1 } }
  else
    { ret := ETHER_ADDR_LEN, value := some (mem_read buf.data buf.current ETHER_ADDR_LEN), buf := buf }

/-- A call of one of the read, write and advance functions of wire.c on a
buffer; `n` is the size in bytes of the integer type. -/
inductive buf_call where
  | advance (length : Nat)
  | write_le (n value : Nat)
  | write_be (n value : Nat)
  | write_ether_addr (addr : ether_addr)
  | write_bytes (bytes : List Nat) (size : Nat)
  | read_le (n : Nat)
  | read_be (n : Nat)
  | read_ether_addr
  | read_bytes (length : Nat)
  | read_bytes_copy (length : Nat)
deriving DecidableEq, Repr

/-- The return value and the buffer after one call. -/
def buf_step (b : buf) : buf_call → Int × buf
  | buf_call.advance length => buf_advance b length
  | buf_call.write_le n value => write_le n b value
  | buf_call.write_be n value => write_be n b value
  | buf_call.write_ether_addr addr => write_ether_addr b addr
  | buf_call.write_bytes bytes size => write_bytes b bytes size
  | buf_call.read_le n => ((read_le n b).ret, (read_le n b).buf)
  | buf_call.read_be n => ((read_be n b).ret, (read_be n b).buf)
  | buf_call.read_ether_addr => ((read_ether_addr b).ret, (read_ether_addr b).buf)
  | buf_call.read_bytes length => ((read_bytes b length).ret, (read_bytes b length).buf)
  | buf_call.read_bytes_copy length =>
    ((read_bytes_copy b length).ret, (read_bytes_copy b length).buf)

/-- The value a call returns when it fails: -1 for `buf_advance`,
`write_ether_addr` and `write_bytes`, 0 for the others. -/
def buf_call.failure : buf_call → Int
  | buf_call.advance _ => -1
  | buf_call.write_ether_addr _ => -1
  | buf_call.write_bytes _ _ => -1
  | _ => 0

/-- The number of bytes a call asks for, as the `int` its range test compares
with `buf_rest(buf)`: `(int)length` or `(int)size`, `(int)sizeof(type)`, or
`ETHER_ADDR_LEN`.  The call is out of range when `buf_rest(buf)` is below it. -/
def buf_call.needed : buf_call → Int
  | buf_call.advance length => to_i32 length
  | buf_call.write_le n _ => n
  | buf_call.write_be n _ => n
  | buf_call.write_ether_addr _ => ETHER_ADDR_LEN
  | buf_call.write_bytes _ size => to_i32 size
  | buf_call.read_le n => n
  | buf_call.read_be n => n
  | buf_call.read_ether_addr => ETHER_ADDR_LEN
  | buf_call.read_bytes length => to_i32 length
  | buf_call.read_bytes_copy length => to_i32 length

/-- The buffer after a sequence of calls, first call first. -/
def buf_run (b : buf) (calls : List buf_call) : buf :=
  calls.foldl (fun b call => (buf_step b call).2) b

/-! ## Receive results (rx.h) -/

def RX_IGNORE_OUI : Int := 7
def RX_IGNORE : Int := 1
def RX_OK : Int := 0
def RX_TOO_SHORT : Int := -1
def RX_UNEXPECTED_FORMAT : Int := -2
def RX_UNEXPECTED_TYPE : Int := -3

/-! ## Service descriptor attribute (attributes.h, tx.c, rx.c) -/

def MASTER_INDICATION_ATTRIBUTE : Nat := 0x00
def CLUSTER_ATTRIBUTE : Nat := 0x01
def SERVICE_DESCRIPTOR_ATTRIBUTE : Nat := 0x03

inductive nan_service_control_type where
  | CONTROL_TYPE_PUBLISH
  | CONTROL_TYPE_SUBSCRIBE
  | CONTROL_TYPE_FOLLOW_UP
deriving DecidableEq, Repr

/-- The value of the enumerator. -/
def nan_service_control_type.toNat : nan_service_control_type → Nat
  | CONTROL_TYPE_PUBLISH => 0
  | CONTROL_TYPE_SUBSCRIBE => 1
  | CONTROL_TYPE_FOLLOW_UP => 2

/-- The bit-fields of `struct nan_service_descriptor_control`, one byte. -/
structure nan_service_descriptor_control where
  service_control_type : Nat
  matching_filter_present : Nat
  service_response_filter_present : Nat
  service_info_present : Nat
  discovery_range_limited : Nat
  binding_bitmap_present : Nat
  reserved : Nat
deriving DecidableEq, Repr

/-- The byte that holds the bit-fields; the first member takes the least
significant bits (little-endian allocation). -/
def nan_service_descriptor_control.to_byte (c : nan_service_descriptor_control) : Nat :=
  c.service_control_type % 4 + 4 * (c.matching_filter_present % 2)
    + 8 * (c.service_response_filter_present % 2) + 16 * (c.service_info_present % 2)
    + 32 * (c.discovery_range_limited % 2) + 64 * (c.binding_bitmap_present % 2)
    + 128 * (c.reserved % 2)

/-- The bit-fields read out of the byte that holds them. -/
def nan_service_descriptor_control.of_byte (b : Nat) : nan_service_descriptor_control :=
  { service_control_type := b % 4
    matching_filter_present := b / 4 % 2
    service_response_filter_present := b / 8 % 2
    service_info_present := b / 16 % 2
    discovery_range_limited := b / 32 % 2
    binding_bitmap_present := b / 64 % 2
    reserved := b / 128 % 2 }

/-- An assignment to bit-fields of the control byte at offset `control`: the
byte is read, the fields are changed by `assign`, the byte is stored. -/
def control_store (data : List Nat) (control : Nat)
    (assign : nan_service_descriptor_control → nan_service_descriptor_control) : List Nat :=
  data.set control (assign (nan_service_descriptor_control.of_byte (data.getD control 0))).to_byte

/-- A parsed descriptor, `struct nan_service_descriptor_attribute`. -/
structure nan_service_descriptor_attribute where
  service_id : nan_service_id
  instance_id : Nat
  requestor_instance_id : Nat
  control : nan_service_descriptor_control
  service_info : Option (List Nat)
  service_info_length : Nat
deriving DecidableEq, Repr

/-- The return value and the buffer after tx.c
`nan_add_service_descriptor_attribute`.  `header` and `control` are pointers
into the buffer, written through without a bounds check; the running
`attribute_length` is a `size_t`. -/
def nan_add_service_descriptor_attribute (buf : buf) (service : nan_service)
    (control_type : nan_service_control_type) (requestor_instance_id : Nat)
    (service_specific_info : Option (List Nat)) (service_specific_info_length : Nat) :
    Int × OpenNAN.buf :=
  let header := buf_current buf
  let buf := { buf with data := buf.data.set header SERVICE_DESCRIPTOR_ATTRIBUTE }
  let buf := (buf_advance buf 3).2
  let attribute_length : Nat := 0
  let w := write_bytes buf service.service_id.byte NAN_SERVICE_ID_LENGTH
  let attribute_length := add_u64 attribute_length (to_u64 w.1)
  let w := write_u8 w.2 service.instance_id
  let attribute_length := add_u64 attribute_length (to_u64 w.1)
  let w := write_u8 w.2 requestor_instance_id
  let attribute_length := add_u64 attribute_length (to_u64 w.1)
  let buf := w.2
  let control := buf_current buf
  let w := buf_advance buf 1
  let attribute_length := add_u64 attribute_length (to_u64 w.1)
  let buf := w.2
  let buf := { buf with data := buf.data.set control 0 }
  let buf := { buf with
    data := control_store buf.data control
      (fun c => { c with service_control_type := control_type.toNat }) }
  let r : Nat × OpenNAN.buf :=
    match service_specific_info with
    | some info =>
      if service_specific_info_length < 256 then
        let buf := { buf with
          data := control_store buf.data control (fun c => { c with service_info_present := 1 }) }
        let w := write_u8 buf service_specific_info_length
        let attribute_length := add_u64 attribute_length (to_u64 w.1)
        let w := write_bytes w.2 info service_specific_info_length
        let attribute_length := add_u64 attribute_length (to_u64 w.1)
        (attribute_length, w.2)
      else (attribute_length, buf)
    | none => (attribute_length, buf)
  let attribute_length := r.1
  let buf := r.2
  let buf := { buf with data := mem_write buf.data (header + 1) (le_bytes attribute_length 2) }
  (to_i32 (add_u64 attribute_length 3), buf)

/-- The descriptor `malloc` returns before any member is written. -/
def nan_service_descriptor_attribute_new : nan_service_descriptor_attribute :=
  { service_id := { byte := [] }
    instance_id := 0
    requestor_instance_id := 0
    control := nan_service_descriptor_control.of_byte 0
    service_info := none
    service_info_length := 0 }

/-- The return value, the buffer and the list after rx.c `nan_parse_sda`; a
`NULL` list is `none`.  A local `length` that a failed read leaves unset
counts as zero. -/
def nan_parse_sda (buf : buf) (service_descriptors : Option (List nan_service_descriptor_attribute)) :
    Int × OpenNAN.buf × Option (List nan_service_descriptor_attribute) :=
  let sda := nan_service_descriptor_attribute_new
  let r := read_bytes_copy buf NAN_SERVICE_ID_LENGTH
  let sda := { sda with
    service_id := match r.value with
      | some bytes => { byte := bytes }
      | none => sda.service_id }
  let r := read_u8 r.buf
  let sda := { sda with instance_id := r.value.getD sda.instance_id }
  let r := read_u8 r.buf
  let sda := { sda with
    requestor_instance_id := r.value.getD sda.requestor_instance_id }
  let r := read_u8 r.buf
  let sda := { sda with
    control := match r.value with
      | some b => nan_service_descriptor_control.of_byte b
      | none => sda.control }
  let buf := r.buf
  let buf := if sda.control.binding_bitmap_present ≠ 0 then (buf_advance buf 2).2 else buf
  let buf :=
    if sda.control.matching_filter_present ≠ 0 then
      let r := read_u8 buf
      (buf_advance r.buf (r.value.getD 0)).2
    else buf
  let buf :=
    if sda.control.service_response_filter_present ≠ 0 then
      let r := read_u8 buf
      (buf_advance r.buf (r.value.getD 0)).2
    else buf
  let r : nan_service_descriptor_attribute × OpenNAN.buf :=
    if sda.control.service_info_present ≠ 0 then
      let r := read_u8 buf
      let sda := { sda with
        service_info_length := r.value.getD sda.service_info_length }
      let r := read_bytes_copy r.buf sda.service_info_length
      ({ sda with
          service_info := some (r.value.getD (List.replicate sda.service_info_length 0)) },
        r.buf)
    else (sda, buf)
  let sda := r.1
  let buf := r.2
  if buf_error buf ≠ 0 then (RX_TOO_SHORT, buf, service_descriptors)
  else
    match service_descriptors with
    | some list => (RX_OK, buf, some (list_add list sda))
    | none => (RX_OK, buf, none)

/-- What rx.c `nan_attribute_read_next` leaves behind: its return value, the
three out-parameters and the frame.  `attribute_data` is the offset of the
attribute's value in the frame's memory. -/
structure attribute_read where
  ret : Int
  attribute_id : Nat
  attribute_length : Nat
  attribute_data : Nat
  frame : buf

/-- The call `nan_attribute_read_next(frame, &attribute_id, &attribute_length,
&data)`; the three values passed in are what the out-parameters held before
the call. -/
def nan_attribute_read_next (frame : buf) (attribute_id attribute_length data : Nat) :
    attribute_read :=
  let r := read_u8 frame
  let attribute_id := r.value.getD attribute_id
  let r := read_le16 r.buf
  let attribute_length := r.value.getD attribute_length
  let r := read_bytes r.buf attribute_length
  let data := r.value.getD data
  let frame := r.buf
  if buf_error frame < 0 then
    { ret := RX_TOO_SHORT, attribute_id := attribute_id, attribute_length := attribute_length,
      attribute_data := data, frame := frame }
  else
    { ret := 3 + (attribute_length : Int), attribute_id := attribute_id,
      attribute_length := attribute_length, attribute_data := data, frame := frame }

/-! ## Events (event.h, event.c) -/

inductive nan_event_type where
  | EVENT_DISCOVERY_RESULT
  | EVENT_REPLIED
  | EVENT_PUBLISH_TERMINATED
  | EVENT_SUBSCRIBE_TERMINATED
  | EVENT_RECEIVE
deriving DecidableEq, Repr

/-- The event data `struct nan_event_discovery_result`. -/
structure nan_event_discovery_result where
  subscribe_id : Nat
  service_specific_info : Option (List Nat)
  service_specific_info_length : Nat
  service_update_indicator : Nat
  publish_id : Nat
  address : ether_addr
deriving DecidableEq, Repr

/-- The event data `struct nan_event_receive`. -/
structure nan_event_receive where
  instance_id : Nat
  peer_instance_id : Nat
  service_specific_info : Option (List Nat)
  service_specific_info_length : Nat
  address : ether_addr
deriving DecidableEq, Repr

/-- What the `void *` event data of a dispatched event points to. -/
inductive nan_event_data where
  | discovery_result (data : nan_event_discovery_result)
  | receive (data : nan_event_receive)
deriving DecidableEq, Repr

/-- A registration, `struct nan_event_listeners_item`; the listener and its
additional data are the numbers of the two pointers, a `NULL` name is `none`. -/
structure nan_event_listeners_item where
  event : nan_event_type
  service_name : Option (List Nat)
  listener : Nat
  additional_data : Nat
deriving DecidableEq, Repr

/-- One invocation `listener(event, event_data, additional_data)`. -/
structure nan_event_listener_call where
  listener : Nat
  event : nan_event_type
  event_data : nan_event_data
  additional_data : Nat
deriving DecidableEq, Repr

/-- The event state, `struct nan_event_state`, together with the record of
the listener invocations made so far, oldest first. -/
structure nan_event_state where
  listeners : List nan_event_listeners_item
  calls : List nan_event_listener_call
deriving DecidableEq, Repr

def nan_event_state_init : nan_event_state :=
  { listeners := [], calls := [] }

/-- The name is copied with `strcpy`. -/
def nan_add_event_listener (state : nan_event_state) (event : nan_event_type)
    (service_name : Option (List Nat)) (listener : Nat) (additional_data : Nat) :
    nan_event_state :=
  let item : nan_event_listeners_item :=
    { event := event
      listener := listener
      additional_data := additional_data
      service_name := none }
  let item :=
    match service_name with
    | some name => { item with service_name := some (c_string name) }
    | none => item
  { state with listeners := list_add state.listeners item }

/-- The C library's `strstr` on two C strings: the offset of the first
occurrence of `needle` in `haystack`, `none` for the `NULL` result. -/
def strstr : List Nat → List Nat → Option Nat
  | [], needle => if needle.isPrefixOf [] then some 0 else none
  | c :: haystack, needle =>
    if needle.isPrefixOf (c :: haystack) then some 0
    else (strstr haystack needle).map (fun offset => offset + 1)

def matches_event (item : nan_event_listeners_item) (event : nan_event_type)
    (service_name : List Nat) : Bool :=
  if item.event ≠ event then false
  else
    match item.service_name with
    | some name => decide (strstr service_name name = some 0)
    | none => true

/-- The listeners that match are invoked in list order, event.c
`nan_dispatch_event`. -/
def nan_dispatch_event (state : nan_event_state) (event : nan_event_type)
    (service_name : List Nat) (data : nan_event_data) : nan_event_state :=
  { state with
    calls := state.calls ++
      (state.listeners.filter (fun item => matches_event item event service_name)).map
        (fun item =>
          { listener := item.listener
            event := event
            event_data := data
            additional_data := item.additional_data }) }

/-! ## Received service discovery (service.c) -/

/-- The value of the enumerator. -/
def nan_service_type.toInt : nan_service_type → Int
  | PUBLISHED => 0
  | SUBSCRIBED => 1

/-- The C library's `memcmp` on two equally long byte sequences. -/
def memcmp_bytes : List Nat → List Nat → Int
  | x :: xs, y :: ys => if x < y then -1 else if x > y then 1 else memcmp_bytes xs ys
  | _, _ => 0

/-- The C library's `memcmp` on the first `n` bytes of two memory regions. -/
def memcmp (a b : List Nat) (n : Nat) : Int := memcmp_bytes (mem_read a 0 n) (mem_read b 0 n)

/-- The service found for a service id; `type` is `PUBLISHED`, `SUBSCRIBED` or
-1 for both, `NULL` is `none`. -/
def nan_get_service_by_service_id (state : nan_service_state) (service_id : nan_service_id)
    (type : Int) : Option nan_service :=
  let service : Option nan_service := none
  let service :=
    if type = nan_service_type.SUBSCRIBED.toInt ∨ type = -1 then
      LIST_FIND state.subscribed_services
        (fun service => memcmp service_id.byte service.service_id.byte NAN_SERVICE_ID_LENGTH = 0)
    else service
  let service :=
    if type = nan_service_type.PUBLISHED.toInt ∨ (type = -1 ∧ service = none) then
      LIST_FIND state.published_services
        (fun service => memcmp service_id.byte service.service_id.byte NAN_SERVICE_ID_LENGTH = 0)
    else service
  service

/-- The effect on a list of services of writing through the pointer
`nan_get_service_by_service_id` returned: the first entry with that service id
becomes `service`. -/
def nan_services_store (services : List nan_service) (service_id : nan_service_id)
    (service : nan_service) : List nan_service :=
  match services with
  | [] => []
  | item :: rest =>
    if memcmp service_id.byte item.service_id.byte NAN_SERVICE_ID_LENGTH = 0 then service :: rest
    else item :: nan_services_store rest service_id service

/-- The service state (a matched published service is written through its
pointer) and the event state after service.c
`nan_handle_received_service_discovery`. -/
def nan_handle_received_service_discovery (state : nan_service_state)
    (event_state : nan_event_state) (self_address source_address destination_address : ether_addr)
    (service_descriptor : nan_service_descriptor_attribute) :
    nan_service_state × nan_event_state :=
  if service_descriptor.control.service_control_type
      = nan_service_control_type.CONTROL_TYPE_PUBLISH.toNat then
    match nan_get_service_by_service_id state service_descriptor.service_id
        nan_service_type.SUBSCRIBED.toInt with
    | none => (state, event_state)
    | some service =>
      let event_data : nan_event_discovery_result :=
        { address := source_address
          publish_id := service_descriptor.instance_id
          subscribe_id := service.instance_id
          service_update_indicator := service.service_update_indicator
          service_specific_info := service_descriptor.service_info
          service_specific_info_length := service_descriptor.service_info_length }
      (state, nan_dispatch_event event_state nan_event_type.EVENT_DISCOVERY_RESULT
        service.service_name (nan_event_data.discovery_result event_data))
  else if service_descriptor.control.service_control_type
      = nan_service_control_type.CONTROL_TYPE_SUBSCRIBE.toNat then
    match nan_get_service_by_service_id state service_descriptor.service_id
        nan_service_type.PUBLISHED.toInt with
    | none => (state, event_state)
    | some service =>
      let service := { service with parameters := { service.parameters with flag := true } }
      ({ state with
          published_services :=
            nan_services_store state.published_services service_descriptor.service_id service },
        event_state)
  else if service_descriptor.control.service_control_type
      = nan_service_control_type.CONTROL_TYPE_FOLLOW_UP.toNat then
    if memcmp self_address.octets destination_address.octets 6 ≠ 0 then (state, event_state)
    else
      match nan_get_service_by_service_id state service_descriptor.service_id (-1) with
      | none => (state, event_state)
      | some service =>
        let event_data : nan_event_receive :=
          { address := source_address
            instance_id := service.instance_id
            peer_instance_id := service_descriptor.instance_id
            service_specific_info := service_descriptor.service_info
            service_specific_info_length := service_descriptor.service_info_length }
        (state, nan_dispatch_event event_state nan_event_type.EVENT_RECEIVE
          service.service_name (nan_event_data.receive event_data))
  else (state, event_state)

/-! ## Master preference and candidates (sync.c) -/

/-- The macro `nan_get_peer_master_rank(peer)`. -/
def nan_get_peer_master_rank (peer : nan_peer) : Nat :=
  nan_calculate_master_rank peer.master_preference peer.random_factor peer.addr

def nan_check_master_candidate (state : nan_sync_state) (peer : nan_peer) : nan_peer :=
  let peer := { peer with master_candidate := false }
  if peer.anchor_master_rank ≠ state.anchor_master_rank then peer
  else
    let peer := if peer.hop_count < state.hop_count then { peer with master_candidate := true } else peer
    let peer :=
      if peer.hop_count = state.hop_count ∧ nan_get_peer_master_rank peer > state.master_rank then
        { peer with master_candidate := true }
      else peer
    peer

/-- The return value and the state after sync.c `nan_update_master_rank`; a
`NULL` address is `none`. -/
def nan_update_master_rank (state : nan_sync_state) (interface_address : Option ether_addr) :
    Bool × nan_sync_state :=
  let interface_address :=
    match interface_address with
    | none => nan_get_address_from_master_rank state.master_rank
    | some address => address
  let new_master_rank :=
    nan_calculate_master_rank state.master_preference state.random_factor interface_address
  if new_master_rank = state.master_rank then (false, state)
  else
    let state := { state with master_rank := new_master_rank }
    let state :=
      if nan_is_anchor_master_self state then
        { state with
          last_anchor_master_rank := state.anchor_master_rank
          anchor_master_rank := state.master_rank }
      else if state.master_rank > state.anchor_master_rank then nan_set_anchor_master_self state
      else state
    (true, state)

/-- The return value and the state after sync.c
`nan_update_master_preference`; `rand_num` is the value `get_rand_num(0, 255)`
returns when it is called. -/
def nan_update_master_preference (state : nan_sync_state) (peer : nan_peer) (now_usec : Nat)
    (rand_num : Nat) : Bool × nan_sync_state :=
  if peer.master_preference = peer.last_master_preference then (false, state)
  else
    let elapsed_dws := nan_time_difference_dw state.last_master_preference_update_usec now_usec
    let updated := false
    let r : Bool × nan_sync_state :=
      if elapsed_dws > NAN_RANDOM_FACTOR_UPDATE_MIN_DW then
        (true, { state with random_factor := rand_num, last_random_factor_update_usec := now_usec })
      else (updated, state)
    let r : Bool × nan_sync_state :=
      if elapsed_dws > NAN_MASTER_PREFERENCE_UPDATE_MIN_DW then
        (true, { r.2 with
          master_preference := NAN_MASTER_PREFERENCE
          last_master_preference_update_usec := now_usec })
      else r
    if r.1 then nan_update_master_rank r.2 none else (false, r.2)

/-- The `uint8_t` counters wrap on `++`. -/
def nan_check_anchor_master_expiration (state : nan_sync_state) : nan_sync_state :=
  if nan_is_anchor_master_self state = true then
    { state with count_dws_without_ambtt_update := 0, count_dws_without_hop_count_update := 0 }
  else
    let state :=
      if state.hop_count = state.last_hop_count then
        { state with
          count_dws_without_hop_count_update := (state.count_dws_without_hop_count_update + 1) % 256 }
      else { state with count_dws_without_hop_count_update := 0 }
    let state :=
      if state.ambtt = state.last_ambtt then
        { state with
          count_dws_without_ambtt_update := (state.count_dws_without_ambtt_update + 1) % 256 }
      else { state with count_dws_without_ambtt_update := 0 }
    if state.count_dws_without_ambtt_update ≥ 3 then nan_set_anchor_master_self state
    else if state.count_dws_without_hop_count_update ≥ 3 then { state with hop_count := 255 }
    else state

/-- The seven `int` counters of sync.c `nan_master_election`; they count peers
of one list and are kept as natural numbers. -/
structure nan_master_election_counts where
  count_higher_mr : Nat
  count_rssi_close : Nat
  count_rssi_middle : Nat
  count_rssi_close_higher_mr : Nat
  count_rssi_close_master_candidate : Nat
  count_rssi_middle_higher_mr : Nat
  count_rssi_middle_master_candidate : Nat
deriving DecidableEq, Repr

/-- The body of the `LIST_FOR_EACH` of `nan_master_election` for one peer.
`TU_TO_USEC(NAN_DW_LENGTH_TU + 4)` expands to `(16 + 4) * 1024`, and
`now_usec - peer->last_update` is a `uint64_t` difference; a peer beyond it is
skipped by `continue`. -/
def nan_master_election_count (state : nan_sync_state) (now_usec : Nat)
    (c : nan_master_election_counts) (peer : nan_peer) : nan_master_election_counts :=
  let peer_master_rank := nan_get_peer_master_rank peer
  if sub_u64 now_usec peer.last_update > (NAN_DW_LENGTH_TU + 4) * 1024 then c
  else
    let c :=
      if peer.rssi_average > RSSI_CLOSE then
        let c := { c with count_rssi_close := c.count_rssi_close + 1 }
        let c :=
          if peer_master_rank > state.master_rank then
            { c with count_rssi_close_higher_mr := c.count_rssi_close_higher_mr + 1 }
          else c
        if peer.master_candidate then
          { c with count_rssi_close_master_candidate := c.count_rssi_close_master_candidate + 1 }
        else c
      else c
    let c :=
      if peer.rssi_average > RSSI_MIDDLE then
        let c := { c with count_rssi_middle := c.count_rssi_middle + 1 }
        let c :=
          if peer_master_rank > state.master_rank then
            { c with count_rssi_middle_higher_mr := c.count_rssi_middle_higher_mr + 1 }
          else c
        if peer.master_candidate then
          { c with count_rssi_middle_master_candidate := c.count_rssi_middle_master_candidate + 1 }
        else c
      else c
    if peer_master_rank > state.master_rank then
      { c with count_higher_mr := c.count_higher_mr + 1 }
    else c

/-- The first `if`/`else` of `nan_master_election`, on the counters the loop
left: master to sync, non-master to master. -/
def nan_master_election_master_step (state : nan_sync_state) (c : nan_master_election_counts) :
    nan_sync_state :=
  if state.role = nan_role.MASTER then
    if c.count_rssi_close_higher_mr ≥ 1 ∨ c.count_rssi_middle_higher_mr ≥ 3 then
      { state with role := nan_role.SYNC }
    else state
  else
    if c.count_rssi_close = 0 ∧ c.count_higher_mr > 0 then
      { state with role := nan_role.MASTER }
    else state

/-- The second `if`/`else` of `nan_master_election`: sync to non-sync when the
role is SYNC, and the branch commented "non-sync -> sync" for every other
role. -/
def nan_master_election_sync_step (state : nan_sync_state) (c : nan_master_election_counts) :
    nan_sync_state :=
  if state.role = nan_role.SYNC then
    if c.count_rssi_close_master_candidate ≥ 1 ∨ c.count_rssi_middle_master_candidate ≥ 3 then
      { state with role := nan_role.NON_SYNC }
    else state
  else
    if c.count_rssi_close_master_candidate = 0 ∧ c.count_rssi_middle_master_candidate < 3 then
      { state with role := nan_role.SYNC }
    else state

/-- The role decided at the end of a discovery window, sync.c
`nan_master_election`: the loop over the peers, then the two steps, the second
on the role the first left. -/
def nan_master_election (state : nan_sync_state) (peers : List nan_peer) (now_usec : Nat) :
    nan_sync_state :=
  let c := peers.foldl (nan_master_election_count state now_usec) ⟨0, 0, 0, 0, 0, 0, 0⟩
  nan_master_election_sync_step (nan_master_election_master_step state c) c

/-! ## Cluster (cluster.h, cluster.c) -/

structure nan_cluster_state where
  cluster_id : ether_addr
  cluster_grade : Nat
deriving DecidableEq, Repr

/-- The constant `NAN_CLUSTER_ID_BASE`. -/
def NAN_CLUSTER_ID_BASE : ether_addr := ⟨0x50, 0x6f, 0x9a, 0x01, 0x00, 0x00⟩

/-- A fresh cluster id, cluster.c `nan_cluster_id_new`; `rand4` and `rand5` are
the two values `get_rand_num(0, 255)` returns. -/
def nan_cluster_id_new (rand4 rand5 : Nat) : ether_addr :=
  { NAN_CLUSTER_ID_BASE with o4 := rand4, o5 := rand5 }

/-- The member `cluster_grade` is left unset by the source; it starts at zero. -/
def nan_cluster_state_init (rand4 rand5 : Nat) : nan_cluster_state :=
  { cluster_id := nan_cluster_id_new rand4 rand5, cluster_grade := 0 }

/-- The comparison of cluster grades, cluster.c `nan_cluster_compare_grade`: 1
when grade A is below grade B, else 0. -/
def nan_cluster_compare_grade (master_preferenceA timestampA master_preferenceB timestampB : Nat) :
    Int :=
  if master_preferenceA = master_preferenceB then
    if (timestampA &&& 0x7ffff) < (timestampB &&& 0x7ffff) then 1 else 0
  else if master_preferenceA < master_preferenceB then 1 else 0

/-! ## Device state (state.h, state.c) -/

/-- The device state, `struct nan_state`, with the flag `desync` that rx.c and
tx.c read.  The hostname and the channel, event and IEEE 802.11 sub-states,
which no embedded function touches, are left out. -/
structure nan_state where
  self_address : ether_addr
  interface_address : ether_addr
  buffer : circular_buf
  peers : nan_peer_state
  timer : nan_timer_state
  cluster : nan_cluster_state
  sync : nan_sync_state
  services : nan_service_state
  desync : Bool
deriving DecidableEq, Repr

/-- The initial state, state.c `init_nan_state`; `rand4` and `rand5` are the
random octets of the cluster id. -/
def init_nan_state (addr : ether_addr) (now_usec : Nat) (rand4 rand5 : Nat) : nan_state :=
  { self_address := addr
    interface_address := addr
    buffer := circular_buf_init 16
    peers := nan_peer_state_init
    timer := nan_timer_state_init now_usec
    cluster := nan_cluster_state_init rand4 rand5
    sync := nan_sync_state_init addr
    services := nan_service_state_init
    desync := false }

/-! ## Beacon attributes (attributes.h, tx.c) -/

def nan_can_send_discovery_beacon (state : nan_state) (now_usec : Nat) : Bool :=
  if state.sync.role ≠ nan_role.MASTER then false
  else if ¬ (nan_timer_initial_scan_done state.timer now_usec = true) then false
  else nan_timer_can_send_discovery_beacon state.timer now_usec

/-- The return value and the buffer after tx.c
`nan_add_master_indication_attribute`.  The packed struct is written through a
pointer to the current position without a bounds check: id, the 16-bit length
2, master preference, random factor; then the buffer advances by its 5 bytes. -/
def nan_add_master_indication_attribute (buf : buf) (state : nan_state) : Int × OpenNAN.buf :=
  let header := buf_current buf
  let data := buf.data.set header MASTER_INDICATION_ATTRIBUTE
  let data := mem_write data (header + 1) (le_bytes 2 2)
  let data := data.set (header + 3) (state.sync.master_preference % 256)
  let data := data.set (header + 4) (state.sync.random_factor % 256)
  let buf := { buf with data := data }
  (5, (buf_advance buf 5).2)

/-- The return value and the buffer after tx.c `nan_add_cluster_attribute`:
id, the 16-bit length 13, the anchor master rank in 8 little-endian bytes, the
hop count, the AMBTT in 4 little-endian bytes; then the buffer advances by the
16 bytes of the packed struct. -/
def nan_add_cluster_attribute (buf : buf) (state : nan_state) : Int × OpenNAN.buf :=
  let header := buf_current buf
  let data := buf.data.set header CLUSTER_ATTRIBUTE
  let data := mem_write data (header + 1) (le_bytes 13 2)
  let data := mem_write data (header + 3) (le_bytes state.sync.anchor_master_rank 8)
  let data := data.set (header + 11) (state.sync.hop_count % 256)
  let data := mem_write data (header + 12) (le_bytes state.sync.ambtt 4)
  let buf := { buf with data := data }
  (16, (buf_advance buf 16).2)

/-! ## Beacon reception (frame.h, frame.c, rx.c) -/

def NAN_SYNC_BEACON : Int := 0
def NAN_DISCOVERY_BEACON : Int := 1
def NAN_SYNC_BEACON_INTERVAL_TU : Nat := 512
def NAN_OUI_TYPE_BEACON : Nat := 0x13
def OUI_LEN : Nat := 3

/-- The constant `NAN_OUI`, the bytes of a `struct oui`. -/
def NAN_OUI : List Nat := [0x50, 0x6f, 0x9a]

/-- The loop of utils.c `oui_equal`, started at byte `i` with `n` bytes left. -/
def oui_equal_from (oui1 oui2 : List Nat) (i : Nat) : Nat → Bool
  | 0 => true
  | n + 1 =>
    if oui1.getD i 0 ≠ oui2.getD i 0 then false else oui_equal_from oui1 oui2 (i + 1) n

def oui_equal (oui1 oui2 : List Nat) : Bool := oui_equal_from oui1 oui2 0 OUI_LEN

def nan_get_beacon_type (beacon_interval : Nat) : Int :=
  if beacon_interval = NAN_DISCOVERY_BEACON_INTERVAL_TU then NAN_DISCOVERY_BEACON
  else if beacon_interval = NAN_SYNC_BEACON_INTERVAL_TU then NAN_SYNC_BEACON
  else -1

/-- The numeric value of a `peer_status`. -/
def peer_status.toInt : peer_status → Int
  | PEER_ADD => 2
  | PEER_UPDATE => 1
  | PEER_OK => 0
  | PEER_MISSING => -1
  | PEER_INTERNAL => -2

/-- The return value and the peer after rx.c
`nan_parse_master_indication_attribute`; a value a failed read leaves unset
counts as zero. -/
def nan_parse_master_indication_attribute (buf : buf) (peer : nan_peer) : Int × nan_peer :=
  let r := read_u8 buf
  let master_preference := r.value.getD 0
  let r := read_u8 r.buf
  let random_factor := r.value.getD 0
  if buf_error r.buf ≠ 0 then (RX_TOO_SHORT, peer)
  else (RX_OK, nan_peer_set_master_indication peer master_preference random_factor)

/-- The return value and the peer after rx.c `nan_parse_cluster_attribute`; a
value a failed read leaves unset counts as zero. -/
def nan_parse_cluster_attribute (buf : buf) (peer : nan_peer) : Int × nan_peer :=
  let r := read_le64 buf
  let anchor_master_rank := r.value.getD 0
  let r := read_u8 r.buf
  let hop_count := r.value.getD 0
  let r := read_le32 r.buf
  let ambtt := r.value.getD 0
  if buf_error r.buf ≠ 0 then (RX_TOO_SHORT, peer)
  else (RX_OK, nan_peer_set_anchor_master_information peer anchor_master_rank ambtt hop_count)

/-- The `while` loop of the macro `NAN_ITERATE_ATTRIBUTES`, one iteration per
unit of fuel (`none` when the fuel runs out).  `handle` is the macro argument:
from the attribute id, length and buffer, the current `result` and the state the
handler works on, it gives the new `result` and state.  The locals
`attribute_id`, `attribute_length` and `attribute_data` keep their values from
one iteration to the next. -/
def NAN_ITERATE_ATTRIBUTES_loop {σ : Type} (handle : Nat → Nat → buf → Int → σ → Int × σ) :
    Nat → buf → Nat → Nat → Nat → Int → σ → Option (buf × Int × σ)
  | 0, _, _, _, _, _, _ => none
  | fuel + 1, frame, attribute_id, attribute_length, attribute_data, result, st =>
    let a := nan_attribute_read_next frame attribute_id attribute_length attribute_data
    if 0 < a.ret then
      let attribute_buf := buf_new_const (a.frame.data.drop a.attribute_data) a.attribute_length
      let h := handle a.attribute_id a.attribute_length attribute_buf result st
      if h.1 < 0 then some (a.frame, h.1, h.2)
      else
        NAN_ITERATE_ATTRIBUTES_loop handle fuel a.frame a.attribute_id a.attribute_length
          a.attribute_data h.1 h.2
    else some (a.frame, result, st)

/-- The macro `NAN_ITERATE_ATTRIBUTES(frame, handle)`: the frame, `result` and
the handler's state after it; the three locals are unset at the start and count
as zero. -/
def NAN_ITERATE_ATTRIBUTES {σ : Type} (handle : Nat → Nat → buf → Int → σ → Int × σ)
    (fuel : Nat) (frame : buf) (result : Int) (st : σ) : Option (OpenNAN.buf × Int × σ) :=
  match NAN_ITERATE_ATTRIBUTES_loop handle fuel frame 0 0 0 result st with
  | none => none
  | some (frame, result, st) =>
    if result < 0 then some (frame, result, st)
    else if buf_rest frame > 0 then some (frame, RX_UNEXPECTED_FORMAT, st)
    else some (frame, RX_OK, st)

/-- What rx.c `nan_parse_beacon_header` leaves behind: its return value, the
two out-parameters and the frame. -/
structure beacon_header where
  result : Int
  beacon_type : Int
  timestamp : Nat
  frame : buf

/-- The call `nan_parse_beacon_header(frame, &beacon_type, &timestamp)`; the
two values passed in are what the out-parameters held before the call. -/
def nan_parse_beacon_header (frame : buf) (beacon_type : Int) (timestamp : Nat) : beacon_header :=
  let r := read_le64 frame
  let timestamp := r.value.getD timestamp
  let r := read_le16 r.buf
  let beacon_interval := r.value.getD 0
  let r := read_le16 r.buf
  let r := read_u8 r.buf
  let r := read_u8 r.buf
  let c := read_bytes_copy r.buf OUI_LEN
  let oui := c.value.getD [0, 0, 0]
  let r := read_u8 c.buf
  let oui_type := r.value.getD 0
  let frame := r.buf
  if buf_error frame ≠ 0 then
    { result := RX_TOO_SHORT, beacon_type := beacon_type, timestamp := timestamp, frame := frame }
  else if ¬ (oui_equal oui NAN_OUI = true) ∨ oui_type ≠ NAN_OUI_TYPE_BEACON then
    { result := RX_IGNORE_OUI, beacon_type := beacon_type, timestamp := timestamp, frame := frame }
  else
    let beacon_type := nan_get_beacon_type beacon_interval
    if beacon_type < 0 then
      { result := RX_UNEXPECTED_TYPE, beacon_type := beacon_type, timestamp := timestamp,
        frame := frame }
    else
      { result := RX_OK, beacon_type := beacon_type, timestamp := timestamp, frame := frame }

/-- The handler `nan_rx_beacon` passes to `NAN_ITERATE_ATTRIBUTES`. -/
def nan_rx_beacon_handle (attribute_id _attribute_length : Nat) (attribute_buf : buf)
    (_result : Int) (peer : nan_peer) : Int × nan_peer :=
  if attribute_id = MASTER_INDICATION_ATTRIBUTE then
    nan_parse_master_indication_attribute attribute_buf peer
  else if attribute_id = CLUSTER_ATTRIBUTE then
    nan_parse_cluster_attribute attribute_buf peer
  else (RX_IGNORE, peer)

/-- The part of rx.c `nan_rx_beacon` after the attribute walk has succeeded
(from `nan_peer_set_beacon_information` to the final `return RX_OK`): the
device state and the peer after it. -/
def nan_rx_beacon_update (state : nan_state) (peer : nan_peer) (peer_status : peer_status)
    (beacon_type : Int) (timestamp : Nat) (cluster_id : ether_addr) (rssi : Int)
    (now_usec rand_num : Nat) : nan_state × nan_peer :=
  let peer := nan_peer_set_beacon_information peer rssi timestamp
  let state := { state with sync := (nan_update_master_preference state.sync peer now_usec rand_num).2 }
  let peer := nan_check_master_candidate state.sync peer
  let peer := { peer with last_beacon_time := now_usec }
  let is_new_cluster := !ether_addr_equal cluster_id state.cluster.cluster_id
  let in_initial_cluster :=
    decide (list_len state.peers.peers = 1) && decide (peer_status = OpenNAN.peer_status.PEER_ADD)
  if is_new_cluster || in_initial_cluster then
    let synced_time_usec := nan_timer_get_synced_time_usec state.timer now_usec
    let result := nan_cluster_compare_grade state.sync.master_preference synced_time_usec
      peer.master_preference timestamp
    if result > 0 then
      let state := { state with cluster := { state.cluster with cluster_id := cluster_id } }
      ({ state with timer := nan_timer_sync_time state.timer now_usec timestamp }, peer)
    else (state, peer)
  else if state.desync then
    let peer :=
      if beacon_type = NAN_SYNC_BEACON then { peer with count_sync := peer.count_sync + 1 }
      else peer
    let peer := { peer with timer := nan_timer_sync_error peer.timer now_usec timestamp }
    let peer := { peer with old_timer := nan_timer_sync_time peer.old_timer now_usec timestamp }
    (state, { peer with old_timer_send_count := 0 })
  else if beacon_type = NAN_SYNC_BEACON then
    let state :=
      if nan_is_anchor_master state.sync peer.addr then
        { state with timer := nan_timer_sync_time state.timer now_usec timestamp }
      else { state with timer := nan_timer_sync_error state.timer now_usec timestamp }
    let synced_time_tu := nan_timer_get_synced_time_tu state.timer now_usec
    ({ state with sync := nan_anchor_master_selection state.sync peer synced_time_tu }, peer)
  else if beacon_type = NAN_DISCOVERY_BEACON then
    if ¬ (nan_is_anchor_master state.sync peer.addr = true) then
      ({ state with timer := nan_timer_sync_error state.timer now_usec timestamp }, peer)
    else (state, peer)
  else (state, peer)

/-- The return value and the device state after rx.c `nan_rx_beacon`, `none`
when the fuel of the attribute walk runs out.  `peer` is a pointer into the
peer table: what the function writes through it is stored in the table when
the function returns.  `rand_num` is the value `get_rand_num(0, 255)` returns
if the master preference update asks for it. -/
def nan_rx_beacon (fuel : Nat) (frame : buf) (state : nan_state)
    (peer_address cluster_id : ether_addr) (rssi : Int) (now_usec rand_num : Nat) :
    Option (Int × nan_state) :=
  let header := nan_parse_beacon_header frame 0 0
  if header.result ≠ RX_OK then some (header.result, state)
  else
    let frame := header.frame
    let added := nan_peer_add state.peers peer_address cluster_id now_usec
    let peer_status := added.1
    let state := { state with peers := added.2 }
    if peer_status.toInt < 0 then some (RX_IGNORE, state)
    else
      match nan_peer_get state.peers peer_address with
      | none => some (RX_IGNORE, state)
      | some peer =>
        let peer :=
          if peer_status = OpenNAN.peer_status.PEER_ADD then
            { peer with
              timer := { nan_timer_state_init state.timer.base_time_usec with
                average_error_state := state.timer.average_error_state }
              old_timer := { nan_timer_state_init state.timer.base_time_usec with
                average_error_state := state.timer.average_error_state } }
          else peer
        let state :=
          if ¬ (nan_timer_initial_scan_done state.timer now_usec = true) then
            { state with timer := nan_timer_initial_scan_cancel state.timer }
          else state
        match NAN_ITERATE_ATTRIBUTES nan_rx_beacon_handle fuel frame header.result peer with
        | none => none
        | some (_, result, peer) =>
          if result < 0 then
            some (result, { state with
              peers := { state.peers with
                peers := nan_peers_store state.peers.peers peer_address peer } })
          else
            let u := nan_rx_beacon_update state peer peer_status header.beacon_type
              header.timestamp cluster_id rssi now_usec rand_num
            some (RX_OK, { u.1 with
              peers := { u.1.peers with
                peers := nan_peers_store u.1.peers.peers peer_address u.2 } })

/-! ## Reading of the specification's master rank order -/

/-- All six octets of an address are bytes. -/
def ether_addr.valid (a : ether_addr) : Prop :=
  a.o0 < 256 ∧ a.o1 < 256 ∧ a.o2 < 256 ∧ a.o3 < 256 ∧ a.o4 < 256 ∧ a.o5 < 256

instance (a : ether_addr) : Decidable a.valid := by
  unfold ether_addr.valid; infer_instance

/-- The value of an address as a 48-bit little-endian integer, octet 5 most
significant (the specification's `addr_bytes_as_LE_u48`). -/
def addr_bytes_as_LE_u48 (a : ether_addr) : Nat :=
  a.o0 + 256 * (a.o1 + 256 * (a.o2 + 256 * (a.o3 + 256 * (a.o4 + 256 * a.o5))))

/-- The specification's order on `(MP, RF, A)`: lexicographically greater,
addresses compared by their 48-bit little-endian value. -/
def master_rank_lex_gt (mp1 rf1 : Nat) (a1 : ether_addr) (mp2 rf2 : Nat) (a2 : ether_addr) : Prop :=
  mp1 > mp2 ∨ (mp1 = mp2 ∧ (rf1 > rf2 ∨
    (rf1 = rf2 ∧ addr_bytes_as_LE_u48 a1 > addr_bytes_as_LE_u48 a2)))

/-- The specification's formula `(MP << 56) | (RF << 48) | addr_bytes_as_LE_u48`. -/
def master_rank_formula (mp rf : Nat) (a : ether_addr) : Nat :=
  (mp <<< 56) ||| (rf <<< 48) ||| addr_bytes_as_LE_u48 a

/-- The specification's `lowercase(s.name)`: the characters of the name, ASCII
letters lower-cased. -/
def lowercase (name : List Nat) : List Nat := (c_string name).map tolower

/-- Reading of the specification: a listener is invoked for an event of a
service when it is registered for that event type and its name filter, if it
has one, is a prefix of the service's name. -/
def listener_selected (item : nan_event_listeners_item) (event : nan_event_type)
    (service_name : List Nat) : Bool :=
  decide (item.event = event) &&
    match item.service_name with
    | none => true
    | some name => name.isPrefixOf service_name

/-! ## Scenarios and invariants used by the properties -/

/-- A timer started at 0 whose moving average of the clock error is 5120 usec. -/
def timer_with_error : nan_timer_state :=
  { now_usec := 0
    base_time_usec := 0
    last_discovery_beacon_usec := 0
    warmup_done := false
    initial_scan_done := true
    average_error := 5120
    average_error_state := moving_average_init 32 }

/-- The peer of scenario S2: its beacon carries the anchor master rank
`rank(254, 254, 02:00:00:00:00:AA)`, hop count 1 and AMBTT 0. -/
def peer_S2 : nan_peer :=
  { nan_peer_new ⟨2, 0, 0, 0, 0, 2⟩ ⟨0x50, 0x6f, 0x9a, 1, 0xcc, 0xdd⟩ with
    anchor_master_rank := nan_calculate_master_rank 254 254 ⟨2, 0, 0, 0, 0, 0xaa⟩
    ambtt := 0
    hop_count := 1 }

/-- The table of one peer, last updated at 100, with a timeout of 50. -/
def peers_at_timeout : nan_peer_state :=
  { nan_peer_state_init with
    peers := [{ nan_peer_new ⟨2, 0, 0, 0, 0, 2⟩ ⟨0x50, 0x6f, 0x9a, 1, 0, 0⟩ with last_update := 100 }]
    timeout_usec := 50
    peer_remove_callback := true }

/-- The invariant of a buffer of capacity `c`: both cursors stay below `c`. -/
def circular_buf_inv (c : Nat) (cbuf : circular_buf) : Prop :=
  cbuf.capacity = c ∧ cbuf.head < c ∧ cbuf.tail < c

/-- A stand-in for the hash function: 32 bytes, each the sum of the message
bytes modulo 256. -/
def sum_digest (data : List Nat) : List Nat := List.replicate 32 (data.sum % 256)

/-- The service "chat" with instance id 1, as `nan_publish` registers it. -/
def service_chat : nan_service :=
  (nan_service_new sum_digest nan_service_state_init [99, 104, 97, 116] (-1) none 0
    nan_service_type.PUBLISHED { type := 0, flag := false }).1

/-- The sync beacon of scenario S1: timestamp 500000, beacon interval 512 TU,
a Master Indication attribute with master preference 200. -/
def beacon_S1 : List Nat :=
  [0x20, 0xa1, 0x07, 0, 0, 0, 0, 0, 0x00, 0x02, 0x20, 0x04, 0xdd, 0x09, 0x50, 0x6f, 0x9a, 0x13,
   0x00, 0x02, 0x00, 200, 0]

/-- The device of scenario S1 (address 02:00:00:00:00:01, cluster id
50:6F:9A:01:AA:BB, master preference 0), started at `now_usec`. -/
def state_S1 (now_usec : Nat) : nan_state := init_nan_state ⟨2, 0, 0, 0, 0, 1⟩ now_usec 0xaa 0xbb

/-- The device of scenario S1, started at 1000, after the beacon of the
scenario arrived at 2000 from 02:00:00:00:00:02 in cluster 50:6F:9A:01:CC:DD. -/
def state_S1_after : nan_state :=
  ((nan_rx_beacon 10 (buf_new_const beacon_S1 23) (state_S1 1000) ⟨2, 0, 0, 0, 0, 2⟩
    ⟨0x50, 0x6f, 0x9a, 1, 0xcc, 0xdd⟩ (-50) 2000 77).map Prod.snd).getD (state_S1 1000)

/-- The table of one peer last updated 11 DW intervals before 6000000 usec,
with the default timeout of 10 DW intervals and a remove callback. -/
def peers_timed_out : nan_peer_state :=
  { nan_peer_state_init with
    peers := [{ nan_peer_new ⟨2, 0, 0, 0, 0, 2⟩ ⟨0x50, 0x6f, 0x9a, 1, 0, 0⟩ with
      last_update := 6000000 - 11 * 512 * 1024 }]
    peer_remove_callback := true }

/-- A device whose election state holds the given master preference, random
factor, anchor master rank, hop count and AMBTT. -/
def sender_state (master_preference random_factor anchor_master_rank hop_count ambtt : Nat) :
    nan_state :=
  { init_nan_state ⟨2, 0, 0, 0, 0, 1⟩ 0 0 0 with
    sync := { nan_sync_state_init ⟨2, 0, 0, 0, 0, 1⟩ with
      master_preference := master_preference
      random_factor := random_factor
      anchor_master_rank := anchor_master_rank
      hop_count := hop_count
      ambtt := ambtt } }

/-- A fresh buffer of 21 bytes after `nan_add_master_indication_attribute` and
`nan_add_cluster_attribute` wrote their attributes for `state`, one after the
other. -/
def beacon_attributes (state : nan_state) : buf :=
  (nan_add_cluster_attribute
    (nan_add_master_indication_attribute (buf_new_owned 21) state).2 state).2

/-- Device B of scenario S3 after `subscribe("chat")`: one subscribed service
with instance id 1. -/
def subscriber_chat : nan_service_state :=
  (nan_subscribe sum_digest nan_service_state_init [99, 104, 97, 116]
    nan_subscribe_type.SUBSCRIBE_ACTIVE (-1) none 0).2

/-- One listener (function 1, additional data 0) for discovery results of
services whose name starts with "chat". -/
def listeners_chat : nan_event_state :=
  nan_add_event_listener nan_event_state_init nan_event_type.EVENT_DISCOVERY_RESULT
    (some [99, 104, 97, 116]) 1 0

/-- The descriptor device A of scenario S3 sends for its published service
"chat" with instance id 7. -/
def descriptor_chat : nan_service_descriptor_attribute :=
  { nan_service_descriptor_attribute_new with
    service_id := nan_service_id_create sum_digest [99, 104, 97, 116]
    instance_id := 7 }

/-- The anchor master 02:00:00:00:00:AA itself as a peer: its beacon carries its
own rank `rank(254, 254, 02:00:00:00:00:AA)` with hop count 0, and its AMBTT is
the low 32 bits of its last timestamp, 1000000. -/
def peer_anchor : nan_peer :=
  { nan_peer_new ⟨2, 0, 0, 0, 0, 0xaa⟩ ⟨0x50, 0x6f, 0x9a, 1, 0xcc, 0xdd⟩ with
    master_preference := 254
    random_factor := 254
    anchor_master_rank := nan_calculate_master_rank 254 254 ⟨2, 0, 0, 0, 0, 0xaa⟩
    last_timestamp := 1000000
    ambtt := 1000000
    hop_count := 0 }

/-- The call `nan_publish("chat", PUBLISH_UNSOLICITED, -1, NULL, 0)`. -/
def publish_chat : nan_service_call :=
  nan_service_call.publish [99, 104, 97, 116] nan_publish_type.PUBLISH_UNSOLICITED (-1) none 0

/-- A device after `nan_publish("chat", PUBLISH_UNSOLICITED, -1, "ab", 2)`: one
published service with instance id 1. -/
def publisher_chat : nan_service_state :=
  (nan_publish sum_digest nan_service_state_init [99, 104, 97, 116]
    nan_publish_type.PUBLISH_UNSOLICITED (-1) (some [97, 98]) 2).2

/-- A peer in the middle range (rssi -70) with master preference 200, last
updated at time 0. -/
def peer_stale : nan_peer :=
  { nan_peer_new ⟨2, 0, 0, 0, 0, 2⟩ ⟨0x50, 0x6f, 0x9a, 1, 0, 0⟩ with
    master_preference := 200
    rssi_average := -70
    last_update := 0 }

/-- The device 02:00:00:00:00:01 after it adopted the anchor master of scenario
S2 from a beacon whose AMBTT is 5. -/
def state_following : nan_sync_state :=
  nan_anchor_master_selection (nan_sync_state_init ⟨2, 0, 0, 0, 0, 1⟩)
    { peer_S2 with ambtt := 5 } 0

/-- What one announce round does to a registered service: it is updated when
it is announced. -/
def nan_announce_step (service : nan_service) : nan_service :=
  if nan_should_announce_service service then nan_update_announced_service service else service

/-- The peer table of one peer last updated at 500, with the default timeout
and a remove callback. -/
def peers_early : nan_peer_state :=
  { nan_peer_state_init with
    peers := [{ nan_peer_new ⟨2, 0, 0, 0, 0, 2⟩ ⟨0x50, 0x6f, 0x9a, 1, 0, 0⟩ with last_update := 500 }]
    peer_remove_callback := true }

/-- The service state after `k` announce rounds. -/
def nan_announce_rounds (k : Nat) (state : nan_service_state) : nan_service_state :=
  Nat.iterate (fun state => (nan_announce_round state).2) k state

/-- Whether the loop of `nan_master_election` counts the peer: the test before
its `continue`, `now_usec - peer->last_update > TU_TO_USEC(NAN_DW_LENGTH_TU + 4)`,
is false. -/
def nan_master_election_counted (now_usec : Nat) (peer : nan_peer) : Bool :=
  decide (¬ sub_u64 now_usec peer.last_update > (NAN_DW_LENGTH_TU + 4) * 1024)

/-- Counter by counter sum of two sets of election counters. -/
def nan_master_election_counts.add (a b : nan_master_election_counts) :
    nan_master_election_counts :=
  { count_higher_mr := a.count_higher_mr + b.count_higher_mr
    count_rssi_close := a.count_rssi_close + b.count_rssi_close
    count_rssi_middle := a.count_rssi_middle + b.count_rssi_middle
    count_rssi_close_higher_mr := a.count_rssi_close_higher_mr + b.count_rssi_close_higher_mr
    count_rssi_close_master_candidate :=
      a.count_rssi_close_master_candidate + b.count_rssi_close_master_candidate
    count_rssi_middle_higher_mr := a.count_rssi_middle_higher_mr + b.count_rssi_middle_higher_mr
    count_rssi_middle_master_candidate :=
      a.count_rssi_middle_master_candidate + b.count_rssi_middle_master_candidate }

/-- A close peer (rssi -50) with master preference 200, last updated at 1000. -/
def peer_close : nan_peer :=
  { nan_peer_new ⟨2, 0, 0, 0, 0, 3⟩ ⟨0x50, 0x6f, 0x9a, 1, 0, 0⟩ with
    master_preference := 200
    rssi_average := -50
    last_update := 1000 }

/-- Whether the frame is a beacon that `nan_rx_beacon` parses without an error:
`nan_parse_beacon_header` returns `RX_OK` for it, and the attribute walk over
the rest of the frame ends with `RX_OK`.  The walk is run with one unit of fuel
more than bytes remain and on a blank peer; its result does not depend on the
peer. -/
def nan_beacon_well_formed (frame : buf) : Prop :=
  (nan_parse_beacon_header frame 0 0).result = RX_OK ∧
  (NAN_ITERATE_ATTRIBUTES nan_rx_beacon_handle
      ((buf_rest (nan_parse_beacon_header frame 0 0).frame).toNat + 1)
      (nan_parse_beacon_header frame 0 0).frame RX_OK
      (nan_peer_new ⟨0, 0, 0, 0, 0, 0⟩ ⟨0, 0, 0, 0, 0, 0⟩)).map (fun r => r.2.1) = some RX_OK

instance (frame : buf) : Decidable (nan_beacon_well_formed frame) := by
  unfold nan_beacon_well_formed; infer_instance

/-! ## Properties -/

theorem ether_addr_equal_self (a : ether_addr) : ether_addr_equal a a = true := by
  simp [ether_addr_equal, ether_addr_equal_from]

theorem nan_is_same_master_rank_issuer_self (r : Nat) :
    nan_is_same_master_rank_issuer r r = true := by
  simp [nan_is_same_master_rank_issuer, nan_is_master_rank_issuer, ether_addr_equal_self]

/-- A state that already carries the peer's anchor values is left alone by the
second half of the selection. -/
theorem nan_anchor_master_selection_other_fix (s : nan_sync_state) (p : nan_peer)
    (h1 : s.anchor_master_rank = p.anchor_master_rank) (h2 : p.ambtt ≤ s.ambtt)
    (h3 : s.hop_count ≤ p.hop_count + 1) :
    nan_anchor_master_selection_other s p = s := by
  unfold nan_anchor_master_selection_other
  have h4 : ¬ s.ambtt < p.ambtt := Nat.not_lt.mpr h2
  have h5 : ¬ s.hop_count > p.hop_count + 1 := Nat.not_lt.mpr h3
  simp [h1, h4, h5]

theorem nan_anchor_master_selection_fix_equal (s : nan_sync_state) (p : nan_peer) (t : Nat)
    (h1 : s.anchor_master_rank = p.anchor_master_rank) (h2 : p.ambtt ≤ s.ambtt)
    (h3 : s.hop_count ≤ p.hop_count + 1) :
    nan_anchor_master_selection s p t = s := by
  unfold nan_anchor_master_selection
  split_ifs with a b c d
  · rfl
  · rfl
  · rfl
  · exfalso
    unfold nan_is_anchor_master_self at b
    rw [h1] at b
    exact d b
  · exact nan_anchor_master_selection_other_fix s p h1 h2 h3

theorem nan_anchor_master_selection_fix_self (s : nan_sync_state) (p : nan_peer) (t : Nat)
    (h1 : nan_is_anchor_master_self s = true) (h2 : s.master_rank ≥ p.anchor_master_rank) :
    nan_anchor_master_selection s p t = s := by
  unfold nan_anchor_master_selection
  split_ifs <;> rfl

theorem nan_anchor_master_selection_other_result (s : nan_sync_state) (p : nan_peer) :
    nan_anchor_master_selection_other s p = s ∨
    ((nan_anchor_master_selection_other s p).anchor_master_rank = p.anchor_master_rank ∧
      p.ambtt ≤ (nan_anchor_master_selection_other s p).ambtt ∧
      (nan_anchor_master_selection_other s p).hop_count ≤ p.hop_count + 1) ∨
    (nan_is_anchor_master_self (nan_anchor_master_selection_other s p) = true ∧
      (nan_anchor_master_selection_other s p).master_rank ≥ p.anchor_master_rank) := by
  have hmod : (p.hop_count + 1) % 256 ≤ p.hop_count + 1 := Nat.mod_le _ _
  unfold nan_anchor_master_selection_other
  by_cases e : s.anchor_master_rank < p.anchor_master_rank
  · rw [if_pos e]
    by_cases f : s.last_anchor_master_rank = p.anchor_master_rank ∧ s.last_ambtt ≥ p.ambtt
    · rw [if_pos f]; exact Or.inl rfl
    · rw [if_neg f]; right; left
      simpa [nan_set_anchor_master_other] using hmod
  · rw [if_neg e]
    by_cases g : s.anchor_master_rank > p.anchor_master_rank
    · rw [if_pos g]
      by_cases h : ¬ (nan_is_same_master_rank_issuer s.anchor_master_rank p.anchor_master_rank = true)
      · rw [if_pos h]; exact Or.inl rfl
      · rw [if_neg h]
        by_cases i : s.master_rank > p.anchor_master_rank
        · rw [if_pos i]; right; right
          simp only [nan_set_anchor_master_self, nan_save_current_anchor_master,
            nan_is_anchor_master_self, nan_is_same_master_rank_issuer_self, true_and]
          exact Nat.le_of_lt i
        · rw [if_neg i]; right; left
          simpa [nan_set_anchor_master_other] using hmod
    · rw [if_neg g]; right; left
      have heq : s.anchor_master_rank = p.anchor_master_rank := by omega
      by_cases j : s.ambtt < p.ambtt
      · by_cases k : s.hop_count > p.hop_count + 1
        · simp only [if_pos j, if_pos k]; exact ⟨heq, le_refl _, Nat.le_succ _⟩
        · simp only [if_pos j, if_neg k]; exact ⟨heq, le_refl _, Nat.not_lt.mp k⟩
      · by_cases k : s.hop_count > p.hop_count + 1
        · simp only [if_neg j, if_pos k]; exact ⟨heq, Nat.not_lt.mp j, Nat.le_succ _⟩
        · simp only [if_neg j, if_neg k]; exact ⟨heq, Nat.not_lt.mp j, Nat.not_lt.mp k⟩

/-- The shapes a state can have after one selection: untouched, carrying the
peer's anchor values, or its own anchor master with a rank that beats the
peer's. -/
theorem nan_anchor_master_selection_result (s : nan_sync_state) (p : nan_peer) (t : Nat) :
    nan_anchor_master_selection s p t = s ∨
    ((nan_anchor_master_selection s p t).anchor_master_rank = p.anchor_master_rank ∧
      p.ambtt ≤ (nan_anchor_master_selection s p t).ambtt ∧
      (nan_anchor_master_selection s p t).hop_count ≤ p.hop_count + 1) ∨
    (nan_is_anchor_master_self (nan_anchor_master_selection s p t) = true ∧
      (nan_anchor_master_selection s p t).master_rank ≥ p.anchor_master_rank) := by
  have hmod : (p.hop_count + 1) % 256 ≤ p.hop_count + 1 := Nat.mod_le _ _
  unfold nan_anchor_master_selection
  split_ifs with a b c d
  · exact Or.inl rfl
  · exact Or.inl rfl
  · exact Or.inl rfl
  · right; left
    rw [nan_anchor_master_selection_other_fix _ p (by simp [nan_set_anchor_master_other])
      (by simp [nan_set_anchor_master_other]) (by simpa [nan_set_anchor_master_other] using hmod)]
    simpa [nan_set_anchor_master_other] using hmod
  · exact nan_anchor_master_selection_other_result s p

/-- C1. Anchor-master selection is idempotent: a second call of
`nan_anchor_master_selection` with the same peer and the same synced time
leaves every field of the sync state as the first call left it. -/
theorem nan_anchor_master_selection_idempotent (s : nan_sync_state) (p : nan_peer) (t : Nat) :
    nan_anchor_master_selection (nan_anchor_master_selection s p t) p t
      = nan_anchor_master_selection s p t := by
  rcases nan_anchor_master_selection_result s p t with h | ⟨h1, h2, h3⟩ | ⟨h1, h2⟩
  · rw [h, h]
  · exact nan_anchor_master_selection_fix_equal _ p t h1 h2 h3
  · exact nan_anchor_master_selection_fix_self _ p t h1 h2

/-- C2. The in-DW predicate holds exactly when the error-corrected time in TU,
taken modulo 512, is at most 16, and that time is
`(now - base_time_usec - average_error) / 1024` in 64-bit unsigned arithmetic. -/
theorem nan_timer_in_dw_iff (state : nan_timer_state) (now_usec : Nat) :
    (nan_timer_in_dw state now_usec = true ↔
      nan_timer_get_fixed_time_tu state now_usec % 512 ≤ 16) ∧
    nan_timer_get_fixed_time_tu state now_usec =
      ((((now_usec : Int) - (state.base_time_usec : Int) - state.average_error) % 2 ^ 64).toNat)
        / 1024 := by
  constructor
  · simp [nan_timer_in_dw, NAN_DW_INTERVAL_TU, NAN_DW_LENGTH_TU]
  · simp only [nan_timer_get_fixed_time_tu, nan_timer_get_fixed_time_usec, USEC_TO_TU, sub_u64,
      to_u64]
    congr 1
    norm_num
    omega

/-- C3, as stated, fails: with an average error of 5 TU the synced time at the
returned instant is 5 TU past a multiple of 512 TU. -/
theorem nan_timer_next_dw_usec_synced_not_aligned :
    ¬ ((nan_timer_in_dw timer_with_error 0 = false → 0 < nan_timer_next_dw_usec timer_with_error 0) ∧
      nan_timer_get_synced_time_tu timer_with_error
        (add_u64 0 (nan_timer_next_dw_usec timer_with_error 0)) % 512 = 0) := by
  decide

/-- C3, amended. The time to the next DW is always positive (at most 512 TU)
and the error-corrected time at the returned instant is DW-aligned; the synced
time is DW-aligned there when the average error is zero. -/
theorem nan_timer_next_dw_usec_fixed_aligned (state : nan_timer_state) (now_usec : Nat) :
    0 < nan_timer_next_dw_usec state now_usec ∧
    nan_timer_next_dw_usec state now_usec ≤ 512 * 1024 ∧
    nan_timer_get_fixed_time_tu state
      (add_u64 now_usec (nan_timer_next_dw_usec state now_usec)) % 512 = 0 ∧
    (state.average_error = 0 →
      nan_timer_get_synced_time_tu state
        (add_u64 now_usec (nan_timer_next_dw_usec state now_usec)) % 512 = 0) := by
  simp only [nan_timer_next_dw_usec, nan_timer_get_fixed_time_tu, nan_timer_get_fixed_time_usec,
    nan_timer_get_synced_time_tu, nan_timer_get_synced_time_usec,
    USEC_TO_TU, TU_TO_USEC, NAN_DW_INTERVAL_TU, sub_u64, add_u64, mul_u64]
  have he : state.average_error = 0 → to_u64 state.average_error = 0 := by
    intro h; rw [h]; rfl
  generalize to_u64 state.average_error = e at he
  refine ⟨?_, ?_, ?_, ?_⟩
  · norm_num; omega
  · norm_num; omega
  · norm_num; omega
  · intro h
    have h0 := he h
    norm_num; omega

theorem nan_timer_next_dw_usec_fixed_aligned_witness :
    (nan_timer_state_init 100).average_error = 0 ∧
    nan_timer_get_synced_time_tu (nan_timer_state_init 100)
      (add_u64 5000 (nan_timer_next_dw_usec (nan_timer_state_init 100) 5000)) % 512 = 0 :=
  ⟨rfl, (nan_timer_next_dw_usec_fixed_aligned (nan_timer_state_init 100) 5000).2.2.2 rfl⟩

theorem addr_bytes_as_LE_u48_lt (a : ether_addr) (ha : a.valid) :
    addr_bytes_as_LE_u48 a < 2 ^ 48 := by
  unfold ether_addr.valid at ha
  unfold addr_bytes_as_LE_u48
  omega

theorem master_rank_formula_eq (mp rf : Nat) (a : ether_addr) (hrf : rf < 256) (ha : a.valid) :
    master_rank_formula mp rf a = 2 ^ 56 * mp + 2 ^ 48 * rf + addr_bytes_as_LE_u48 a := by
  have h48 := addr_bytes_as_LE_u48_lt a ha
  have h1 : 2 ^ 48 * rf < 2 ^ 56 := by omega
  unfold master_rank_formula
  rw [Nat.shiftLeft_eq, Nat.shiftLeft_eq, Nat.mul_comm mp, Nat.mul_comm rf,
    ← Nat.mul_add_lt_is_or h1 mp]
  have h2 : 2 ^ 56 * mp + 2 ^ 48 * rf = 2 ^ 48 * (2 ^ 8 * mp + rf) := by ring
  rw [h2, ← Nat.mul_add_lt_is_or h48]

theorem nan_calculate_master_rank_eq (mp rf : Nat) (a : ether_addr) :
    nan_calculate_master_rank mp rf a = 2 ^ 56 * mp + 2 ^ 48 * rf + addr_bytes_as_LE_u48 a := by
  unfold nan_calculate_master_rank u64_of_le_bytes addr_bytes_as_LE_u48
  ring

theorem election_nan_calculate_master_rank_eq (mp rf : Nat) (a : ether_addr)
    (hmp : mp < 256) (hrf : rf < 256) (ha : a.valid) :
    election_nan_calculate_master_rank mp rf a = nan_calculate_master_rank mp rf a := by
  unfold ether_addr.valid at ha
  simp only [election_nan_calculate_master_rank, nan_calculate_master_rank, u64_of_le_bytes,
    add_u64, Nat.shiftLeft_eq, ether_addr.ether_addr_octet]
  norm_num
  omega

/-- C4. Master rank ordering: for byte-valued master preferences, random
factors and address octets, one master rank is numerically greater than another
exactly when its triple is lexicographically greater, addresses compared as
48-bit little-endian integers; the rank equals
`(MP << 56) | (RF << 48) | addr` for the union based definition of sync.c and
for the shift based definition of election.c. -/
theorem nan_calculate_master_rank_order (mp1 rf1 : Nat) (a1 : ether_addr)
    (mp2 rf2 : Nat) (a2 : ether_addr)
    (hmp1 : mp1 < 256) (hrf1 : rf1 < 256) (ha1 : a1.valid)
    (hmp2 : mp2 < 256) (hrf2 : rf2 < 256) (ha2 : a2.valid) :
    (nan_calculate_master_rank mp1 rf1 a1 > nan_calculate_master_rank mp2 rf2 a2 ↔
      master_rank_lex_gt mp1 rf1 a1 mp2 rf2 a2) ∧
    (election_nan_calculate_master_rank mp1 rf1 a1 > election_nan_calculate_master_rank mp2 rf2 a2 ↔
      master_rank_lex_gt mp1 rf1 a1 mp2 rf2 a2) ∧
    nan_calculate_master_rank mp1 rf1 a1 = master_rank_formula mp1 rf1 a1 ∧
    election_nan_calculate_master_rank mp1 rf1 a1 = master_rank_formula mp1 rf1 a1 := by
  have h1 := addr_bytes_as_LE_u48_lt a1 ha1
  have h2 := addr_bytes_as_LE_u48_lt a2 ha2
  have key : nan_calculate_master_rank mp1 rf1 a1 > nan_calculate_master_rank mp2 rf2 a2 ↔
      master_rank_lex_gt mp1 rf1 a1 mp2 rf2 a2 := by
    rw [nan_calculate_master_rank_eq, nan_calculate_master_rank_eq]
    unfold master_rank_lex_gt
    omega
  refine ⟨key, ?_, ?_, ?_⟩
  · rw [election_nan_calculate_master_rank_eq mp1 rf1 a1 hmp1 hrf1 ha1,
      election_nan_calculate_master_rank_eq mp2 rf2 a2 hmp2 hrf2 ha2]
    exact key
  · rw [nan_calculate_master_rank_eq, master_rank_formula_eq mp1 rf1 a1 hrf1 ha1]
  · rw [election_nan_calculate_master_rank_eq mp1 rf1 a1 hmp1 hrf1 ha1,
      nan_calculate_master_rank_eq, master_rank_formula_eq mp1 rf1 a1 hrf1 ha1]

theorem nan_calculate_master_rank_order_witness :
    (nan_calculate_master_rank 200 100 ⟨2, 0, 0, 0, 0, 1⟩ >
        nan_calculate_master_rank 200 100 ⟨0xff, 0xff, 0xff, 0xff, 0xff, 0⟩ ↔
      master_rank_lex_gt 200 100 ⟨2, 0, 0, 0, 0, 1⟩ 200 100 ⟨0xff, 0xff, 0xff, 0xff, 0xff, 0⟩) ∧
    election_nan_calculate_master_rank 200 100 ⟨2, 0, 0, 0, 0, 1⟩ =
      master_rank_formula 200 100 ⟨2, 0, 0, 0, 0, 1⟩ :=
  have h := nan_calculate_master_rank_order 200 100 ⟨2, 0, 0, 0, 0, 1⟩
    200 100 ⟨0xff, 0xff, 0xff, 0xff, 0xff, 0⟩
    (by decide) (by decide) (by decide) (by decide) (by decide) (by decide)
  ⟨h.1, h.2.2.2⟩

/-- C10. Anchor adoption: when the device is its own anchor master and the
peer reports an anchor master rank above the device's master rank that the
device's own address did not issue, the selection copies the peer's anchor
master rank and AMBTT, sets the hop count to the peer's hop count plus one
(for a peer hop count below 255) and keeps the previous anchor values in
`last_anchor_master_rank` and `last_ambtt`. -/
theorem nan_anchor_master_selection_adopts (s : nan_sync_state) (p : nan_peer) (t : Nat)
    (hself : nan_is_anchor_master_self s = true)
    (hgt : s.master_rank < p.anchor_master_rank)
    (hissuer : nan_is_same_master_rank_issuer s.master_rank p.anchor_master_rank = false) :
    (nan_anchor_master_selection s p t).anchor_master_rank = p.anchor_master_rank ∧
    (nan_anchor_master_selection s p t).ambtt = p.ambtt ∧
    (p.hop_count < 255 → (nan_anchor_master_selection s p t).hop_count = p.hop_count + 1) ∧
    (nan_anchor_master_selection s p t).last_anchor_master_rank = s.anchor_master_rank ∧
    (nan_anchor_master_selection s p t).last_ambtt = s.ambtt := by
  have hne : s.anchor_master_rank ≠ p.anchor_master_rank := by
    intro h
    unfold nan_is_anchor_master_self at hself
    rw [h, hissuer] at hself
    exact Bool.noConfusion hself
  have h1 : ¬ (s.anchor_master_rank = p.anchor_master_rank ∧
      p.ambtt ≤ mul_u64 (mul_u64 t 16) 512) := fun h => hne h.1
  have h2 : ¬ (s.master_rank ≥ p.anchor_master_rank) := Nat.not_le.mpr hgt
  have h3 : ¬ (nan_is_same_master_rank_issuer s.master_rank p.anchor_master_rank = true) := by
    rw [hissuer]; exact Bool.noConfusion
  have hmod : (p.hop_count + 1) % 256 ≤ p.hop_count + 1 := Nat.mod_le _ _
  have hfix : nan_anchor_master_selection s p t = nan_set_anchor_master_other s p := by
    unfold nan_anchor_master_selection
    rw [if_neg h1, if_pos hself, if_neg h2, if_neg h3]
    exact nan_anchor_master_selection_other_fix _ p (by simp [nan_set_anchor_master_other])
      (by simp [nan_set_anchor_master_other]) (by simpa [nan_set_anchor_master_other] using hmod)
  rw [hfix]
  refine ⟨rfl, rfl, ?_, rfl, rfl⟩
  intro h
  show (p.hop_count + 1) % 256 = p.hop_count + 1
  omega

theorem nan_anchor_master_selection_adopts_witness :
    (nan_anchor_master_selection (nan_sync_state_init ⟨2, 0, 0, 0, 0, 1⟩) peer_S2 0).anchor_master_rank
      = nan_calculate_master_rank 254 254 ⟨2, 0, 0, 0, 0, 0xaa⟩ ∧
    (nan_anchor_master_selection (nan_sync_state_init ⟨2, 0, 0, 0, 0, 1⟩) peer_S2 0).hop_count = 2 :=
  have h := nan_anchor_master_selection_adopts (nan_sync_state_init ⟨2, 0, 0, 0, 0, 1⟩) peer_S2 0
    (by decide) (by decide) (by decide)
  ⟨h.1, h.2.2.1 (by decide)⟩

/-! ### Peer cleanup -/

theorem LIST_FIND_eq_none {α : Type} (list : List α) (condition : α → Bool)
    (h : LIST_FIND list condition = none) : ∀ x ∈ list, condition x = false := by
  induction list with
  | nil => intro x hx; cases hx
  | cons item rest ih =>
    unfold LIST_FIND at h
    by_cases hc : condition item = true
    · rw [if_pos hc] at h; cases h
    · rw [if_neg hc] at h
      intro x hx
      rcases List.mem_cons.mp hx with rfl | hx
      · simpa using hc
      · exact ih h x hx

theorem LIST_FIND_mem {α : Type} (list : List α) (condition : α → Bool) (x : α)
    (h : LIST_FIND list condition = some x) : x ∈ list := by
  induction list with
  | nil => cases h
  | cons item rest ih =>
    unfold LIST_FIND at h
    by_cases hc : condition item = true
    · rw [if_pos hc] at h
      cases h
      exact List.mem_cons_self _ _
    · rw [if_neg hc] at h
      exact List.mem_cons_of_mem _ (ih h)

theorem list_remove_length {α : Type} [DecidableEq α] (list : List α) (x : α) (h : x ∈ list) :
    (list_remove list x).length + 1 = list.length := by
  induction list with
  | nil => cases h
  | cons item rest ih =>
    unfold list_remove
    by_cases hc : item = x
    · rw [if_pos hc]; rfl
    · rw [if_neg hc]
      rcases List.mem_cons.mp h with rfl | hx
      · exact absurd rfl hc
      · simp [ih hx]

/-- A run of the cleanup that returns leaves no peer that meets the removal
condition, and keeps the timeout. -/
theorem nan_peers_clean_returned (fuel : Nat) (state : nan_peer_state) (now_usec : Nat)
    (state' : nan_peer_state)
    (h : nan_peers_clean fuel state now_usec = clean_result.returned state') :
    state'.timeout_usec = state.timeout_usec ∧
    ∀ peer ∈ state'.peers, ¬ peer.last_update < sub_u64 now_usec state.timeout_usec := by
  induction fuel generalizing state with
  | zero => cases h
  | succ fuel ih =>
    unfold nan_peers_clean at h
    split at h
    · next hfind =>
      cases h
      refine ⟨rfl, ?_⟩
      intro peer hpeer
      simpa using LIST_FIND_eq_none _ _ hfind peer hpeer
    · next peer hfind =>
      split at h
      · cases h
      · next state1 hrem =>
        simp only [nan_peer_remove] at hrem
        by_cases hcb : state.peer_remove_callback = true
        · rw [if_pos hcb] at hrem
          cases hrem
          exact ih { state with peers := list_remove state.peers peer,
                                peer_remove_calls := state.peer_remove_calls ++ [peer] } h
        · rw [if_neg hcb] at hrem
          cases hrem

/-- With a remove callback installed the cleanup returns within one iteration
per peer, plus one. -/
theorem nan_peers_clean_terminates (fuel : Nat) (state : nan_peer_state) (now_usec : Nat)
    (hcb : state.peer_remove_callback = true) (hfuel : state.peers.length < fuel) :
    ∃ state', nan_peers_clean fuel state now_usec = clean_result.returned state' := by
  induction fuel generalizing state with
  | zero => cases hfuel
  | succ fuel ih =>
    unfold nan_peers_clean
    split
    · exact ⟨state, rfl⟩
    · next peer hfind =>
      have hmem := LIST_FIND_mem _ _ _ hfind
      have hlen := list_remove_length state.peers peer hmem
      simp only [nan_peer_remove, hcb, if_true]
      apply ih
      · rfl
      · show (list_remove state.peers peer).length < fuel
        omega

/-- C5, as stated, fails: a peer with `last_update + timeout_usec == now`
stays in the table. -/
theorem nan_peers_clean_keeps_peer_at_timeout :
    nan_peers_clean 2 peers_at_timeout 150 = clean_result.returned peers_at_timeout ∧
    ∃ peer ∈ peers_at_timeout.peers, peer.last_update + peers_at_timeout.timeout_usec ≤ 150 := by
  decide

/-- C5, amended. After `nan_peers_clean(state, now)` returns, no peer left in
the table satisfies `last_update + timeout_usec < now`; with a remove callback
installed the call returns, after at most one iteration per peer plus one. -/
theorem nan_peers_clean_no_expired_peer (state : nan_peer_state) (now_usec : Nat)
    (hnow : now_usec < 2 ^ 64) (htimeout : state.timeout_usec < 2 ^ 64) :
    (∀ fuel state', nan_peers_clean fuel state now_usec = clean_result.returned state' →
      ∀ peer ∈ state'.peers, ¬ peer.last_update + state'.timeout_usec < now_usec) ∧
    (state.peer_remove_callback = true →
      ∃ state', nan_peers_clean (state.peers.length + 1) state now_usec
        = clean_result.returned state') := by
  constructor
  · intro fuel state' h peer hpeer
    obtain ⟨hto, hkeep⟩ := nan_peers_clean_returned fuel state now_usec state' h
    have := hkeep peer hpeer
    rw [hto]
    unfold sub_u64 at this
    omega
  · intro hcb
    exact nan_peers_clean_terminates _ state now_usec hcb (Nat.lt_succ_self _)

theorem nan_peers_clean_no_expired_peer_witness :
    ∃ state', nan_peers_clean 2 peers_at_timeout 151 = clean_result.returned state' ∧
      ∀ peer ∈ state'.peers, ¬ peer.last_update + state'.timeout_usec < 151 :=
  have h := nan_peers_clean_no_expired_peer peers_at_timeout 151 (by decide) (by decide)
  Exists.elim (h.2 rfl) (fun state' hs => ⟨state', hs, h.1 2 state' hs⟩)

/-! ### Circular buffer -/

theorem circular_buf_inv_init (c : Nat) (hc : 0 < c) : circular_buf_inv c (circular_buf_init c) :=
  ⟨rfl, hc, hc⟩

theorem advance_pointer_inv (c : Nat) (hc : 0 < c) (cbuf : circular_buf)
    (h : cbuf.capacity = c ∧ cbuf.head < c ∧ cbuf.tail < c) :
    circular_buf_inv c (advance_pointer cbuf) := by
  obtain ⟨h1, _, h3⟩ := h
  unfold advance_pointer circular_buf_inv
  cases hf : cbuf.full
  · simp only [Bool.false_eq_true, if_false, h1]
    exact ⟨trivial, Nat.mod_lt _ hc, h3⟩
  · simp only [if_true, h1]
    exact ⟨trivial, Nat.mod_lt _ hc, Nat.mod_lt _ hc⟩

theorem circular_buf_step_inv (c : Nat) (hc : 0 < c) (cbuf : circular_buf)
    (call : circular_buf_call) (h : circular_buf_inv c cbuf) :
    circular_buf_inv c (circular_buf_step cbuf call) := by
  cases call with
  | put data =>
    show circular_buf_inv c (circular_buf_put cbuf data).2
    unfold circular_buf_put
    by_cases hf : circular_buf_full cbuf = true
    · rw [if_pos hf]; exact h
    · rw [if_neg hf]; exact advance_pointer_inv c hc _ h
  | put_override data =>
    exact advance_pointer_inv c hc _ h
  | get data peek =>
    show circular_buf_inv c (circular_buf_get cbuf data peek).2.2
    unfold circular_buf_get
    obtain ⟨h1, h2, h3⟩ := h
    cases circular_buf_empty cbuf
    · cases peek
      · simp only [Bool.false_eq_true, if_false, Bool.not_false, if_true]
        exact ⟨h1, h2, by simp only [retreat_pointer, h1]; exact Nat.mod_lt _ hc⟩
      · exact ⟨h1, h2, h3⟩
    · exact ⟨h1, h2, h3⟩
  | reset =>
    exact ⟨h.1, hc, hc⟩

theorem circular_buf_run_inv (c : Nat) (hc : 0 < c) (calls : List circular_buf_call)
    (cbuf : circular_buf) (h : circular_buf_inv c cbuf) :
    circular_buf_inv c (circular_buf_run cbuf calls) := by
  induction calls generalizing cbuf with
  | nil => exact h
  | cons call calls ih => exact ih _ (circular_buf_step_inv c hc cbuf call h)

/-- C6. Bounded buffer: after any sequence of put, put-override, get and reset
calls on a circular buffer of capacity `c > 0`, `circular_buf_size` is at most
`c`, and `circular_buf_put` on a full buffer returns -1 and leaves the buffer
(head, tail, full flag and stored items) unchanged. -/
theorem circular_buf_bounded (c : Nat) (hc : 0 < c) (calls : List circular_buf_call) :
    circular_buf_size (circular_buf_run (circular_buf_init c) calls) ≤ c ∧
    ∀ data, circular_buf_full (circular_buf_run (circular_buf_init c) calls) = true →
      circular_buf_put (circular_buf_run (circular_buf_init c) calls) data
        = (-1, circular_buf_run (circular_buf_init c) calls) := by
  obtain ⟨h1, h2, h3⟩ := circular_buf_run_inv c hc calls _ (circular_buf_inv_init c hc)
  constructor
  · unfold circular_buf_size
    split_ifs <;> omega
  · intro data hfull
    unfold circular_buf_put
    rw [if_pos hfull]

theorem circular_buf_bounded_witness :
    circular_buf_size (circular_buf_run (circular_buf_init 16)
      ((List.range 20).map circular_buf_call.put)) ≤ 16 ∧
    circular_buf_put (circular_buf_run (circular_buf_init 16)
        ((List.range 20).map circular_buf_call.put)) 99
      = (-1, circular_buf_run (circular_buf_init 16) ((List.range 20).map circular_buf_call.put)) :=
  have h := circular_buf_bounded 16 (by decide) ((List.range 20).map circular_buf_call.put)
  ⟨h.1, h.2 99 (by decide)⟩

/-! ### Service ids -/

theorem c_string_take_strlen (s : List Nat) : s.take (strlen s) = c_string s := by
  unfold strlen c_string
  induction s with
  | nil => rfl
  | cons c rest ih =>
    by_cases hc : c = 0
    · simp [List.takeWhile, hc]
    · simp only [ne_eq, decide_not] at ih
      simp [List.takeWhile, hc, ih]

theorem mem_read_eq_take (data : List Nat) (i n : Nat) (h : i + n ≤ data.length) :
    mem_read data i n = (data.drop i).take n := by
  induction n generalizing i with
  | zero => simp [mem_read]
  | succ n ih =>
    have hi : i < data.length := by omega
    rw [mem_read, ih (i + 1) (by omega), List.drop_eq_getElem_cons hi, List.take_succ_cons]
    simp [List.getD_eq_getElem?_getD, List.getElem?_eq_getElem hi]

theorem nan_service_id_create_eq (sha256 : List Nat → List Nat) (name : List Nat)
    (hsha : ∀ data, (sha256 data).length = 32) :
    nan_service_id_create sha256 name = { byte := (sha256 (lowercase name)).take 6 } := by
  simp only [nan_service_id_create, lowercase, c_string_take_strlen, NAN_SERVICE_ID_LENGTH]
  rw [mem_read_eq_take _ 0 6 (by rw [hsha]; decide)]
  simp

/-- C7. The service id is the first six bytes of the hash of the ASCII
lower-cased name, hashed over exactly `strlen(name)` bytes, for every hash
function with a 32-byte digest; names that are equal after lower-casing get the
same id; and the service that `nan_publish` / `nan_subscribe` append to their
list stores this id. -/
theorem nan_service_id_create_lowercase (sha256 : List Nat → List Nat)
    (hsha : ∀ data, (sha256 data).length = 32)
    (name name' : List Nat) (state : nan_service_state)
    (ptype : nan_publish_type) (stype : nan_subscribe_type) (time_to_live : Int)
    (info : Option (List Nat)) (info_length : Nat) :
    nan_service_id_create sha256 name = { byte := (sha256 (lowercase name)).take 6 } ∧
    (lowercase name).length = strlen name ∧
    (lowercase name = lowercase name' →
      nan_service_id_create sha256 name = nan_service_id_create sha256 name') ∧
    (∃ service, (nan_publish sha256 state name ptype time_to_live info info_length).2.published_services
        = state.published_services ++ [service] ∧
      service.service_id = nan_service_id_create sha256 name) ∧
    (∃ service, (nan_subscribe sha256 state name stype time_to_live info info_length).2.subscribed_services
        = state.subscribed_services ++ [service] ∧
      service.service_id = nan_service_id_create sha256 name) := by
  refine ⟨nan_service_id_create_eq sha256 name hsha, by simp [lowercase, strlen], ?_, ?_, ?_⟩
  · intro h
    rw [nan_service_id_create_eq sha256 name hsha, nan_service_id_create_eq sha256 name' hsha, h]
  · refine ⟨(nan_service_new sha256 state name time_to_live info info_length
      nan_service_type.PUBLISHED { type := ptype.toNat, flag := false }).1, rfl, ?_⟩
    unfold nan_service_new
    cases info with
    | none => rfl
    | some bytes => dsimp only; split <;> rfl
  · refine ⟨(nan_service_new sha256 state name time_to_live info info_length
      nan_service_type.SUBSCRIBED { type := stype.toNat, flag := false }).1, rfl, ?_⟩
    unfold nan_service_new
    cases info with
    | none => rfl
    | some bytes => dsimp only; split <;> rfl

/-- The names "Chat" and "cHAT" get the same service id. -/
theorem nan_service_id_create_lowercase_witness :
    nan_service_id_create sum_digest [67, 104, 97, 116] =
      nan_service_id_create sum_digest [99, 72, 65, 84] :=
  (nan_service_id_create_lowercase sum_digest (fun _ => List.length_replicate _ _)
    [67, 104, 97, 116] [99, 72, 65, 84] nan_service_state_init
    nan_publish_type.PUBLISH_UNSOLICITED nan_subscribe_type.SUBSCRIBE_PASSIVE (-1) none 0).2.2.1
    (by decide)

/-! ### Memory and buffer lemmas -/

theorem mem_write_length (data : List Nat) (pos : Nat) (bytes : List Nat) :
    (mem_write data pos bytes).length = data.length := by
  induction bytes generalizing data pos with
  | nil => rfl
  | cons b bytes ih => rw [mem_write, ih, List.length_set]

theorem mem_write_append_right (pre l : List Nat) (k : Nat) (bytes : List Nat) :
    mem_write (pre ++ l) (pre.length + k) bytes = pre ++ mem_write l k bytes := by
  induction bytes generalizing l k with
  | nil => rfl
  | cons b bytes ih =>
    rw [mem_write, mem_write, List.set_append_right _ _ (Nat.le_add_right _ _),
      Nat.add_sub_cancel_left, Nat.add_assoc, ih]

theorem mem_write_cons_succ (a : Nat) (l : List Nat) (k : Nat) (bytes : List Nat) :
    mem_write (a :: l) (k + 1) bytes = a :: mem_write l k bytes :=
  mem_write_append_right [a] l k bytes |> fun h => by
    simpa [Nat.add_comm] using h

theorem mem_write_prefix (t post bytes : List Nat) (h : t.length = bytes.length) :
    mem_write (t ++ post) 0 bytes = bytes ++ post := by
  induction bytes generalizing t with
  | nil =>
    have : t = [] := List.length_eq_zero.mp h
    subst this; rfl
  | cons b bytes ih =>
    cases t with
    | nil => cases h
    | cons a t =>
      rw [mem_write, List.cons_append, List.set_cons_zero, mem_write_cons_succ,
        ih t (Nat.succ.inj h), List.cons_append]

theorem mem_read_cons_succ (a : Nat) (l : List Nat) (k n : Nat) :
    mem_read (a :: l) (k + 1) n = mem_read l k n := by
  induction n generalizing k with
  | zero => rfl
  | succ n ih => rw [mem_read, mem_read, List.getD_cons_succ, ih]

theorem mem_read_prefix (bytes post : List Nat) :
    mem_read (bytes ++ post) 0 bytes.length = bytes := by
  induction bytes with
  | nil => rfl
  | cons b bytes ih =>
    rw [List.length_cons, mem_read, List.cons_append, List.getD_cons_zero, mem_read_cons_succ, ih]

theorem mem_read_append_right (pre l : List Nat) (k n : Nat) :
    mem_read (pre ++ l) (pre.length + k) n = mem_read l k n := by
  induction n generalizing k with
  | zero => rfl
  | succ n ih =>
    rw [mem_read, mem_read, List.getD_append_right _ _ _ _ (Nat.le_add_right _ _),
      Nat.add_sub_cancel_left, Nat.add_assoc, ih]

theorem to_i32_of_nonneg_lt (x : Int) (h0 : 0 ≤ x) (h1 : x < 2 ^ 31) : to_i32 x = x := by
  unfold to_i32
  have hx : x % 2 ^ 32 = x := Int.emod_eq_of_lt h0 (by omega)
  rw [hx, if_neg (by omega)]

theorem buf_rest_eq (b : buf) (h0 : (b.current : Int) ≤ b.end_) (h1 : b.end_ < 2 ^ 31) :
    buf_rest b = b.end_ - b.current := by
  unfold buf_rest buf_position
  exact to_i32_of_nonneg_lt _ (by omega) (by omega)

theorem buf_advance_ok (b : buf) (n : Nat) (h0 : (b.current : Int) + n ≤ b.end_)
    (h1 : b.end_ < 2 ^ 31) :
    buf_advance b n = ((n : Int), { b with current := b.current + n }) := by
  unfold buf_advance
  rw [buf_rest_eq b (by omega) h1, to_i32_of_nonneg_lt n (by omega) (by omega),
    if_neg (by omega)]

theorem write_le_ok (n : Nat) (b : buf) (value : Nat) (h0 : (b.current : Int) + n ≤ b.end_)
    (h1 : b.end_ < 2 ^ 31) :
    write_le n b value = ((n : Int), { b with
      data := mem_write b.data b.current (le_bytes value n), current := b.current + n }) := by
  unfold write_le
  rw [buf_rest_eq b (by omega) h1, if_neg (by omega)]

theorem write_bytes_ok (b : buf) (bytes : List Nat) (n : Nat)
    (h0 : (b.current : Int) + n ≤ b.end_) (h1 : b.end_ < 2 ^ 31) :
    write_bytes b bytes n = ((n : Int), { b with
      data := mem_write b.data b.current (mem_read bytes 0 n), current := b.current + n }) := by
  unfold write_bytes
  rw [buf_rest_eq b (by omega) h1, to_i32_of_nonneg_lt n (by omega) (by omega),
    if_neg (by omega)]

theorem read_le_ok (n : Nat) (b : buf) (h0 : (b.current : Int) + n ≤ b.end_)
    (h1 : b.end_ < 2 ^ 31) :
    read_le n b =
      { ret := n
        value := some (le_value (mem_read b.data b.current n) % 256 ^ n)
        buf := { b with current := b.current + n } } := by
  unfold read_le
  rw [buf_rest_eq b (by omega) h1, if_neg (by omega)]

theorem read_bytes_ok (b : buf) (n : Nat) (h0 : (b.current : Int) + n ≤ b.end_)
    (h1 : b.end_ < 2 ^ 31) :
    read_bytes b n =
      { ret := n
        value := some b.current
        buf := { b with current := b.current + n } } := by
  unfold read_bytes
  rw [buf_rest_eq b (by omega) h1, to_i32_of_nonneg_lt n (by omega) (by omega),
    if_neg (by omega)]

theorem read_bytes_copy_ok (b : buf) (n : Nat) (h0 : (b.current : Int) + n ≤ b.end_)
    (h1 : b.end_ < 2 ^ 31) :
    read_bytes_copy b n =
      { ret := n
        value := some (mem_read b.data b.current n)
        buf := { b with current := b.current + n } } := by
  unfold read_bytes_copy
  rw [buf_rest_eq b (by omega) h1, to_i32_of_nonneg_lt n (by omega) (by omega),
    if_neg (by omega)]

theorem list_cons_of_length (l : List Nat) (k : Nat) (h : k + 1 ≤ l.length) :
    ∃ a t, l = a :: t ∧ k ≤ t.length := by
  cases l with
  | nil => cases h
  | cons a t => exact ⟨a, t, rfl, Nat.le_of_succ_le_succ h⟩

theorem list_split_13 (l : List Nat) (c L : Nat) (h : c + 13 + L ≤ l.length) :
    ∃ pre a0 a1 a2 a3 a4 a5 a6 a7 a8 a9 a10 a11 a12 t post,
      l = pre ++ a0 :: a1 :: a2 :: a3 :: a4 :: a5 :: a6 :: a7 :: a8 :: a9 :: a10 :: a11 :: a12 ::
        (t ++ post) ∧ pre.length = c ∧ t.length = L := by
  have hl : l = l.take c ++ l.drop c := (List.take_append_drop c l).symm
  have hpre : (l.take c).length = c := by rw [List.length_take]; omega
  have hrest : L + 13 ≤ (l.drop c).length := by rw [List.length_drop]; omega
  generalize l.drop c = rest at hl hrest
  obtain ⟨a0, r0, rfl, h0⟩ := list_cons_of_length rest (L + 12) hrest
  obtain ⟨a1, r1, rfl, h1⟩ := list_cons_of_length r0 (L + 11) h0
  obtain ⟨a2, r2, rfl, h2⟩ := list_cons_of_length r1 (L + 10) h1
  obtain ⟨a3, r3, rfl, h3⟩ := list_cons_of_length r2 (L + 9) h2
  obtain ⟨a4, r4, rfl, h4⟩ := list_cons_of_length r3 (L + 8) h3
  obtain ⟨a5, r5, rfl, h5⟩ := list_cons_of_length r4 (L + 7) h4
  obtain ⟨a6, r6, rfl, h6⟩ := list_cons_of_length r5 (L + 6) h5
  obtain ⟨a7, r7, rfl, h7⟩ := list_cons_of_length r6 (L + 5) h6
  obtain ⟨a8, r8, rfl, h8⟩ := list_cons_of_length r7 (L + 4) h7
  obtain ⟨a9, r9, rfl, h9⟩ := list_cons_of_length r8 (L + 3) h8
  obtain ⟨a10, r10, rfl, h10⟩ := list_cons_of_length r9 (L + 2) h9
  obtain ⟨a11, r11, rfl, h11⟩ := list_cons_of_length r10 (L + 1) h10
  obtain ⟨a12, r12, rfl, h12⟩ := list_cons_of_length r11 (L + 0) h11
  refine ⟨l.take c, a0, a1, a2, a3, a4, a5, a6, a7, a8, a9, a10, a11, a12,
    r12.take L, r12.drop L, ?_, hpre, ?_⟩
  · rw [List.take_append_drop]; exact hl
  · rw [List.length_take]; omega

theorem list_length_six (l : List Nat) (h : l.length = 6) :
    ∃ s0 s1 s2 s3 s4 s5, l = [s0, s1, s2, s3, s4, s5] := by
  obtain ⟨s0, r0, rfl, h0⟩ := list_cons_of_length l 5 (by omega)
  obtain ⟨s1, r1, rfl, h1⟩ := list_cons_of_length r0 4 h0
  obtain ⟨s2, r2, rfl, h2⟩ := list_cons_of_length r1 3 h1
  obtain ⟨s3, r3, rfl, h3⟩ := list_cons_of_length r2 2 h2
  obtain ⟨s4, r4, rfl, h4⟩ := list_cons_of_length r3 1 h3
  obtain ⟨s5, r5, rfl, h5⟩ := list_cons_of_length r4 0 h4
  have : r5 = [] := List.length_eq_zero.mp (by simp only [List.length_cons] at h; omega)
  subst this
  exact ⟨s0, s1, s2, s3, s4, s5, rfl⟩

theorem control_byte_type (control_type : nan_service_control_type) :
    ({ nan_service_descriptor_control.of_byte 0 with
        service_control_type := control_type.toNat }).to_byte = control_type.toNat := by
  cases control_type <;> rfl

theorem control_byte_info (control_type : nan_service_control_type) :
    ({ nan_service_descriptor_control.of_byte control_type.toNat with
        service_info_present := 1 }).to_byte = control_type.toNat + 16 := by
  cases control_type <;> rfl

theorem control_of_byte_info (control_type : nan_service_control_type) :
    nan_service_descriptor_control.of_byte (control_type.toNat + 16) =
      { service_control_type := control_type.toNat
        matching_filter_present := 0
        service_response_filter_present := 0
        service_info_present := 1
        discovery_range_limited := 0
        binding_bitmap_present := 0
        reserved := 0 } := by
  cases control_type <;> rfl

theorem le_bytes_two (v : Nat) : le_bytes v 2 = [v % 256, v / 256 % 256] := rfl
theorem le_bytes_one (v : Nat) : le_bytes v 1 = [v % 256] := rfl

theorem mem_read_self (bytes : List Nat) : mem_read bytes 0 bytes.length = bytes := by
  have h := mem_read_prefix bytes []
  rwa [List.append_nil] at h

theorem mem_write_zero_cons (a x : Nat) (l bytes : List Nat) :
    mem_write (a :: l) 0 (x :: bytes) = x :: mem_write l 0 bytes := by
  rw [mem_write, List.set_cons_zero, mem_write_cons_succ]

theorem mem_write_nil (l : List Nat) (k : Nat) : mem_write l k [] = l := rfl

theorem set_append_add (pre l : List Nat) (k v : Nat) :
    (pre ++ l).set (pre.length + k) v = pre ++ l.set k v := by
  rw [List.set_append_right _ _ (Nat.le_add_right _ _), Nat.add_sub_cancel_left]

theorem set_append_length (pre l : List Nat) (v : Nat) :
    (pre ++ l).set pre.length v = pre ++ l.set 0 v :=
  set_append_add pre l 0 v

theorem getD_append_add (pre l : List Nat) (k : Nat) :
    (pre ++ l).getD (pre.length + k) 0 = l.getD k 0 := by
  rw [List.getD_append_right _ _ _ _ (Nat.le_add_right _ _), Nat.add_sub_cancel_left]

theorem to_u64_natCast (n : Nat) (h : n < 2 ^ 64) : to_u64 (n : Int) = n := by
  unfold to_u64
  omega

theorem add_u64_of_lt (a b : Nat) (h : a + b < 2 ^ 64) : add_u64 a b = a + b :=
  Nat.mod_eq_of_lt h

theorem buf_advance_mk (data : List Nat) (current : Nat) (start end_ : Int) (size : Nat)
    (owned : Bool) (error : Int) (n : Nat) (h0 : (current : Int) + n ≤ end_)
    (h1 : end_ < 2 ^ 31) :
    buf_advance ⟨data, current, start, end_, size, owned, error⟩ n =
      ((n : Int), ⟨data, current + n, start, end_, size, owned, error⟩) :=
  buf_advance_ok _ n h0 h1

theorem write_le_mk (data : List Nat) (current : Nat) (start end_ : Int) (size : Nat)
    (owned : Bool) (error : Int) (n value : Nat) (h0 : (current : Int) + n ≤ end_)
    (h1 : end_ < 2 ^ 31) :
    write_le n ⟨data, current, start, end_, size, owned, error⟩ value =
      ((n : Int), ⟨mem_write data current (le_bytes value n), current + n, start, end_, size,
        owned, error⟩) :=
  write_le_ok n _ value h0 h1

theorem write_bytes_mk (data : List Nat) (current : Nat) (start end_ : Int) (size : Nat)
    (owned : Bool) (error : Int) (bytes : List Nat) (n : Nat) (h0 : (current : Int) + n ≤ end_)
    (h1 : end_ < 2 ^ 31) :
    write_bytes ⟨data, current, start, end_, size, owned, error⟩ bytes n =
      ((n : Int), ⟨mem_write data current (mem_read bytes 0 n), current + n, start, end_, size,
        owned, error⟩) :=
  write_bytes_ok _ bytes n h0 h1

theorem read_le_mk (data : List Nat) (current : Nat) (start end_ : Int) (size : Nat)
    (owned : Bool) (error : Int) (n : Nat) (h0 : (current : Int) + n ≤ end_)
    (h1 : end_ < 2 ^ 31) :
    read_le n ⟨data, current, start, end_, size, owned, error⟩ =
      ⟨(n : Int), some (le_value (mem_read data current n) % 256 ^ n),
        ⟨data, current + n, start, end_, size, owned, error⟩⟩ :=
  read_le_ok n _ h0 h1

theorem read_bytes_mk (data : List Nat) (current : Nat) (start end_ : Int) (size : Nat)
    (owned : Bool) (error : Int) (n : Nat) (h0 : (current : Int) + n ≤ end_)
    (h1 : end_ < 2 ^ 31) :
    read_bytes ⟨data, current, start, end_, size, owned, error⟩ n =
      ⟨(n : Int), some current, ⟨data, current + n, start, end_, size, owned, error⟩⟩ :=
  read_bytes_ok _ n h0 h1

theorem read_bytes_copy_mk (data : List Nat) (current : Nat) (start end_ : Int) (size : Nat)
    (owned : Bool) (error : Int) (n : Nat) (h0 : (current : Int) + n ≤ end_)
    (h1 : end_ < 2 ^ 31) :
    read_bytes_copy ⟨data, current, start, end_, size, owned, error⟩ n =
      ⟨(n : Int), some (mem_read data current n),
        ⟨data, current + n, start, end_, size, owned, error⟩⟩ :=
  read_bytes_copy_ok _ n h0 h1

theorem nan_add_service_descriptor_attribute_bytes
    (pre post t info : List Nat) (a0 a1 a2 a3 a4 a5 a6 a7 a8 a9 a10 a11 a12 : Nat)
    (s0 s1 s2 s3 s4 s5 : Nat)
    (start end_ : Int) (size : Nat) (owned : Bool) (error : Int)
    (service : nan_service) (control_type : nan_service_control_type) (rid : Nat)
    (hsid : service.service_id.byte = [s0, s1, s2, s3, s4, s5])
    (ht : t.length = info.length) (hlen : info.length < 256)
    (hroom : (pre.length : Int) + 13 + info.length ≤ end_) (h31 : end_ < 2 ^ 31) :
    nan_add_service_descriptor_attribute
      { data := pre ++ a0 :: a1 :: a2 :: a3 :: a4 :: a5 :: a6 :: a7 :: a8 :: a9 :: a10 :: a11 ::
          a12 :: (t ++ post)
        current := pre.length, start := start, end_ := end_, size := size, owned := owned,
        error := error }
      service control_type rid (some info) info.length
    = (((13 + info.length : Nat) : Int),
      { data := pre ++ 3 :: (10 + info.length) % 256 :: (10 + info.length) / 256 % 256 ::
          s0 :: s1 :: s2 :: s3 :: s4 :: s5 :: service.instance_id % 256 :: rid % 256 ::
          (control_type.toNat + 16) :: info.length % 256 :: (info ++ post)
        current := pre.length + 13 + info.length, start := start, end_ := end_, size := size,
        owned := owned, error := error }) := by
  simp only [nan_add_service_descriptor_attribute, buf_current, write_u8, NAN_SERVICE_ID_LENGTH,
    SERVICE_DESCRIPTOR_ATTRIBUTE, hsid]
  rw [buf_advance_mk _ _ _ _ _ _ _ 3 (by omega) h31]
  simp only []
  rw [write_bytes_mk _ _ _ _ _ _ _ _ 6 (by push_cast; omega) h31]
  simp only []
  rw [write_le_mk _ _ _ _ _ _ _ 1 _ (by push_cast; omega) h31]
  simp only []
  rw [write_le_mk _ _ _ _ _ _ _ 1 _ (by push_cast; omega) h31]
  simp only []
  rw [buf_advance_mk _ _ _ _ _ _ _ 1 (by push_cast; omega) h31]
  simp only []
  rw [if_pos hlen]
  simp only []
  rw [write_le_mk _ _ _ _ _ _ _ 1 _ (by push_cast; omega) h31]
  simp only []
  rw [write_bytes_mk _ _ _ _ _ _ _ _ info.length (by push_cast; omega) h31]
  simp only []
  have h6 : mem_read [s0, s1, s2, s3, s4, s5] 0 6 = [s0, s1, s2, s3, s4, s5] := rfl
  have hu6 : to_u64 ((6 : Nat) : Int) = 6 := rfl
  have hu1 : to_u64 ((1 : Nat) : Int) = 1 := rfl
  have huL : to_u64 (info.length : Int) = info.length := to_u64_natCast _ (by omega)
  have hsum : add_u64 (add_u64 (add_u64 (add_u64 (add_u64 (add_u64 0 6) 1) 1) 1) 1) info.length
      = 10 + info.length := by
    have e : add_u64 (add_u64 (add_u64 (add_u64 (add_u64 0 6) 1) 1) 1) 1 = 10 := rfl
    rw [e, add_u64_of_lt _ _ (by omega)]
  have hret : to_i32 ((add_u64 (10 + info.length) 3 : Nat) : Int) = ((13 + info.length : Nat) : Int) := by
    rw [add_u64_of_lt _ _ (by omega), to_i32_of_nonneg_lt _ (by omega) (by omega)]
    congr 1
    omega
  simp only [hu6, hu1, huL, hsum, hret, h6, mem_read_self, le_bytes_one, le_bytes_two,
    control_store, Nat.add_assoc, Nat.reduceAdd, set_append_add, set_append_length,
    mem_write_append_right, getD_append_add, mem_write_cons_succ, mem_write_zero_cons,
    mem_write_nil, List.set_cons_succ, List.set_cons_zero, List.getD_cons_succ,
    List.getD_cons_zero, control_byte_type, control_byte_info, mem_write_prefix t post info ht]

theorem nan_attribute_read_next_sda (post info : List Nat) (s0 s1 s2 s3 s4 s5 iid rid ctrl : Nat)
    (hlen : info.length < 256) :
    nan_attribute_read_next
      (buf_new_const
        (3 :: (10 + info.length) % 256 :: (10 + info.length) / 256 % 256 ::
          s0 :: s1 :: s2 :: s3 :: s4 :: s5 :: iid :: rid :: ctrl :: info.length % 256 :: (info ++ post))
        (13 + info.length)) 0 0 0
    = { ret := ((13 + info.length : Nat) : Int)
        attribute_id := 3
        attribute_length := 10 + info.length
        attribute_data := 3
        frame :=
          { data := 3 :: (10 + info.length) % 256 :: (10 + info.length) / 256 % 256 ::
              s0 :: s1 :: s2 :: s3 :: s4 :: s5 :: iid :: rid :: ctrl :: info.length % 256 ::
              (info ++ post)
            current := 13 + info.length
            start := 0
            end_ := ((13 + info.length : Nat) : Int)
            size := 13 + info.length
            owned := false
            error := 0 } } := by
  have hend : to_i32 ((13 + info.length : Nat) : Int) = ((13 + info.length : Nat) : Int) :=
    to_i32_of_nonneg_lt _ (by omega) (by omega)
  have h31 : ((13 + info.length : Nat) : Int) < 2 ^ 31 := by omega
  simp only [nan_attribute_read_next, buf_new_const, read_u8, read_le16, hend]
  rw [read_le_mk _ _ _ _ _ _ _ 1 (by push_cast; omega) h31]
  simp only []
  rw [read_le_mk _ _ _ _ _ _ _ 2 (by push_cast; omega) h31]
  simp only [Option.getD_some, mem_read, List.getD_cons_zero, List.getD_cons_succ, le_value]
  have hl : ((10 + info.length) % 256 + 256 * ((10 + info.length) / 256 % 256 + 256 * 0)) % 256 ^ 2
      = 10 + info.length := by omega
  rw [hl, read_bytes_mk _ _ _ _ _ _ _ _ (by push_cast; omega) h31]
  simp only [Option.getD_some, buf_error, RX_TOO_SHORT]
  rw [if_neg (by decide)]
  congr 1
  · push_cast; ring
  · congr 1
    omega

theorem nan_parse_sda_bytes (post info : List Nat) (s0 s1 s2 s3 s4 s5 iid rid : Nat)
    (control_type : nan_service_control_type)
    (list : List nan_service_descriptor_attribute)
    (hiid : iid < 256) (hrid : rid < 256) (hlen : info.length < 256) :
    (nan_parse_sda
      (buf_new_const
        (s0 :: s1 :: s2 :: s3 :: s4 :: s5 :: iid :: rid :: (control_type.toNat + 16) ::
          info.length % 256 :: (info ++ post))
        (10 + info.length)) (some list)).1 = RX_OK ∧
    (nan_parse_sda
      (buf_new_const
        (s0 :: s1 :: s2 :: s3 :: s4 :: s5 :: iid :: rid :: (control_type.toNat + 16) ::
          info.length % 256 :: (info ++ post))
        (10 + info.length)) (some list)).2.2 =
      some (list ++ [{ service_id := { byte := [s0, s1, s2, s3, s4, s5] }
                       instance_id := iid
                       requestor_instance_id := rid
                       control :=
                         { service_control_type := control_type.toNat
                           matching_filter_present := 0
                           service_response_filter_present := 0
                           service_info_present := 1
                           discovery_range_limited := 0
                           binding_bitmap_present := 0
                           reserved := 0 }
                       service_info := some info
                       service_info_length := info.length }]) := by
  have hend : to_i32 ((10 + info.length : Nat) : Int) = ((10 + info.length : Nat) : Int) :=
    to_i32_of_nonneg_lt _ (by omega) (by omega)
  have h31 : ((10 + info.length : Nat) : Int) < 2 ^ 31 := by omega
  have hc : (control_type.toNat + 16 + 256 * 0) % 256 ^ 1 = control_type.toNat + 16 := by
    cases control_type <;> rfl
  have hi : (iid + 256 * 0) % 256 ^ 1 = iid := by omega
  have hr : (rid + 256 * 0) % 256 ^ 1 = rid := by omega
  have hL : (info.length % 256 + 256 * 0) % 256 ^ 1 = info.length := by omega
  simp only [nan_parse_sda, buf_new_const, read_u8, hend, NAN_SERVICE_ID_LENGTH,
    nan_service_descriptor_attribute_new]
  rw [read_bytes_copy_mk _ _ _ _ _ _ _ 6 (by push_cast; omega) h31]
  simp only []
  rw [read_le_mk _ _ _ _ _ _ _ 1 (by push_cast; omega) h31]
  simp only []
  rw [read_le_mk _ _ _ _ _ _ _ 1 (by push_cast; omega) h31]
  simp only []
  rw [read_le_mk _ _ _ _ _ _ _ 1 (by push_cast; omega) h31]
  simp only [Option.getD_some, mem_read, mem_read_cons_succ, List.getD_cons_zero,
    List.getD_cons_succ, le_value, hc, hi, hr, control_of_byte_info, ne_eq, not_true_eq_false,
    if_false, one_ne_zero, not_false_eq_true, if_true, Nat.reduceAdd]
  rw [read_le_mk _ _ _ _ _ _ _ 1 (by push_cast; omega) h31]
  simp only [Option.getD_some, mem_read, mem_read_cons_succ, List.getD_cons_zero,
    List.getD_cons_succ, le_value, hL, Nat.reduceAdd]
  rw [read_bytes_copy_mk _ _ _ _ _ _ _ info.length (by push_cast; omega) h31]
  simp only [Option.getD_some, mem_read_cons_succ, mem_read_prefix, buf_error, ne_eq,
    not_true_eq_false, if_false, list_add, RX_OK, and_self]

/-- C8. Service Descriptor round trip: for a service with a six-byte service
id, byte-valued instance ids, any control type and a service info of fewer than
256 bytes, written into a buffer with room for it, `nan_attribute_read_next`
on the bytes written returns their number with attribute id 0x03 and an
attribute length equal to the number of value bytes, and `nan_parse_sda` on the
value returns `RX_OK` with a descriptor that carries the same service id,
instance id, requestor instance id, control type and service info. -/
theorem nan_service_descriptor_round_trip (b : buf) (service : nan_service)
    (control_type : nan_service_control_type) (rid : Nat) (info : List Nat)
    (hsid : service.service_id.byte.length = 6)
    (hiid : service.instance_id < 256) (hrid : rid < 256) (hlen : info.length < 256)
    (hroom : (b.current : Int) + 13 + info.length ≤ b.end_)
    (hend : b.end_ ≤ b.data.length) (h31 : b.end_ < 2 ^ 31) :
    let w := nan_add_service_descriptor_attribute b service control_type rid (some info) info.length
    let a := nan_attribute_read_next (buf_new_const (w.2.data.drop b.current) w.1.toNat) 0 0 0
    let p := nan_parse_sda
      (buf_new_const (a.frame.data.drop a.attribute_data) a.attribute_length) (some [])
    w.1 = 13 + info.length ∧
    a.ret = w.1 ∧
    a.attribute_id = SERVICE_DESCRIPTOR_ATTRIBUTE ∧
    a.attribute_length = 10 + info.length ∧
    p.1 = RX_OK ∧
    p.2.2 = some [{ service_id := service.service_id
                    instance_id := service.instance_id
                    requestor_instance_id := rid
                    control :=
                      { service_control_type := control_type.toNat
                        matching_filter_present := 0
                        service_response_filter_present := 0
                        service_info_present := 1
                        discovery_range_limited := 0
                        binding_bitmap_present := 0
                        reserved := 0 }
                    service_info := some info
                    service_info_length := info.length }] := by
  obtain ⟨data, current, start, end_, size, owned, error⟩ := b
  simp only at hroom hend h31
  obtain ⟨pre, a0, a1, a2, a3, a4, a5, a6, a7, a8, a9, a10, a11, a12, t, post, hdata, hpre, ht⟩ :=
    list_split_13 data current info.length (by omega)
  obtain ⟨s0, s1, s2, s3, s4, s5, hs⟩ := list_length_six _ hsid
  subst hdata
  subst hpre
  have hsid' : service.service_id = { byte := [s0, s1, s2, s3, s4, s5] } := by
    cases hb : service.service_id
    rw [hb] at hs
    simp only at hs
    rw [hs]
  have hw := nan_add_service_descriptor_attribute_bytes pre post t info
    a0 a1 a2 a3 a4 a5 a6 a7 a8 a9 a10 a11 a12 s0 s1 s2 s3 s4 s5 start end_ size owned error
    service control_type rid hs ht hlen hroom h31
  have ha := nan_attribute_read_next_sda post info s0 s1 s2 s3 s4 s5 (service.instance_id % 256)
    (rid % 256) (control_type.toNat + 16) hlen
  have hp := nan_parse_sda_bytes post info s0 s1 s2 s3 s4 s5 service.instance_id rid control_type
    [] hiid hrid hlen
  rw [Nat.mod_eq_of_lt hiid, Nat.mod_eq_of_lt hrid] at ha hw
  simp only [hw, List.drop_left, Int.toNat_ofNat, ha, List.drop_succ_cons, List.drop_zero, hp,
    hsid', List.nil_append, SERVICE_DESCRIPTOR_ATTRIBUTE, and_true]
  push_cast
  rfl

theorem nan_service_descriptor_round_trip_witness :
    (nan_parse_sda
      (buf_new_const
        ((nan_add_service_descriptor_attribute (buf_new_owned 40) service_chat
          nan_service_control_type.CONTROL_TYPE_FOLLOW_UP 7 (some [104, 105]) 2).2.data.drop 3)
        12) (some [])).1 = RX_OK :=
  (nan_service_descriptor_round_trip (buf_new_owned 40) service_chat
    nan_service_control_type.CONTROL_TYPE_FOLLOW_UP 7 [104, 105]
    (by decide) (by decide) (by decide) (by decide) (by decide) (by decide) (by decide)).2.2.2.2.1

/-! ### Beacon reception -/

theorem LIST_FIND_some_condition {α : Type} (list : List α) (condition : α → Bool) (x : α)
    (h : LIST_FIND list condition = some x) : condition x = true := by
  induction list with
  | nil => cases h
  | cons item rest ih =>
    unfold LIST_FIND at h
    by_cases hc : condition item = true
    · rw [if_pos hc] at h
      cases h
      exact hc
    · rw [if_neg hc] at h
      exact ih h

/-- A peer written through the pointer that `nan_peer_get` returned is the
peer the next `nan_peer_get` for the same address returns. -/
theorem nan_peers_store_get (peers : List nan_peer) (addr : ether_addr) (found peer : nan_peer)
    (hfound : LIST_FIND peers (fun p => ether_addr_equal p.addr addr) = some found)
    (haddr : ether_addr_equal peer.addr addr = true) :
    LIST_FIND (nan_peers_store peers addr peer) (fun p => ether_addr_equal p.addr addr)
      = some peer := by
  induction peers with
  | nil => cases hfound
  | cons item rest ih =>
    unfold LIST_FIND at hfound
    unfold nan_peers_store
    by_cases hc : ether_addr_equal item.addr addr = true
    · rw [if_pos hc]
      unfold LIST_FIND
      rw [if_pos haddr]
    · rw [if_neg hc]
      simp only [hc] at hfound
      unfold LIST_FIND
      simp only [hc]
      exact ih hfound

theorem to_u64_to_i64 (n : Nat) : to_u64 (to_i64 n) = n % 2 ^ 64 := by
  unfold to_u64 to_i64
  split <;> omega

/-- After a hard re-base the synced time at `now` is the timestamp, modulo
2^64. -/
theorem nan_timer_sync_time_synced (state : nan_timer_state) (now_usec timestamp : Nat) :
    nan_timer_get_synced_time_usec (nan_timer_sync_time state now_usec timestamp) now_usec
      = timestamp % 2 ^ 64 := by
  simp only [nan_timer_sync_time, nan_timer_get_synced_time_usec, to_u64_to_i64]
  unfold sub_u64 add_u64
  omega

/-- An invariant of the handler's state that every handler call keeps is kept
by the attribute walk. -/
theorem NAN_ITERATE_ATTRIBUTES_loop_invariant {σ : Type}
    (handle : Nat → Nat → buf → Int → σ → Int × σ) (P : σ → Prop)
    (hP : ∀ id len b r st, P st → P (handle id len b r st).2)
    (fuel : Nat) (frame : buf) (id len data : Nat) (result : Int) (st : σ)
    (frame' : buf) (result' : Int) (st' : σ) (hst : P st)
    (h : NAN_ITERATE_ATTRIBUTES_loop handle fuel frame id len data result st
      = some (frame', result', st')) : P st' := by
  induction fuel generalizing frame id len data result st with
  | zero => cases h
  | succ fuel ih =>
    unfold NAN_ITERATE_ATTRIBUTES_loop at h
    simp only at h
    split at h
    · split at h
      · cases h
        exact hP _ _ _ _ _ hst
      · exact ih _ _ _ _ _ _ (hP _ _ _ _ _ hst) h
    · cases h
      exact hst

theorem NAN_ITERATE_ATTRIBUTES_invariant {σ : Type}
    (handle : Nat → Nat → buf → Int → σ → Int × σ) (P : σ → Prop)
    (hP : ∀ id len b r st, P st → P (handle id len b r st).2)
    (fuel : Nat) (frame : buf) (result : Int) (st : σ)
    (frame' : buf) (result' : Int) (st' : σ) (hst : P st)
    (h : NAN_ITERATE_ATTRIBUTES handle fuel frame result st = some (frame', result', st')) :
    P st' := by
  unfold NAN_ITERATE_ATTRIBUTES at h
  split at h
  · cases h
  · next f r s hloop =>
    have hs := NAN_ITERATE_ATTRIBUTES_loop_invariant handle P hP fuel frame 0 0 0 result st f r s
      hst hloop
    split at h
    · cases h; exact hs
    · split at h
      · cases h; exact hs
      · cases h; exact hs

theorem nan_rx_beacon_handle_addr (id len : Nat) (b : buf) (r : Int) (peer : nan_peer) :
    (nan_rx_beacon_handle id len b r peer).2.addr = peer.addr := by
  unfold nan_rx_beacon_handle nan_parse_master_indication_attribute nan_parse_cluster_attribute
    nan_peer_set_master_indication nan_peer_set_anchor_master_information
  simp only
  split_ifs <;> rfl

theorem nan_check_master_candidate_fields (state : nan_sync_state) (peer : nan_peer) :
    (nan_check_master_candidate state peer).addr = peer.addr ∧
    (nan_check_master_candidate state peer).master_preference = peer.master_preference := by
  unfold nan_check_master_candidate
  simp only
  split_ifs <;> exact ⟨rfl, rfl⟩

/-- The second half of `nan_rx_beacon` leaves the peer's address, its master
preference and the peer table as they are. -/
theorem nan_rx_beacon_update_keeps (state : nan_state) (peer : nan_peer) (status : peer_status)
    (beacon_type : Int) (timestamp : Nat) (cluster_id : ether_addr) (rssi : Int)
    (now_usec rand_num : Nat) :
    (nan_rx_beacon_update state peer status beacon_type timestamp cluster_id rssi now_usec
      rand_num).2.addr = peer.addr ∧
    (nan_rx_beacon_update state peer status beacon_type timestamp cluster_id rssi now_usec
      rand_num).2.master_preference = peer.master_preference ∧
    (nan_rx_beacon_update state peer status beacon_type timestamp cluster_id rssi now_usec
      rand_num).1.peers = state.peers := by
  have h := nan_check_master_candidate_fields
    (nan_update_master_preference state.sync (nan_peer_set_beacon_information peer rssi timestamp)
      now_usec rand_num).2
    (nan_peer_set_beacon_information peer rssi timestamp)
  have h1 : (nan_peer_set_beacon_information peer rssi timestamp).addr = peer.addr := rfl
  have h2 : (nan_peer_set_beacon_information peer rssi timestamp).master_preference
      = peer.master_preference := rfl
  rw [h1, h2] at h
  unfold nan_rx_beacon_update
  simp only
  split_ifs <;> exact ⟨h.1, h.2, rfl⟩

/-- With a beacon from another cluster, a device whose master preference
(after the update the beacon triggers) is below the peer's adopts the cluster
and re-bases its timer. -/
theorem nan_rx_beacon_update_adopts (state : nan_state) (peer : nan_peer) (status : peer_status)
    (beacon_type : Int) (timestamp : Nat) (cluster_id : ether_addr) (rssi : Int)
    (now_usec rand_num : Nat)
    (hcluster : ether_addr_equal cluster_id state.cluster.cluster_id = false)
    (hmp : (nan_rx_beacon_update state peer status beacon_type timestamp cluster_id rssi now_usec
        rand_num).1.sync.master_preference < peer.master_preference) :
    (nan_rx_beacon_update state peer status beacon_type timestamp cluster_id rssi now_usec
      rand_num).1.cluster.cluster_id = cluster_id ∧
    nan_timer_get_synced_time_usec
      (nan_rx_beacon_update state peer status beacon_type timestamp cluster_id rssi now_usec
        rand_num).1.timer now_usec = timestamp % 2 ^ 64 := by
  have h := nan_check_master_candidate_fields
    (nan_update_master_preference state.sync (nan_peer_set_beacon_information peer rssi timestamp)
      now_usec rand_num).2
    (nan_peer_set_beacon_information peer rssi timestamp)
  have h2 : (nan_peer_set_beacon_information peer rssi timestamp).master_preference
      = peer.master_preference := rfl
  rw [h2] at h
  unfold nan_rx_beacon_update at hmp ⊢
  simp only [hcluster, Bool.not_false, Bool.true_or, if_true, h.2] at hmp ⊢
  split_ifs at hmp ⊢ with hres
  · exact ⟨rfl, nan_timer_sync_time_synced _ _ _⟩
  · exfalso
    apply hres
    simp only at hmp
    unfold nan_cluster_compare_grade
    rw [if_neg (Nat.ne_of_lt hmp), if_pos hmp]
    decide

/-- C9, as stated, fails: the device has master preference 0 when the beacon
with master preference 200 and timestamp 500000 arrives from another cluster,
200.51 s after the clock's origin and 510000 usec after the device started; the
beacon makes the device refresh its own master preference to 200 first, the
grades then compare by timestamp, and the device keeps its cluster id and its
clock. -/
theorem nan_rx_beacon_keeps_cluster_after_refresh :
    (state_S1 200000000).sync.master_preference = 0 ∧
    ether_addr_equal ⟨0x50, 0x6f, 0x9a, 1, 0xcc, 0xdd⟩ (state_S1 200000000).cluster.cluster_id = false ∧
    (nan_rx_beacon 10 (buf_new_const beacon_S1 23) (state_S1 200000000) ⟨2, 0, 0, 0, 0, 2⟩
        ⟨0x50, 0x6f, 0x9a, 1, 0xcc, 0xdd⟩ (-50) 200510000 77).map
      (fun r => (r.1, (nan_peer_get r.2.peers ⟨2, 0, 0, 0, 0, 2⟩).map (fun p => p.master_preference),
        r.2.cluster.cluster_id, nan_timer_get_synced_time_usec r.2.timer 200510000))
      = some (RX_OK, some 200, ⟨0x50, 0x6f, 0x9a, 1, 0xaa, 0xbb⟩, 510000) := by
  decide

theorem nan_parse_beacon_header_timestamp_lt (frame : buf) :
    (nan_parse_beacon_header frame 0 0).timestamp < 2 ^ 64 := by
  unfold nan_parse_beacon_header
  have h : (read_le64 frame).value.getD 0 < 2 ^ 64 := by
    unfold read_le64 read_le
    split
    · show (0 : Nat) < 2 ^ 64
      decide
    · exact Nat.mod_lt _ (by decide)
  simp only
  split_ifs <;> exact h

theorem to_i32_sub (x n : Int) (h0 : 0 ≤ n) (h1 : n ≤ to_i32 x) :
    to_i32 (x - n) = to_i32 x - n := by
  unfold to_i32 at h1 ⊢
  split_ifs at h1 ⊢ <;> omega

theorem buf_rest_advance (b : buf) (n : Nat) (h : (n : Int) ≤ buf_rest b) :
    buf_rest { b with current := b.current + n } = buf_rest b - n := by
  unfold buf_rest buf_position at h ⊢
  show to_i32 (b.end_ - ((b.current + n : Nat) : Int)) = _
  rw [Nat.cast_add, ← sub_sub]
  exact to_i32_sub _ _ (by omega) h

/-- A read of `n` bytes either fails and only sets the error flag, or moves
the cursor by `n` and delivers a value below `256 ^ n`. -/
theorem read_le_buf (n : Nat) (b : buf) :
    (read_le n b).buf = { b with error := -1 } ∨
    ((read_le n b).buf = { b with current := b.current + n } ∧ (n : Int) ≤ buf_rest b ∧
      ∃ v, (read_le n b).value = some v ∧ v < 256 ^ n) := by
  unfold read_le
  by_cases h : buf_rest b < n
  · left; rw [if_pos h]
  · right; rw [if_neg h]
    exact ⟨rfl, by omega, _, rfl, Nat.mod_lt _ (by positivity)⟩

theorem read_bytes_buf (b : buf) (length : Nat) :
    (read_bytes b length).buf = { b with error := -1 } ∨
    ((read_bytes b length).buf = { b with current := b.current + length } ∧
      to_i32 length ≤ buf_rest b) := by
  unfold read_bytes
  by_cases h : buf_rest b < to_i32 length
  · left; rw [if_pos h]
  · right; rw [if_neg h]
    exact ⟨rfl, by omega⟩

/-- An attribute that `nan_attribute_read_next` reads takes at least its three
header bytes from what remains of the frame. -/
theorem nan_attribute_read_next_rest (frame : buf) (id len data : Nat)
    (h : 0 < (nan_attribute_read_next frame id len data).ret) :
    0 ≤ buf_rest (nan_attribute_read_next frame id len data).frame ∧
    buf_rest (nan_attribute_read_next frame id len data).frame + 3 ≤ buf_rest frame := by
  have h1 := read_le_buf 1 frame
  have h2 := read_le_buf 2 (read_le 1 frame).buf
  have h3 := read_bytes_buf (read_le 2 (read_le 1 frame).buf).buf
    ((read_le 2 (read_le 1 frame).buf).value.getD len)
  unfold nan_attribute_read_next read_u8 read_le16 buf_error at h ⊢
  simp only at h ⊢
  split_ifs at h ⊢ with herr
  · exact absurd (show (0 : Int) < RX_TOO_SHORT from h) (by decide)
  · simp only
    rcases h3 with e3 | ⟨e3, r3⟩
    · rw [e3] at herr
      exact absurd (show (-1 : Int) < 0 by decide) herr
    · rcases h2 with e2 | ⟨e2, r2, v, hv, hvlt⟩
      · rw [e3, e2] at herr
        exact absurd (show (-1 : Int) < 0 by decide) herr
      · rcases h1 with e1 | ⟨e1, r1, _⟩
        · rw [e3, e2, e1] at herr
          exact absurd (show (-1 : Int) < 0 by decide) herr
        · rw [hv, Option.getD_some] at e3 r3 ⊢
          have hv32 : to_i32 (v : Int) = v :=
            to_i32_of_nonneg_lt _ (by omega) (by norm_num at hvlt; omega)
          rw [hv32] at r3
          have b1 : buf_rest (read_le 1 frame).buf = buf_rest frame - (1 : Nat) := by
            rw [e1]; exact buf_rest_advance frame 1 r1
          have b2 : buf_rest (read_le 2 (read_le 1 frame).buf).buf
              = buf_rest (read_le 1 frame).buf - (2 : Nat) := by
            rw [e2]; exact buf_rest_advance _ 2 r2
          have b3 : buf_rest (read_bytes (read_le 2 (read_le 1 frame).buf).buf v).buf
              = buf_rest (read_le 2 (read_le 1 frame).buf).buf - (v : Nat) := by
            rw [e3]; exact buf_rest_advance _ v r3
          rw [b3, b2, b1]
          rw [b2, b1] at r3
          push_cast
          omega

/-- With one unit of fuel more than bytes remain in the frame, the loop of the
attribute walk ends. -/
theorem NAN_ITERATE_ATTRIBUTES_loop_returns {σ : Type}
    (handle : Nat → Nat → buf → Int → σ → Int × σ) (fuel : Nat) :
    ∀ (frame : buf) (id len data : Nat) (result : Int) (st : σ),
      buf_rest frame ≤ (fuel : Int) →
      ∃ x, NAN_ITERATE_ATTRIBUTES_loop handle (fuel + 1) frame id len data result st = some x := by
  induction fuel with
  | zero =>
    intro frame id len data result st hrest
    unfold NAN_ITERATE_ATTRIBUTES_loop
    simp only
    by_cases hret : 0 < (nan_attribute_read_next frame id len data).ret
    · have h := nan_attribute_read_next_rest frame id len data hret
      exfalso
      omega
    · rw [if_neg hret]
      exact ⟨_, rfl⟩
  | succ fuel ih =>
    intro frame id len data result st hrest
    unfold NAN_ITERATE_ATTRIBUTES_loop
    simp only
    by_cases hret : 0 < (nan_attribute_read_next frame id len data).ret
    · rw [if_pos hret]
      have h := nan_attribute_read_next_rest frame id len data hret
      split_ifs
      · exact ⟨_, rfl⟩
      · exact ih _ _ _ _ _ _ (by push_cast at hrest; omega)
    · rw [if_neg hret]
      exact ⟨_, rfl⟩

/-- More fuel does not change what the loop of the attribute walk returns. -/
theorem NAN_ITERATE_ATTRIBUTES_loop_mono {σ : Type}
    (handle : Nat → Nat → buf → Int → σ → Int × σ) (fuel : Nat) :
    ∀ (more : Nat) (frame : buf) (id len data : Nat) (result : Int) (st : σ)
      (x : buf × Int × σ), fuel ≤ more →
      NAN_ITERATE_ATTRIBUTES_loop handle fuel frame id len data result st = some x →
      NAN_ITERATE_ATTRIBUTES_loop handle more frame id len data result st = some x := by
  induction fuel with
  | zero =>
    intro more frame id len data result st x _ h
    unfold NAN_ITERATE_ATTRIBUTES_loop at h
    cases h
  | succ fuel ih =>
    intro more frame id len data result st x hle h
    obtain ⟨more, rfl⟩ : ∃ m, more = m + 1 := ⟨more - 1, by omega⟩
    unfold NAN_ITERATE_ATTRIBUTES_loop at h ⊢
    simp only at h ⊢
    split_ifs at h ⊢
    · exact h
    · exact ih _ _ _ _ _ _ _ _ (by omega) h
    · exact h

/-- The frame and the result the loop of the attribute walk returns do not
depend on the handler's state, when the handler's result does not. -/
theorem NAN_ITERATE_ATTRIBUTES_loop_result {σ : Type}
    (handle : Nat → Nat → buf → Int → σ → Int × σ)
    (hhandle : ∀ id len b r s t, (handle id len b r s).1 = (handle id len b r t).1)
    (fuel : Nat) :
    ∀ (frame : buf) (id len data : Nat) (result : Int) (s t : σ),
      (NAN_ITERATE_ATTRIBUTES_loop handle fuel frame id len data result s).map
          (fun r => (r.1, r.2.1))
        = (NAN_ITERATE_ATTRIBUTES_loop handle fuel frame id len data result t).map
          (fun r => (r.1, r.2.1)) := by
  induction fuel with
  | zero =>
    intro frame id len data result s t
    unfold NAN_ITERATE_ATTRIBUTES_loop
    rfl
  | succ fuel ih =>
    intro frame id len data result s t
    unfold NAN_ITERATE_ATTRIBUTES_loop
    simp only
    by_cases hret : 0 < (nan_attribute_read_next frame id len data).ret
    · rw [if_pos hret, if_pos hret]
      have hh := hhandle (nan_attribute_read_next frame id len data).attribute_id
        (nan_attribute_read_next frame id len data).attribute_length
        (buf_new_const ((nan_attribute_read_next frame id len data).frame.data.drop
          (nan_attribute_read_next frame id len data).attribute_data)
          (nan_attribute_read_next frame id len data).attribute_length) result s t
      rw [← hh]
      split_ifs
      · rfl
      · exact ih _ _ _ _ _ _ _
    · rw [if_neg hret, if_neg hret]
      rfl

theorem nan_rx_beacon_handle_result (id len : Nat) (b : buf) (r : Int) (s t : nan_peer) :
    (nan_rx_beacon_handle id len b r s).1 = (nan_rx_beacon_handle id len b r t).1 := by
  unfold nan_rx_beacon_handle nan_parse_master_indication_attribute nan_parse_cluster_attribute
  simp only
  split_ifs <;> rfl

/-- With one unit of fuel more than bytes remain in the frame, the attribute
walk ends. -/
theorem NAN_ITERATE_ATTRIBUTES_returns {σ : Type}
    (handle : Nat → Nat → buf → Int → σ → Int × σ) (fuel : Nat) (frame : buf) (result : Int)
    (st : σ) (hfuel : (buf_rest frame).toNat < fuel) :
    ∃ x, NAN_ITERATE_ATTRIBUTES handle fuel frame result st = some x := by
  obtain ⟨fuel, rfl⟩ : ∃ f, fuel = f + 1 := ⟨fuel - 1, by omega⟩
  obtain ⟨x, hx⟩ := NAN_ITERATE_ATTRIBUTES_loop_returns handle fuel frame 0 0 0 result st
    (by omega)
  unfold NAN_ITERATE_ATTRIBUTES
  rw [hx]
  obtain ⟨f, r, s⟩ := x
  simp only
  split_ifs <;> exact ⟨_, rfl⟩

/-- When the attribute walk of a beacon ends with `RX_OK` on one peer, it
does so on every peer and with any larger amount of fuel. -/
theorem NAN_ITERATE_ATTRIBUTES_beacon_ok (fuel more : Nat) (frame : buf) (result : Int)
    (s t : nan_peer) (hle : fuel ≤ more)
    (h : (NAN_ITERATE_ATTRIBUTES nan_rx_beacon_handle fuel frame result s).map (fun r => r.2.1)
      = some RX_OK) :
    ∃ f p, NAN_ITERATE_ATTRIBUTES nan_rx_beacon_handle more frame result t = some (f, RX_OK, p) := by
  have hind := NAN_ITERATE_ATTRIBUTES_loop_result nan_rx_beacon_handle
    nan_rx_beacon_handle_result fuel frame 0 0 0 result s t
  unfold NAN_ITERATE_ATTRIBUTES at h ⊢
  cases hs : NAN_ITERATE_ATTRIBUTES_loop nan_rx_beacon_handle fuel frame 0 0 0 result s with
  | none => rw [hs] at h; cases h
  | some x =>
    cases ht : NAN_ITERATE_ATTRIBUTES_loop nan_rx_beacon_handle fuel frame 0 0 0 result t with
    | none => rw [hs, ht] at hind; cases hind
    | some y =>
      rw [hs, ht] at hind
      simp only [Option.map_some', Option.some.injEq, Prod.mk.injEq] at hind
      rw [NAN_ITERATE_ATTRIBUTES_loop_mono nan_rx_beacon_handle fuel more frame 0 0 0 result t y
        hle ht]
      rw [hs] at h
      obtain ⟨xf, xr, xp⟩ := x
      obtain ⟨yf, yr, yp⟩ := y
      simp only at hind h ⊢
      obtain ⟨hf, hr⟩ := hind
      subst hf hr
      split_ifs at h ⊢ with h1 h2
      · simp only [Option.map_some', Option.some.injEq] at h
        rw [h] at h1
        exact absurd h1 (by decide)
      · simp only [Option.map_some', Option.some.injEq] at h
        exact absurd h (by decide)
      · exact ⟨_, _, rfl⟩

/-- When `nan_rx_beacon` returns `RX_OK` for a beacon whose cluster id differs
from the device's, the peer is in the table afterwards, and if its master
preference is above the device's as it stands afterwards, the device has
adopted the beacon's cluster id and its synced time at `now` is the beacon
timestamp. -/
theorem nan_rx_beacon_ok_adopts (fuel : Nat) (frame : buf) (state : nan_state)
    (peer_address cluster_id : ether_addr) (rssi : Int) (now_usec rand_num : Nat)
    (state' : nan_state)
    (hret : nan_rx_beacon fuel frame state peer_address cluster_id rssi now_usec rand_num
      = some (RX_OK, state'))
    (hcluster : ether_addr_equal cluster_id state.cluster.cluster_id = false) :
    ∃ peer, nan_peer_get state'.peers peer_address = some peer ∧
      (state'.sync.master_preference < peer.master_preference →
        state'.cluster.cluster_id = cluster_id ∧
        nan_timer_get_synced_time_usec state'.timer now_usec
          = (nan_parse_beacon_header frame 0 0).timestamp) := by
  unfold nan_rx_beacon at hret
  simp only at hret
  split at hret
  · next hres =>
    simp only [Option.some.injEq, Prod.mk.injEq] at hret
    exact absurd hret.1 hres
  · split at hret
    · simp only [Option.some.injEq, Prod.mk.injEq] at hret
      exact absurd hret.1 (by decide)
    · split at hret
      · simp only [Option.some.injEq, Prod.mk.injEq] at hret
        exact absurd hret.1 (by decide)
      · next peer0 hget0 =>
        split at hret
        · cases hret
        · next fr result peer1 hwalk =>
          split at hret
          · next hneg =>
            simp only [Option.some.injEq, Prod.mk.injEq] at hret
            rw [hret.1] at hneg
            exact absurd hneg (by decide)
          · simp only [Option.some.injEq, Prod.mk.injEq, true_and] at hret
            generalize hst1 : (if ¬nan_timer_initial_scan_done state.timer now_usec = true then _
              else _) = st1 at hret
            generalize hpeer0 : (if (nan_peer_add state.peers peer_address cluster_id now_usec).1
              = peer_status.PEER_ADD then _ else peer0) = peer0' at hwalk
            have hst1p : st1.peers = (nan_peer_add state.peers peer_address cluster_id now_usec).2 := by
              rw [← hst1]; split_ifs <;> rfl
            have hst1c : st1.cluster = state.cluster := by
              rw [← hst1]; split_ifs <;> rfl
            have hp0 : peer0'.addr = peer0.addr := by
              rw [← hpeer0]; split_ifs <;> rfl
            have hp1 : peer1.addr = peer0'.addr :=
              NAN_ITERATE_ATTRIBUTES_invariant nan_rx_beacon_handle (fun p => p.addr = peer0'.addr)
                (fun id len b r st hst => (nan_rx_beacon_handle_addr id len b r st).trans hst)
                fuel _ _ peer0' fr result peer1 rfl hwalk
            have hk := nan_rx_beacon_update_keeps st1 peer1
              (nan_peer_add state.peers peer_address cluster_id now_usec).1
              (nan_parse_beacon_header frame 0 0).beacon_type
              (nan_parse_beacon_header frame 0 0).timestamp cluster_id rssi now_usec rand_num
            have hfound : ether_addr_equal peer0.addr peer_address = true :=
              LIST_FIND_some_condition (nan_peer_add state.peers peer_address cluster_id now_usec).2.peers
                (fun p : nan_peer => ether_addr_equal p.addr peer_address) peer0 hget0
            have hstored := nan_peers_store_get
              (nan_peer_add state.peers peer_address cluster_id now_usec).2.peers peer_address peer0
              (nan_rx_beacon_update st1 peer1
                (nan_peer_add state.peers peer_address cluster_id now_usec).1
                (nan_parse_beacon_header frame 0 0).beacon_type
                (nan_parse_beacon_header frame 0 0).timestamp cluster_id rssi now_usec rand_num).2
              hget0 (by rw [hk.1, hp1, hp0]; exact hfound)
            subst hret
            refine ⟨_, (by simp only [nan_peer_get, hk.2.2, hst1p]; exact hstored), fun hlt => ?_⟩
            simp only [hk.2.1] at hlt
            have hadopt := nan_rx_beacon_update_adopts st1 peer1
              (nan_peer_add state.peers peer_address cluster_id now_usec).1
              (nan_parse_beacon_header frame 0 0).beacon_type
              (nan_parse_beacon_header frame 0 0).timestamp cluster_id rssi now_usec rand_num
              (by rw [hst1c]; exact hcluster) hlt
            rw [Nat.mod_eq_of_lt (nan_parse_beacon_header_timestamp_lt frame)] at hadopt
            exact hadopt


theorem LIST_FIND_append_none {α : Type} (list : List α) (condition : α → Bool) (x : α)
    (h : LIST_FIND list condition = none) (hx : condition x = true) :
    LIST_FIND (list ++ [x]) condition = some x := by
  induction list with
  | nil =>
    show LIST_FIND [x] condition = some x
    unfold LIST_FIND
    rw [if_pos hx]
  | cons item rest ih =>
    unfold LIST_FIND at h
    rw [List.cons_append]
    unfold LIST_FIND
    by_cases hc : condition item = true
    · rw [if_pos hc] at h; cases h
    · rw [if_neg hc] at h ⊢
      exact ih h

/-- After `nan_peer_add` the status is `PEER_ADD` or `PEER_UPDATE` and the
peer is in the table. -/
theorem nan_peer_add_get (state : nan_peer_state) (addr cluster_id : ether_addr)
    (now_usec : Nat) :
    ¬ (nan_peer_add state addr cluster_id now_usec).1.toInt < 0 ∧
    ∃ peer, nan_peer_get (nan_peer_add state addr cluster_id now_usec).2 addr = some peer := by
  unfold nan_peer_add
  cases hget : nan_peer_get state addr with
  | none =>
    simp only
    have hpeers : (if state.peer_add_callback = true then
        { state with peer_add_calls := state.peer_add_calls ++ [nan_peer_new addr cluster_id] }
        else state).peers = state.peers := by
      split_ifs <;> rfl
    unfold nan_peer_get at hget ⊢
    unfold list_add
    simp only [hpeers]
    exact ⟨by decide, _, LIST_FIND_append_none _ _ _ hget (ether_addr_equal_self addr)⟩
  | some peer =>
    simp only
    unfold nan_peer_get at hget ⊢
    have hfound : ether_addr_equal peer.addr addr = true :=
      LIST_FIND_some_condition state.peers (fun p : nan_peer => ether_addr_equal p.addr addr)
        peer hget
    exact ⟨by decide, _, nan_peers_store_get state.peers addr peer _ hget
      (by split_ifs <;> exact hfound)⟩

theorem NAN_ITERATE_ATTRIBUTES_ne_none {σ : Type}
    (handle : Nat → Nat → buf → Int → σ → Int × σ) (fuel : Nat) (frame : buf) (result : Int)
    (st : σ) (hfuel : (buf_rest frame).toNat < fuel) :
    NAN_ITERATE_ATTRIBUTES handle fuel frame result st ≠ none := by
  obtain ⟨x, hx⟩ := NAN_ITERATE_ATTRIBUTES_returns handle fuel frame result st hfuel
  rw [hx]
  exact Option.some_ne_none x

theorem NAN_ITERATE_ATTRIBUTES_beacon_result (fuel more : Nat) (frame : buf) (result : Int)
    (s t : nan_peer) (x : buf × Int × nan_peer) (hle : fuel ≤ more)
    (h : (NAN_ITERATE_ATTRIBUTES nan_rx_beacon_handle fuel frame result s).map (fun r => r.2.1)
      = some RX_OK)
    (hx : NAN_ITERATE_ATTRIBUTES nan_rx_beacon_handle more frame result t = some x) :
    x.2.1 = RX_OK := by
  obtain ⟨f, p, hw⟩ := NAN_ITERATE_ATTRIBUTES_beacon_ok fuel more frame result s t hle h
  rw [hw] at hx
  cases hx
  rfl

/-- With more fuel than bytes remain after the beacon header, `nan_rx_beacon`
returns. -/
theorem nan_rx_beacon_returns (fuel : Nat) (frame : buf) (state : nan_state)
    (peer_address cluster_id : ether_addr) (rssi : Int) (now_usec rand_num : Nat)
    (hfuel : (buf_rest (nan_parse_beacon_header frame 0 0).frame).toNat < fuel) :
    ∃ r, nan_rx_beacon fuel frame state peer_address cluster_id rssi now_usec rand_num
      = some r := by
  unfold nan_rx_beacon
  simp only
  split
  · exact ⟨_, rfl⟩
  · split
    · exact ⟨_, rfl⟩
    · split
      · exact ⟨_, rfl⟩
      · split
        · next heq => exact absurd heq (NAN_ITERATE_ATTRIBUTES_ne_none _ _ _ _ _ hfuel)
        · split <;> exact ⟨_, rfl⟩

/-- With more fuel than bytes remain after the beacon header, `nan_rx_beacon`
returns `RX_OK` for a well-formed beacon. -/
theorem nan_rx_beacon_returns_ok (fuel : Nat) (frame : buf) (state : nan_state)
    (peer_address cluster_id : ether_addr) (rssi : Int) (now_usec rand_num : Nat)
    (hfuel : (buf_rest (nan_parse_beacon_header frame 0 0).frame).toNat < fuel)
    (hwell : nan_beacon_well_formed frame) :
    ∃ state', nan_rx_beacon fuel frame state peer_address cluster_id rssi now_usec rand_num
      = some (RX_OK, state') := by
  obtain ⟨hres, hwalk⟩ := hwell
  obtain ⟨hstatus, peer0, hget0⟩ := nan_peer_add_get state.peers peer_address cluster_id now_usec
  unfold nan_rx_beacon
  simp only
  rw [if_neg (not_not.mpr hres), if_neg hstatus, hget0]
  simp only [hres]
  split
  · next heq =>
    rw [← hres] at heq
    exact absurd heq (NAN_ITERATE_ATTRIBUTES_ne_none _ _ _ _ _ hfuel)
  · next fr result peer1 heq =>
    have hok := NAN_ITERATE_ATTRIBUTES_beacon_result _ fuel _ _ _ _ _ (by omega) hwalk heq
    simp only at hok
    rw [if_neg (by rw [hok]; decide)]
    exact ⟨_, rfl⟩

/-- C9, amended. With more fuel than bytes remain after the beacon header,
`nan_rx_beacon` returns for every frame.  For a well-formed beacon (the header
and the attributes parse) whose cluster id differs from the device's it
returns `RX_OK` with the sender in the peer table, and when the sender's master
preference, as stored for the peer, is above the device's master preference as
it stands after the beacon was processed, that is after the refresh
`nan_update_master_preference` may have made, the device has adopted the
beacon's cluster id and its synced time at `now` is the beacon timestamp. -/
theorem nan_rx_beacon_adopts_cluster (fuel : Nat) (frame : buf) (state : nan_state)
    (peer_address cluster_id : ether_addr) (rssi : Int) (now_usec rand_num : Nat)
    (hfuel : (buf_rest (nan_parse_beacon_header frame 0 0).frame).toNat < fuel) :
    (∃ r, nan_rx_beacon fuel frame state peer_address cluster_id rssi now_usec rand_num
      = some r) ∧
    (nan_beacon_well_formed frame →
      ether_addr_equal cluster_id state.cluster.cluster_id = false →
      ∃ state' peer,
        nan_rx_beacon fuel frame state peer_address cluster_id rssi now_usec rand_num
          = some (RX_OK, state') ∧
        nan_peer_get state'.peers peer_address = some peer ∧
        (state'.sync.master_preference < peer.master_preference →
          state'.cluster.cluster_id = cluster_id ∧
          nan_timer_get_synced_time_usec state'.timer now_usec
            = (nan_parse_beacon_header frame 0 0).timestamp)) := by
  refine ⟨nan_rx_beacon_returns fuel frame state peer_address cluster_id rssi now_usec rand_num
    hfuel, fun hwell hcluster => ?_⟩
  obtain ⟨state', hret⟩ := nan_rx_beacon_returns_ok fuel frame state peer_address cluster_id rssi
    now_usec rand_num hfuel hwell
  obtain ⟨peer, hget, hadopt⟩ := nan_rx_beacon_ok_adopts fuel frame state peer_address cluster_id
    rssi now_usec rand_num state' hret hcluster
  exact ⟨state', peer, hret, hget, hadopt⟩

theorem nan_rx_beacon_adopts_cluster_witness :
    nan_beacon_well_formed (buf_new_const beacon_S1 23) ∧
    nan_rx_beacon 10 (buf_new_const beacon_S1 23) (state_S1 1000) ⟨2, 0, 0, 0, 0, 2⟩
      ⟨0x50, 0x6f, 0x9a, 1, 0xcc, 0xdd⟩ (-50) 2000 77 = some (RX_OK, state_S1_after) ∧
    (state_S1 1000).sync.master_preference = 0 ∧
    state_S1_after.cluster.cluster_id = ⟨0x50, 0x6f, 0x9a, 1, 0xcc, 0xdd⟩ ∧
    nan_timer_get_synced_time_usec state_S1_after.timer 2000 = 500000 :=
  Exists.elim
    ((nan_rx_beacon_adopts_cluster 10 (buf_new_const beacon_S1 23) (state_S1 1000)
      ⟨2, 0, 0, 0, 0, 2⟩ ⟨0x50, 0x6f, 0x9a, 1, 0xcc, 0xdd⟩ (-50) 2000 77 (by decide)).2
      (by decide) (by decide))
    (fun state' h => Exists.elim h (fun peer h => by
      obtain ⟨hret, hget, hadopt⟩ := h
      have hafter : nan_rx_beacon 10 (buf_new_const beacon_S1 23) (state_S1 1000)
          ⟨2, 0, 0, 0, 0, 2⟩ ⟨0x50, 0x6f, 0x9a, 1, 0xcc, 0xdd⟩ (-50) 2000 77
          = some (RX_OK, state_S1_after) := rfl
      have hstate : state' = state_S1_after := by
        rw [hafter] at hret
        exact (Prod.mk.inj (Option.some.inj hret)).2.symm
      subst hstate
      have hpeer : nan_peer_get state_S1_after.peers ⟨2, 0, 0, 0, 0, 2⟩
          = some ((nan_peer_get state_S1_after.peers ⟨2, 0, 0, 0, 0, 2⟩).getD
            (nan_peer_new ⟨2, 0, 0, 0, 0, 2⟩ ⟨0x50, 0x6f, 0x9a, 1, 0xcc, 0xdd⟩)) := rfl
      rw [hpeer] at hget
      have hp := Option.some.inj hget
      subst hp
      have hresult := hadopt (by decide)
      exact ⟨by decide, hafter, rfl, hresult.1, hresult.2.trans (by decide)⟩))

/-! ### Timer: re-base, discovery window length, warmup -/

/-- C17. A timer initialised at `t0` has base time `t0` and its synced time at
`now` is `now - t0` in 64-bit unsigned arithmetic; after
`nan_timer_sync_time(state, now, timestamp)` the synced time at `now` is the
timestamp modulo 2^64, and when the timestamp is the synced time `now - other`
of a clock with base time `other`, the new base time is `other` (modulo 2^64):
base 100, now 120, other base 30 gives base 30, and base 100, now 600, other
base 400 gives base 400. -/
theorem nan_timer_sync_time_rebase (t0 : Nat) (state : nan_timer_state)
    (now_usec timestamp other : Nat) :
    (nan_timer_state_init t0).base_time_usec = t0 ∧
    nan_timer_get_synced_time_usec (nan_timer_state_init t0) now_usec
      = (((now_usec : Int) - (t0 : Int)) % 2 ^ 64).toNat ∧
    nan_timer_get_synced_time_usec (nan_timer_sync_time state now_usec timestamp) now_usec
      = timestamp % 2 ^ 64 ∧
    (nan_timer_sync_time state now_usec (sub_u64 now_usec other)).base_time_usec
      = other % 2 ^ 64 ∧
    (nan_timer_sync_time (nan_timer_state_init 100) 120 (120 - 30)).base_time_usec = 30 ∧
    (nan_timer_sync_time (nan_timer_state_init 100) 600 (600 - 400)).base_time_usec = 400 := by
  refine ⟨rfl, ?_, nan_timer_sync_time_synced state now_usec timestamp, ?_, by decide, by decide⟩
  · simp only [nan_timer_get_synced_time_usec, nan_timer_state_init, sub_u64]
    omega
  · simp only [nan_timer_sync_time, nan_timer_get_synced_time_usec, to_u64_to_i64]
    unfold sub_u64 add_u64
    omega

/-- C18: the in-DW predicate of a timer with base time 0 and no error
correction is true at synced time 15 TU and also at synced time 16 TU, where
the discovery window of `NAN_DW_LENGTH_TU` = 16 TU is over: the comparison is
`interval_time_tu <= NAN_DW_LENGTH_TU`. -/
theorem nan_timer_in_dw_at_dw_length :
    (nan_timer_state_init 0).average_error = 0 ∧
    nan_timer_get_synced_time_usec (nan_timer_state_init 0) (15 * 1024) = 15 * 1024 ∧
    nan_timer_in_dw (nan_timer_state_init 0) (15 * 1024) = true ∧
    nan_timer_get_synced_time_usec (nan_timer_state_init 0) (16 * 1024) = 16 * 1024 ∧
    nan_timer_get_synced_time_tu (nan_timer_state_init 0) (16 * 1024) % NAN_DW_INTERVAL_TU
      = NAN_DW_LENGTH_TU ∧
    nan_timer_in_dw (nan_timer_state_init 0) (16 * 1024) = true := by
  decide

/-- C19. While the warmup has neither expired nor been cancelled
(`warmup_done` is false, as after `nan_timer_state_init`),
`nan_timer_warmup_expired(state, now)` returns true exactly when the `uint64_t`
difference `now - base_time_usec` is at least 120000000 usec, the bound
included; for `base_time_usec <= now < 2^64` that difference is the plain one. -/
theorem nan_timer_warmup_expired_iff (state : nan_timer_state) (now_usec : Nat)
    (hwarmup : state.warmup_done = false) :
    ((nan_timer_warmup_expired state now_usec).1 = true ↔
      120000000 ≤ sub_u64 now_usec state.base_time_usec) ∧
    ((nan_timer_warmup_expired state now_usec).1 = false ↔
      sub_u64 now_usec state.base_time_usec < 120000000) ∧
    (state.base_time_usec ≤ now_usec → now_usec < 2 ^ 64 →
      sub_u64 now_usec state.base_time_usec = now_usec - state.base_time_usec) := by
  refine ⟨?_, ?_, ?_⟩
  · unfold nan_timer_warmup_expired NAN_WARMUP_TIMER_SEC
    split_ifs with h
    · simp only [true_iff]
      exact h.2
    · simp only [Bool.false_eq_true, false_iff]
      intro hge
      exact h ⟨by simp [hwarmup], hge⟩
  · unfold nan_timer_warmup_expired NAN_WARMUP_TIMER_SEC
    split_ifs with h
    · simp only [Bool.true_eq_false, false_iff, not_lt]
      exact h.2
    · simp only [true_iff]
      by_contra hge
      exact h ⟨by simp [hwarmup], Nat.le_of_not_lt hge⟩
  · intro h1 h2
    unfold sub_u64
    omega

theorem nan_timer_warmup_expired_iff_witness :
    (nan_timer_state_init 7).warmup_done = false ∧
    (nan_timer_warmup_expired (nan_timer_state_init 7) 120000007).1 = true ∧
    (nan_timer_warmup_expired (nan_timer_state_init 7) 120000006).1 = false :=
  have h := nan_timer_warmup_expired_iff (nan_timer_state_init 7) 120000007 rfl
  have h' := nan_timer_warmup_expired_iff (nan_timer_state_init 7) 120000006 rfl
  ⟨rfl, h.1.2 (by decide), h'.2.1.2 (by decide)⟩

theorem nan_timer_step_warmup_done (state : nan_timer_state) (call : nan_timer_call)
    (h : state.warmup_done = true) : (nan_timer_step state call).warmup_done = true := by
  cases call with
  | sync_time now_usec timestamp => exact h
  | sync_error now_usec timestamp =>
    show (nan_timer_sync_error state now_usec timestamp).warmup_done = true
    unfold nan_timer_sync_error
    simp only
    split_ifs <;> exact h
  | set_now_usec now_usec => exact h
  | warmup_expired now_usec =>
    show (nan_timer_warmup_expired state now_usec).2.warmup_done = true
    unfold nan_timer_warmup_expired
    split_ifs
    · rfl
    · exact h
  | warmup_cancel => rfl
  | initial_scan_cancel => exact h

theorem nan_timer_run_warmup_done (calls : List nan_timer_call) (state : nan_timer_state)
    (h : state.warmup_done = true) : (nan_timer_run state calls).warmup_done = true := by
  induction calls generalizing state with
  | nil => exact h
  | cons call calls ih => exact ih _ (nan_timer_step_warmup_done state call h)

theorem nan_timer_warmup_expired_done (state : nan_timer_state) (now_usec : Nat)
    (h : state.warmup_done = true) : (nan_timer_warmup_expired state now_usec).1 = false := by
  unfold nan_timer_warmup_expired
  rw [if_neg]
  intro hc
  exact hc.1 h

/-- C20. Once `nan_timer_warmup_expired` has returned true, or once
`nan_timer_warmup_cancel` has been called, every later call of
`nan_timer_warmup_expired` returns false, for every `now_usec` and whatever
calls of `nan_timer_sync_time`, `nan_timer_sync_error`,
`nan_timer_set_now_usec`, `nan_timer_initial_scan_cancel` and of the two warmup
functions happen in between. -/
theorem nan_timer_warmup_fires_once (state : nan_timer_state) (now_usec : Nat)
    (calls : List nan_timer_call) (later_usec : Nat) :
    ((nan_timer_warmup_expired state now_usec).1 = true →
      (nan_timer_warmup_expired
        (nan_timer_run (nan_timer_warmup_expired state now_usec).2 calls) later_usec).1 = false) ∧
    (nan_timer_warmup_expired
      (nan_timer_run (nan_timer_warmup_cancel state) calls) later_usec).1 = false := by
  constructor
  · intro hfired
    apply nan_timer_warmup_expired_done
    apply nan_timer_run_warmup_done
    unfold nan_timer_warmup_expired at hfired ⊢
    split_ifs at hfired ⊢
    rfl
  · apply nan_timer_warmup_expired_done
    apply nan_timer_run_warmup_done
    rfl

/-! ### Master election -/

/-- C11. For every sync state with role MASTER, every `now_usec` and a peer
list of one peer that is no master candidate, has `rssi_average > -60` and a
master rank above the device's, `nan_master_election` leaves the role SYNC
(whether the peer's last update lies within the DW plus guard or not). -/
theorem nan_master_election_master_to_sync (state : nan_sync_state) (peer : nan_peer)
    (now_usec : Nat) (hrole : state.role = nan_role.MASTER)
    (hcandidate : peer.master_candidate = false) (hrssi : peer.rssi_average > -60)
    (hrank : nan_get_peer_master_rank peer > state.master_rank) :
    (nan_master_election state [peer] now_usec).role = nan_role.SYNC := by
  have hclose : peer.rssi_average > RSSI_CLOSE := hrssi
  have hmiddle : peer.rssi_average > RSSI_MIDDLE := by
    unfold RSSI_MIDDLE
    omega
  unfold nan_master_election
  simp only [List.foldl_cons, List.foldl_nil]
  by_cases hstale : sub_u64 now_usec peer.last_update > (NAN_DW_LENGTH_TU + 4) * 1024
  · simp [nan_master_election_count, nan_master_election_master_step,
      nan_master_election_sync_step, hstale, hrole]
  · simp [nan_master_election_count, nan_master_election_master_step,
      nan_master_election_sync_step, hstale, hrole, hclose, hmiddle, hrank, hcandidate]

theorem nan_master_election_master_to_sync_witness :
    (nan_master_election (nan_sync_state_init ⟨2, 0, 0, 0, 0, 1⟩)
      [{ nan_peer_new ⟨2, 0, 0, 0, 0, 2⟩ ⟨0x50, 0x6f, 0x9a, 1, 0, 0⟩ with
        rssi_average := -50, last_update := 1000 }] 1000).role = nan_role.SYNC :=
  nan_master_election_master_to_sync (nan_sync_state_init ⟨2, 0, 0, 0, 0, 1⟩)
    { nan_peer_new ⟨2, 0, 0, 0, 0, 2⟩ ⟨0x50, 0x6f, 0x9a, 1, 0, 0⟩ with
      rssi_average := -50, last_update := 1000 } 1000 rfl rfl (by decide) (by decide)

/-! ### Peer timeout -/

theorem LIST_FIND_none_filter {α : Type} (list : List α) (condition : α → Bool)
    (h : LIST_FIND list condition = none) :
    list.filter (fun x => !condition x) = list ∧ list.filter condition = [] := by
  have hall := LIST_FIND_eq_none list condition h
  constructor
  · apply List.filter_eq_self.mpr
    intro x hx
    simp [hall x hx]
  · apply List.filter_eq_nil_iff.mpr
    intro x hx
    simp [hall x hx]

/-- Unlinking the item `LIST_FIND` returned removes the first item that meets
the condition and no other. -/
theorem LIST_FIND_some_filter {α : Type} [DecidableEq α] (list : List α) (condition : α → Bool)
    (x : α) (h : LIST_FIND list condition = some x) :
    (list_remove list x).filter (fun y => !condition y) = list.filter (fun y => !condition y) ∧
    list.filter condition = x :: (list_remove list x).filter condition := by
  induction list with
  | nil => cases h
  | cons item rest ih =>
    have hx := LIST_FIND_some_condition _ _ _ h
    unfold LIST_FIND at h
    by_cases hc : condition item = true
    · rw [if_pos hc] at h
      cases h
      simp [list_remove, hc]
    · rw [if_neg hc] at h
      have hne : item ≠ x := by
        intro heq
        rw [heq] at hc
        exact hc hx
      obtain ⟨ih1, ih2⟩ := ih h
      simp only [Bool.not_eq_true] at hc
      simp [list_remove, hne, hc, ih1, ih2]

/-- With a remove callback installed and one unit of fuel per peer plus one,
the cleanup returns the table of the peers that do not meet the removal
condition, the callback having been called with the others, in list order. -/
theorem nan_peers_clean_filter (fuel : Nat) (state : nan_peer_state) (now_usec : Nat)
    (hcb : state.peer_remove_callback = true) (hfuel : state.peers.length < fuel) :
    nan_peers_clean fuel state now_usec = clean_result.returned
      { state with
        peers := state.peers.filter
          (fun peer => !decide (peer.last_update < sub_u64 now_usec state.timeout_usec))
        peer_remove_calls := state.peer_remove_calls ++ state.peers.filter
          (fun peer => decide (peer.last_update < sub_u64 now_usec state.timeout_usec)) } := by
  induction fuel generalizing state with
  | zero => cases hfuel
  | succ fuel ih =>
    unfold nan_peers_clean
    split
    · next hfind =>
      obtain ⟨h1, h2⟩ := LIST_FIND_none_filter _ _ hfind
      rw [h1, h2, List.append_nil]
    · next peer hfind =>
      have hmem := LIST_FIND_mem _ _ _ hfind
      have hlen := list_remove_length state.peers peer hmem
      obtain ⟨h1, h2⟩ := LIST_FIND_some_filter _ _ _ hfind
      simp only [nan_peer_remove, hcb, if_true]
      rw [ih _ rfl (by show (list_remove state.peers peer).length < fuel; omega)]
      simp only [h1, h2, List.append_assoc, List.singleton_append]

/-- C13. With a remove callback installed, `nan_peers_clean(state, now)`
returns, the table then holds exactly the peers that did not meet the removal
condition `last_update < now - timeout_usec`, and the callback has been called
once for each removed peer, in list order, and for no other peer; every peer
whose last update is older than the timeout (`last_update + timeout_usec < now`)
is among the removed ones. -/
theorem nan_peers_clean_removes_expired (state : nan_peer_state) (now_usec : Nat)
    (hcb : state.peer_remove_callback = true) :
    ∃ state', nan_peers_clean (state.peers.length + 1) state now_usec
        = clean_result.returned state' ∧
      state'.peers = state.peers.filter
        (fun peer => !decide (peer.last_update < sub_u64 now_usec state.timeout_usec)) ∧
      state'.peer_remove_calls = state.peer_remove_calls ++ state.peers.filter
        (fun peer => decide (peer.last_update < sub_u64 now_usec state.timeout_usec)) ∧
      (∀ peer ∈ state'.peers, peer ∉ state.peers.filter
        (fun peer => decide (peer.last_update < sub_u64 now_usec state.timeout_usec))) ∧
      (now_usec < 2 ^ 64 → ∀ peer ∈ state.peers,
        peer.last_update + state.timeout_usec < now_usec →
          peer ∉ state'.peers ∧ peer ∈ state.peers.filter
            (fun peer => decide (peer.last_update < sub_u64 now_usec state.timeout_usec))) := by
  refine ⟨_, nan_peers_clean_filter _ state now_usec hcb (Nat.lt_succ_self _), rfl, rfl, ?_, ?_⟩
  · intro peer hpeer hcalled
    simp only [List.mem_filter, Bool.not_eq_true', decide_eq_false_iff_not,
      decide_eq_true_eq] at hpeer hcalled
    exact hpeer.2 hcalled.2
  · intro hnow peer hpeer hold
    have hexp : peer.last_update < sub_u64 now_usec state.timeout_usec := by
      unfold sub_u64
      omega
    constructor
    · intro hstay
      simp only [List.mem_filter, Bool.not_eq_true', decide_eq_false_iff_not] at hstay
      exact hstay.2 hexp
    · simp only [List.mem_filter, decide_eq_true_eq]
      exact ⟨hpeer, hexp⟩

theorem nan_peers_clean_removes_expired_witness :
    ∃ state', nan_peers_clean 2 peers_timed_out 6000000 = clean_result.returned state' ∧
      state'.peers = [] ∧ state'.peer_remove_calls = peers_timed_out.peers :=
  Exists.elim (nan_peers_clean_removes_expired peers_timed_out 6000000 rfl)
    (fun state' h => ⟨state', h.1, h.2.1.trans (by decide), h.2.2.1.trans (by decide)⟩)

/-! ### Beacon attributes: writers and parser -/

theorem buf_new_owned_21 :
    buf_new_owned 21 = ⟨[0,0,0,0,0,0,0,0,0,0,0,0,0,0,0,0,0,0,0,0,0], 0, 0, 21, 21, true, 0⟩ := by
  decide

theorem buf_new_const_mk (data : List Nat) (size : Nat) (h : size < 2 ^ 31) :
    buf_new_const data size = ⟨data, 0, 0, (size : Int), size, false, 0⟩ := by
  unfold buf_new_const
  rw [to_i32_of_nonneg_lt (size : Int) (by omega) (by omega)]

/-- The 21 bytes the two writers leave in a fresh buffer. -/
theorem nan_add_beacon_attributes_bytes (state : nan_state) :
    beacon_attributes state =
    ⟨[0, 2, 0, state.sync.master_preference % 256, state.sync.random_factor % 256, 1, 13, 0]
      ++ le_bytes state.sync.anchor_master_rank 8 ++ [state.sync.hop_count % 256]
      ++ le_bytes state.sync.ambtt 4, 21, 0, 21, 21, true, 0⟩ := by
  unfold beacon_attributes
  rw [buf_new_owned_21]
  unfold nan_add_master_indication_attribute
  simp only [buf_current]
  rw [buf_advance_mk _ 0 0 21 21 true 0 5 (by norm_num) (by norm_num)]
  unfold nan_add_cluster_attribute
  simp only [buf_current]
  rw [buf_advance_mk _ (0 + 5) 0 21 21 true 0 16 (by norm_num) (by norm_num)]
  simp only [MASTER_INDICATION_ATTRIBUTE, CLUSTER_ATTRIBUTE, le_bytes, mem_write,
    List.set_cons_zero, List.set_cons_succ, Nat.zero_add, Nat.reduceAdd, Nat.reduceMod,
    Nat.reduceDiv, List.cons_append, List.nil_append]

theorem read_le_short (data : List Nat) (current : Nat) (start end_ : Int) (size : Nat)
    (owned : Bool) (error : Int) (n : Nat) (h0 : (current : Int) ≤ end_)
    (h1 : end_ < 2 ^ 31) (h2 : end_ < (current : Int) + n) :
    read_le n ⟨data, current, start, end_, size, owned, error⟩ =
      ⟨0, none, ⟨data, current, start, end_, size, owned, -1⟩⟩ := by
  unfold read_le
  rw [buf_rest_eq _ h0 h1, if_pos (by show end_ - (current : Int) < n; omega)]

theorem read_bytes_short (data : List Nat) (current : Nat) (start end_ : Int) (size : Nat)
    (owned : Bool) (error : Int) (n : Nat) (h0 : (current : Int) ≤ end_)
    (h1 : end_ < 2 ^ 31) (h2 : end_ < (current : Int) + n) (h3 : n < 2 ^ 31) :
    read_bytes ⟨data, current, start, end_, size, owned, error⟩ n =
      ⟨0, none, ⟨data, current, start, end_, size, owned, -1⟩⟩ := by
  unfold read_bytes
  rw [buf_rest_eq _ h0 h1, to_i32_of_nonneg_lt n (by omega) (by omega),
    if_pos (by show end_ - (current : Int) < n; omega)]

theorem nan_attribute_read_next_master_indication (m r a0 a1 a2 a3 a4 a5 a6 a7 h t0 t1 t2 t3 : Nat) :
    nan_attribute_read_next
      ⟨[0, 2, 0, m, r, 1, 13, 0, a0, a1, a2, a3, a4, a5, a6, a7, h, t0, t1, t2, t3],
        0, 0, 21, 21, false, 0⟩ 0 0 0
    = ⟨5, 0, 2, 3, ⟨[0, 2, 0, m, r, 1, 13, 0, a0, a1, a2, a3, a4, a5, a6, a7, h, t0, t1, t2, t3],
        5, 0, 21, 21, false, 0⟩⟩ := by
  unfold nan_attribute_read_next read_u8 read_le16
  rw [read_le_mk _ 0 0 21 21 false 0 1 (by norm_num) (by norm_num)]
  simp only []
  rw [read_le_mk _ (0 + 1) 0 21 21 false 0 2 (by norm_num) (by norm_num)]
  simp only [mem_read, le_value, List.getD_cons_zero, List.getD_cons_succ, Option.getD_some,
    Nat.reduceAdd, Nat.reduceMul, Nat.reduceMod, Nat.reducePow]
  rw [read_bytes_mk _ 3 0 21 21 false 0 2 (by norm_num) (by norm_num)]
  simp [buf_error]

theorem nan_attribute_read_next_cluster (m r a0 a1 a2 a3 a4 a5 a6 a7 h t0 t1 t2 t3 : Nat) :
    nan_attribute_read_next
      ⟨[0, 2, 0, m, r, 1, 13, 0, a0, a1, a2, a3, a4, a5, a6, a7, h, t0, t1, t2, t3],
        5, 0, 21, 21, false, 0⟩ 0 2 3
    = ⟨16, 1, 13, 8, ⟨[0, 2, 0, m, r, 1, 13, 0, a0, a1, a2, a3, a4, a5, a6, a7, h, t0, t1, t2, t3],
        21, 0, 21, 21, false, 0⟩⟩ := by
  unfold nan_attribute_read_next read_u8 read_le16
  rw [read_le_mk _ 5 0 21 21 false 0 1 (by norm_num) (by norm_num)]
  simp only []
  rw [read_le_mk _ (5 + 1) 0 21 21 false 0 2 (by norm_num) (by norm_num)]
  simp only [mem_read, le_value, List.getD_cons_zero, List.getD_cons_succ, Option.getD_some,
    Nat.reduceAdd, Nat.reduceMul, Nat.reduceMod, Nat.reducePow]
  rw [read_bytes_mk _ 8 0 21 21 false 0 13 (by norm_num) (by norm_num)]
  simp [buf_error]

theorem nan_attribute_read_next_end (data : List Nat) :
    nan_attribute_read_next ⟨data, 21, 0, 21, 21, false, 0⟩ 1 13 8
    = ⟨RX_TOO_SHORT, 1, 13, 8, ⟨data, 21, 0, 21, 21, false, -1⟩⟩ := by
  unfold nan_attribute_read_next read_u8 read_le16
  rw [read_le_short _ 21 0 21 21 false 0 1 (by norm_num) (by norm_num) (by norm_num)]
  simp only []
  rw [read_le_short _ 21 0 21 21 false (-1) 2 (by norm_num) (by norm_num) (by norm_num)]
  simp only [Option.getD_none]
  rw [read_bytes_short _ 21 0 21 21 false (-1) 13 (by norm_num) (by norm_num) (by norm_num)
    (by norm_num)]
  simp [buf_error]

theorem nan_parse_master_indication_attribute_bytes (m r : Nat) (rest : List Nat) (peer : nan_peer) :
    nan_parse_master_indication_attribute (buf_new_const (m :: r :: rest) 2) peer
    = (RX_OK, nan_peer_set_master_indication peer (m % 256) (r % 256)) := by
  rw [buf_new_const_mk _ 2 (by norm_num)]
  unfold nan_parse_master_indication_attribute read_u8
  rw [read_le_mk _ 0 0 _ 2 false 0 1 (by norm_num) (by norm_num)]
  simp only []
  rw [read_le_mk _ (0 + 1) 0 _ 2 false 0 1 (by norm_num) (by norm_num)]
  simp [buf_error, mem_read, le_value]

theorem nan_parse_cluster_attribute_bytes (a0 a1 a2 a3 a4 a5 a6 a7 h t0 t1 t2 t3 : Nat) (peer : nan_peer) :
    nan_parse_cluster_attribute
      (buf_new_const [a0, a1, a2, a3, a4, a5, a6, a7, h, t0, t1, t2, t3] 13) peer
    = (RX_OK, nan_peer_set_anchor_master_information peer
        (le_value [a0, a1, a2, a3, a4, a5, a6, a7] % 256 ^ 8)
        (le_value [t0, t1, t2, t3] % 256 ^ 4) (h % 256)) := by
  rw [buf_new_const_mk _ 13 (by norm_num)]
  unfold nan_parse_cluster_attribute read_u8 read_le64 read_le32
  rw [read_le_mk _ 0 0 _ 13 false 0 8 (by norm_num) (by norm_num)]
  simp only []
  rw [read_le_mk _ (0 + 8) 0 _ 13 false 0 1 (by norm_num) (by norm_num)]
  simp only []
  rw [read_le_mk _ (0 + 8 + 1) 0 _ 13 false 0 4 (by norm_num) (by norm_num)]
  simp [buf_error, mem_read, le_value]

/-- The attribute walk over a Master Indication attribute followed by a Cluster
attribute: both handlers run, the third read finds the frame exhausted. -/
theorem NAN_ITERATE_ATTRIBUTES_beacon_attributes (m r a0 a1 a2 a3 a4 a5 a6 a7 h t0 t1 t2 t3 : Nat) (peer : nan_peer)
    (fuel : Nat) :
    NAN_ITERATE_ATTRIBUTES nan_rx_beacon_handle (fuel + 3)
      (buf_new_const
        [0, 2, 0, m, r, 1, 13, 0, a0, a1, a2, a3, a4, a5, a6, a7, h, t0, t1, t2, t3] 21)
      RX_OK peer
    = some (⟨[0, 2, 0, m, r, 1, 13, 0, a0, a1, a2, a3, a4, a5, a6, a7, h, t0, t1, t2, t3],
          21, 0, 21, 21, false, -1⟩, RX_OK,
        nan_peer_set_anchor_master_information
          (nan_peer_set_master_indication peer (m % 256) (r % 256))
          (le_value [a0, a1, a2, a3, a4, a5, a6, a7] % 256 ^ 8)
          (le_value [t0, t1, t2, t3] % 256 ^ 4) (h % 256)) := by
  rw [buf_new_const_mk _ 21 (by norm_num)]
  unfold NAN_ITERATE_ATTRIBUTES
  rw [NAN_ITERATE_ATTRIBUTES_loop]
  simp only [Nat.cast_ofNat]
  rw [nan_attribute_read_next_master_indication]
  simp only [Int.reduceLT, if_true, List.drop_succ_cons, List.drop_zero]
  rw [show nan_rx_beacon_handle 0 2 (buf_new_const
      [m, r, 1, 13, 0, a0, a1, a2, a3, a4, a5, a6, a7, h, t0, t1, t2, t3] 2) RX_OK peer
    = (RX_OK, nan_peer_set_master_indication peer (m % 256) (r % 256)) from by
      unfold nan_rx_beacon_handle
      rw [if_pos (by decide), nan_parse_master_indication_attribute_bytes]]
  rw [NAN_ITERATE_ATTRIBUTES_loop]
  simp only [RX_OK, Int.reduceLT, if_false]
  rw [nan_attribute_read_next_cluster]
  simp only [Int.reduceLT, if_true, List.drop_succ_cons, List.drop_zero]
  rw [show nan_rx_beacon_handle 1 13 (buf_new_const
      [a0, a1, a2, a3, a4, a5, a6, a7, h, t0, t1, t2, t3] 13) 0
        (nan_peer_set_master_indication peer (m % 256) (r % 256))
    = (RX_OK, nan_peer_set_anchor_master_information
        (nan_peer_set_master_indication peer (m % 256) (r % 256))
        (le_value [a0, a1, a2, a3, a4, a5, a6, a7] % 256 ^ 8)
        (le_value [t0, t1, t2, t3] % 256 ^ 4) (h % 256)) from by
      unfold nan_rx_beacon_handle
      rw [if_neg (by decide), if_pos (by decide), nan_parse_cluster_attribute_bytes]]
  rw [NAN_ITERATE_ATTRIBUTES_loop]
  simp only [RX_OK, Int.reduceLT, if_false]
  rw [nan_attribute_read_next_end]
  simp [RX_TOO_SHORT, buf_rest, buf_position, to_i32]

/-- C14, as stated, fails for hop count 0: the Cluster attribute written for
an anchor master (hop count 0, AMBTT 0xDEADBEEF) and parsed for a new peer
leaves the peer's `ambtt` at the low 32 bits of its last timestamp, here 0. -/
theorem nan_parse_cluster_attribute_hop_count_zero :
    (NAN_ITERATE_ATTRIBUTES nan_rx_beacon_handle 3
      (buf_new_const (beacon_attributes (sender_state 200 100 0x11223344AABBCCDD 0 0xDEADBEEF)).data 21)
      RX_OK (nan_peer_new ⟨2, 0, 0, 0, 0, 2⟩ ⟨0x50, 0x6f, 0x9a, 1, 0, 0⟩)).map
      (fun r => (r.2.1, r.2.2.master_preference, r.2.2.random_factor, r.2.2.anchor_master_rank,
        r.2.2.hop_count, r.2.2.ambtt))
    = some (RX_OK, 200, 100, 0x11223344AABBCCDD, 0, 0) := by
  decide

/-- C14, amended. For every master preference, random factor and hop count
below 2^8, anchor master rank below 2^64 and AMBTT below 2^32 in the sender's
state, walking the 21 bytes written by `nan_add_master_indication_attribute`
and `nan_add_cluster_attribute` with the beacon attribute parser ends with
`RX_OK` and sets the peer's master preference, random factor, anchor master
rank and hop count to the sender's values; the peer's `ambtt` becomes the
sender's AMBTT when the hop count is not 0, and the low 32 bits of the peer's
last timestamp when it is 0. -/
theorem nan_beacon_attributes_round_trip (state : nan_state) (peer : nan_peer) (fuel : Nat)
    (hmp : state.sync.master_preference < 2 ^ 8) (hrf : state.sync.random_factor < 2 ^ 8)
    (hamr : state.sync.anchor_master_rank < 2 ^ 64) (hhc : state.sync.hop_count < 2 ^ 8)
    (hambtt : state.sync.ambtt < 2 ^ 32) :
    ∃ frame peer', NAN_ITERATE_ATTRIBUTES nan_rx_beacon_handle (fuel + 3)
        (buf_new_const (beacon_attributes state).data 21) RX_OK peer
        = some (frame, RX_OK, peer') ∧
      peer'.master_preference = state.sync.master_preference ∧
      peer'.random_factor = state.sync.random_factor ∧
      peer'.anchor_master_rank = state.sync.anchor_master_rank ∧
      peer'.hop_count = state.sync.hop_count ∧
      peer'.ambtt = (if state.sync.hop_count = 0 then peer.last_timestamp % 2 ^ 32
        else state.sync.ambtt) := by
  rw [nan_add_beacon_attributes_bytes]
  simp only [le_bytes, List.cons_append, List.nil_append]
  rw [NAN_ITERATE_ATTRIBUTES_beacon_attributes]
  refine ⟨_, _, rfl, ?_, ?_, ?_, ?_, ?_⟩
  · simp only [nan_peer_set_anchor_master_information, nan_peer_set_master_indication]
    split_ifs <;> simp only <;> omega
  · simp only [nan_peer_set_anchor_master_information, nan_peer_set_master_indication]
    split_ifs <;> simp only <;> omega
  · simp only [nan_peer_set_anchor_master_information, nan_peer_set_master_indication, le_value]
    split_ifs <;> simp only <;> omega
  · simp only [nan_peer_set_anchor_master_information, nan_peer_set_master_indication]
    split_ifs <;> simp only <;> omega
  · simp only [nan_peer_set_anchor_master_information, nan_peer_set_master_indication, le_value]
    split_ifs <;> simp only <;> omega

theorem nan_beacon_attributes_round_trip_witness :
    ∃ frame peer', NAN_ITERATE_ATTRIBUTES nan_rx_beacon_handle 3
        (buf_new_const (beacon_attributes (sender_state 200 100 0x11223344AABBCCDD 2 0xDEADBEEF)).data
          21) RX_OK (nan_peer_new ⟨2, 0, 0, 0, 0, 2⟩ ⟨0x50, 0x6f, 0x9a, 1, 0, 0⟩)
        = some (frame, RX_OK, peer') ∧
      peer'.master_preference = 200 ∧ peer'.random_factor = 100 ∧
      peer'.anchor_master_rank = 0x11223344AABBCCDD ∧ peer'.hop_count = 2 ∧
      peer'.ambtt = 0xDEADBEEF :=
  nan_beacon_attributes_round_trip (sender_state 200 100 0x11223344AABBCCDD 2 0xDEADBEEF)
    (nan_peer_new ⟨2, 0, 0, 0, 0, 2⟩ ⟨0x50, 0x6f, 0x9a, 1, 0, 0⟩) 0
    (by decide) (by decide) (by decide) (by decide) (by decide)

/-! ### Discovery results -/

theorem strstr_eq_zero (haystack needle : List Nat) :
    strstr haystack needle = some 0 ↔ needle.isPrefixOf haystack = true := by
  cases haystack with
  | nil =>
    unfold strstr
    split_ifs with h <;> simp [h]
  | cons c haystack =>
    unfold strstr
    split_ifs with h
    · simp [h]
    · simp only [h, iff_false]
      cases strstr haystack needle <;> simp

theorem matches_event_eq (item : nan_event_listeners_item) (event : nan_event_type)
    (service_name : List Nat) :
    matches_event item event service_name = listener_selected item event service_name := by
  unfold matches_event listener_selected
  by_cases hev : item.event = event
  · rw [if_neg (not_not.mpr hev)]
    cases hname : item.service_name with
    | none => simp [hev]
    | some name =>
      simp only [hev, decide_True, Bool.true_and]
      by_cases hp : name.isPrefixOf service_name = true
      · simp [hp, (strstr_eq_zero service_name name).mpr hp]
      · have hs : ¬ strstr service_name name = some 0 := fun h =>
          hp ((strstr_eq_zero service_name name).mp h)
        simp [hp, hs]
  · rw [if_pos hev]
    simp [hev]

theorem mem_read_length (data : List Nat) (pos n : Nat) : (mem_read data pos n).length = n := by
  induction n generalizing pos with
  | zero => rfl
  | succ n ih => simp [mem_read, ih]

theorem memcmp_bytes_eq_zero (a b : List Nat) (h : a.length = b.length) :
    memcmp_bytes a b = 0 ↔ a = b := by
  induction a generalizing b with
  | nil =>
    cases b with
    | nil => simp [memcmp_bytes]
    | cons y ys => cases h
  | cons x xs ih =>
    cases b with
    | nil => cases h
    | cons y ys =>
      unfold memcmp_bytes
      have hl : xs.length = ys.length := Nat.succ.inj h
      split_ifs with h1 h2
      · simp; omega
      · simp; omega
      · have hxy : x = y := by omega
        simp [hxy, ih ys hl]

theorem memcmp_eq_zero (a b : List Nat) (n : Nat) :
    memcmp a b n = 0 ↔ mem_read a 0 n = mem_read b 0 n :=
  memcmp_bytes_eq_zero _ _ (by rw [mem_read_length, mem_read_length])

/-- C12. When `nan_handle_received_service_discovery` receives a descriptor
with Publish control type whose service id (its six bytes) equals that of a
local Subscribed service, the listeners invoked are, in registration order and
once per registration, those registered for `EVENT_DISCOVERY_RESULT` whose name
filter is absent or a prefix of the name of the first such service; each is
called with `subscribe_id` = that service's instance id, `publish_id` = the
descriptor's instance id and `address` = the source address.  When no local
Subscribed service has that service id no listener is invoked.  The service
state is left as it was. -/
theorem nan_handle_received_service_discovery_result (state : nan_service_state)
    (event_state : nan_event_state) (self_address source_address destination_address : ether_addr)
    (service_descriptor : nan_service_descriptor_attribute)
    (hpublish : service_descriptor.control.service_control_type
      = nan_service_control_type.CONTROL_TYPE_PUBLISH.toNat) :
    ((∃ service ∈ state.subscribed_services,
        mem_read service_descriptor.service_id.byte 0 6 = mem_read service.service_id.byte 0 6) →
      ∃ service ∈ state.subscribed_services,
        mem_read service_descriptor.service_id.byte 0 6 = mem_read service.service_id.byte 0 6 ∧
        (nan_handle_received_service_discovery state event_state self_address source_address
          destination_address service_descriptor).2.calls
        = event_state.calls ++
          (event_state.listeners.filter (fun item =>
            listener_selected item nan_event_type.EVENT_DISCOVERY_RESULT service.service_name)).map
            (fun item =>
              { listener := item.listener
                event := nan_event_type.EVENT_DISCOVERY_RESULT
                event_data := nan_event_data.discovery_result
                  { subscribe_id := service.instance_id
                    publish_id := service_descriptor.instance_id
                    address := source_address
                    service_update_indicator := service.service_update_indicator
                    service_specific_info := service_descriptor.service_info
                    service_specific_info_length := service_descriptor.service_info_length }
                additional_data := item.additional_data })) ∧
    ((∀ service ∈ state.subscribed_services,
        mem_read service_descriptor.service_id.byte 0 6 ≠ mem_read service.service_id.byte 0 6) →
      (nan_handle_received_service_discovery state event_state self_address source_address
        destination_address service_descriptor).2.calls = event_state.calls) ∧
    (nan_handle_received_service_discovery state event_state self_address source_address
      destination_address service_descriptor).1 = state := by
  have hget : nan_get_service_by_service_id state service_descriptor.service_id
      nan_service_type.SUBSCRIBED.toInt
      = LIST_FIND state.subscribed_services (fun service =>
          memcmp service_descriptor.service_id.byte service.service_id.byte
            NAN_SERVICE_ID_LENGTH = 0) := by
    unfold nan_get_service_by_service_id
    simp [nan_service_type.toInt]
  unfold nan_handle_received_service_discovery
  rw [if_pos hpublish, hget]
  refine ⟨?_, ?_, ?_⟩
  · intro hex
    obtain ⟨s, hs, hid⟩ := hex
    cases hfind : LIST_FIND state.subscribed_services (fun service =>
        decide (memcmp service_descriptor.service_id.byte service.service_id.byte
          NAN_SERVICE_ID_LENGTH = 0)) with
    | none =>
      have hnone := LIST_FIND_eq_none _ _ hfind s hs
      simp only [decide_eq_false_iff_not] at hnone
      exact absurd ((memcmp_eq_zero _ _ _).mpr hid) hnone
    | some service =>
      have hmem := LIST_FIND_mem _ _ _ hfind
      have hcond := LIST_FIND_some_condition _ _ _ hfind
      simp only [decide_eq_true_eq] at hcond
      refine ⟨service, hmem, (memcmp_eq_zero _ _ _).mp hcond, ?_⟩
      simp only [nan_dispatch_event, matches_event_eq]
  · intro hall
    cases hfind : LIST_FIND state.subscribed_services (fun service =>
        decide (memcmp service_descriptor.service_id.byte service.service_id.byte
          NAN_SERVICE_ID_LENGTH = 0)) with
    | none => rfl
    | some service =>
      have hmem := LIST_FIND_mem _ _ _ hfind
      have hcond := LIST_FIND_some_condition _ _ _ hfind
      simp only [decide_eq_true_eq] at hcond
      exact absurd ((memcmp_eq_zero _ _ _).mp hcond) (hall service hmem)
  · cases hfind : LIST_FIND state.subscribed_services (fun service =>
        decide (memcmp service_descriptor.service_id.byte service.service_id.byte
          NAN_SERVICE_ID_LENGTH = 0)) with
    | none => rfl
    | some service => rfl

theorem nan_handle_received_service_discovery_result_witness :
    (nan_handle_received_service_discovery subscriber_chat listeners_chat ⟨2, 0, 0, 0, 0, 2⟩
      ⟨2, 0, 0, 0, 0, 1⟩ ⟨2, 0, 0, 0, 0, 2⟩ descriptor_chat).1 = subscriber_chat ∧
    (nan_handle_received_service_discovery subscriber_chat listeners_chat ⟨2, 0, 0, 0, 0, 2⟩
      ⟨2, 0, 0, 0, 0, 1⟩ ⟨2, 0, 0, 0, 0, 2⟩ descriptor_chat).2.calls
    = [{ listener := 1
         event := nan_event_type.EVENT_DISCOVERY_RESULT
         event_data := nan_event_data.discovery_result
           { subscribe_id := 1
             publish_id := 7
             address := ⟨2, 0, 0, 0, 0, 1⟩
             service_update_indicator := 0
             service_specific_info := none
             service_specific_info_length := 0 }
         additional_data := 0 }] :=
  ⟨(nan_handle_received_service_discovery_result subscriber_chat listeners_chat ⟨2, 0, 0, 0, 0, 2⟩
      ⟨2, 0, 0, 0, 0, 1⟩ ⟨2, 0, 0, 0, 0, 2⟩ descriptor_chat rfl).2.2, by decide⟩

/-! ### Hop count and instance ids -/

/-- C15: a device that adopted the anchor master 02:00:00:00:00:AA from a
peer with hop count 1 has hop count 2; when it then hears the anchor master
itself (same rank, hop count 0, newer AMBTT) the last block of
`nan_anchor_master_selection` stores `peer->hop_count`, not
`peer->hop_count + 1`: the hop count is 0 although the device is not the
anchor master. -/
theorem nan_anchor_master_selection_hop_count_zero :
    (nan_anchor_master_selection (nan_sync_state_init ⟨2, 0, 0, 0, 0, 1⟩) peer_S2 0).hop_count = 2 ∧
    (nan_anchor_master_selection
      (nan_anchor_master_selection (nan_sync_state_init ⟨2, 0, 0, 0, 0, 1⟩) peer_S2 0)
      peer_anchor 0).hop_count = 0 ∧
    nan_is_anchor_master_self (nan_anchor_master_selection
      (nan_anchor_master_selection (nan_sync_state_init ⟨2, 0, 0, 0, 0, 1⟩) peer_S2 0)
      peer_anchor 0) = false := by
  decide

theorem increase_non_zero_id_ne_zero (last_id : Nat) :
    increase_non_zero_id last_id ≠ 0 ∧ increase_non_zero_id last_id < 256 := by
  unfold increase_non_zero_id
  simp only
  split_ifs <;> omega

set_option maxRecDepth 100000 in
/-- C16: 256 calls of `nan_publish` from the initial state return the ids
1, ..., 255 and then 1 again; the first and the last published service are
both held and share the instance id 1. -/
theorem nan_publish_instance_id_reused :
    (nan_service_run sum_digest nan_service_state_init (List.replicate 256 publish_chat)).1.getLast?
      = some 1 ∧
    (nan_service_run sum_digest nan_service_state_init
      (List.replicate 256 publish_chat)).2.published_services.length = 256 ∧
    ((nan_service_run sum_digest nan_service_state_init
      (List.replicate 256 publish_chat)).2.published_services.get? 0).map
        (fun service => service.instance_id) = some 1 ∧
    ((nan_service_run sum_digest nan_service_state_init
      (List.replicate 256 publish_chat)).2.published_services.get? 255).map
        (fun service => service.instance_id) = some 1 := by
  decide

/-! ### Random numbers -/

theorem get_rand_num_loop_lt (end_of_last_chunk : Nat) (rand : List Nat) (r : Nat)
    (h : get_rand_num_loop end_of_last_chunk rand = some r) : r < end_of_last_chunk := by
  induction rand with
  | nil => cases h
  | cons x rand ih =>
    unfold get_rand_num_loop at h
    split_ifs at h with hx
    · exact ih h
    · cases h
      omega

theorem get_rand_num_loop_accepts (end_of_last_chunk : Nat) (rand : List Nat)
    (h : ∃ x ∈ rand, x % 2 ^ 32 < end_of_last_chunk) :
    ∃ r, get_rand_num_loop end_of_last_chunk rand = some r := by
  induction rand with
  | nil =>
    obtain ⟨x, hx, _⟩ := h
    cases hx
  | cons y rand ih =>
    unfold get_rand_num_loop
    split_ifs with hy
    · apply ih
      obtain ⟨x, hx, hlt⟩ := h
      rcases List.mem_cons.mp hx with rfl | hx
      · omega
      · exact ⟨x, hx, hlt⟩
    · exact ⟨_, rfl⟩

/-- C21. For `min <= max <= 255` and a C library whose `RAND_MAX` is at least
the 32767 the C standard requires and fits an `int`, every value
`get_rand_num(min, max)` returns lies between `min` and `max`, whatever values
`rand()` delivers; and it returns as soon as `rand()` delivers a value below
`end_of_last_chunk`. -/
theorem get_rand_num_bounds (RAND_MAX min max : Nat) (rand : List Nat)
    (hmin : min ≤ max) (hmax : max ≤ 255) (hrand : 32767 ≤ RAND_MAX) (hint : RAND_MAX < 2 ^ 31) :
    (∀ r, get_rand_num RAND_MAX min max rand = some r → min ≤ r ∧ r ≤ max) ∧
    ((∃ x ∈ rand, x % 2 ^ 32 < RAND_MAX / (max - min + 1) * (max - min + 1)) →
      ∃ r, get_rand_num RAND_MAX min max rand = some r) := by
  have hrange : (((max : Int) - (min : Int) + 1) % 2 ^ 16).toNat = max - min + 1 := by omega
  have hpos : 0 < max - min + 1 := by omega
  have hchunk : 0 < RAND_MAX / (max - min + 1) :=
    Nat.div_pos (by omega) hpos
  have hle : RAND_MAX / (max - min + 1) * (max - min + 1) ≤ RAND_MAX := Nat.div_mul_le_self _ _
  have hc32 : RAND_MAX / (max - min + 1) % 2 ^ 32 = RAND_MAX / (max - min + 1) :=
    Nat.mod_eq_of_lt (lt_of_le_of_lt (Nat.div_le_self _ _) (by omega))
  have he32 : RAND_MAX / (max - min + 1) * (max - min + 1) % 2 ^ 32
      = RAND_MAX / (max - min + 1) * (max - min + 1) := Nat.mod_eq_of_lt (by omega)
  unfold get_rand_num
  simp only [hrange, hc32, he32]
  constructor
  · intro r hr
    cases hloop : get_rand_num_loop (RAND_MAX / (max - min + 1) * (max - min + 1)) rand with
    | none => rw [hloop] at hr; cases hr
    | some x =>
      rw [hloop] at hr
      simp only [Option.map_some', Option.some.injEq] at hr
      have hx := get_rand_num_loop_lt _ _ _ hloop
      have hdiv : x / (RAND_MAX / (max - min + 1)) < max - min + 1 :=
        Nat.div_lt_of_lt_mul hx
      generalize x / (RAND_MAX / (max - min + 1)) = q at hdiv hr
      have hq : min + q ≤ max := by omega
      rw [Nat.mod_eq_of_lt (by omega)] at hr
      omega
  · intro hex
    obtain ⟨r, hr⟩ := get_rand_num_loop_accepts _ _ hex
    exact ⟨_, by rw [hr]; rfl⟩

theorem get_rand_num_bounds_witness :
    ∃ r, get_rand_num 2147483647 0 255 [2147483647, 1000000000] = some r ∧ 0 ≤ r ∧ r ≤ 255 :=
  have h := get_rand_num_bounds 2147483647 0 255 [2147483647, 1000000000] (by decide) (by decide)
    (by decide) (by decide)
  Exists.elim (h.2 ⟨1000000000, by decide, by decide⟩) (fun r hr => ⟨r, hr, h.1 r hr⟩)

/-! ### Sticky buffer error -/

/-- C22, as stated, fails: after a 4-byte read on a 2-byte buffer has set the
error flag, a 1-byte read is no no-op: it returns 1, delivers the byte and
moves the cursor. -/
theorem read_after_error_proceeds :
    (read_le32 (buf_new_const [7, 8] 2)).buf.error = -1 ∧
    (read_u8 (read_le32 (buf_new_const [7, 8] 2)).buf).ret = 1 ∧
    (read_u8 (read_le32 (buf_new_const [7, 8] 2)).buf).value = some 7 ∧
    (read_le32 (buf_new_const [7, 8] 2)).buf.current = 0 ∧
    (read_u8 (read_le32 (buf_new_const [7, 8] 2)).buf).buf.current = 1 := by
  decide

/-- Every call either fails, which sets the error flag, returns the failure
value and changes nothing else, or leaves the error flag as it is. -/
theorem buf_step_cases (b : buf) (call : buf_call) :
    ((buf_step b call).1 = call.failure ∧ (buf_step b call).2 = { b with error := -1 }) ∨
    (buf_step b call).2.error = b.error := by
  cases call <;>
    simp only [buf_step, buf_call.failure, buf_advance, write_le, write_be, write_ether_addr,
      write_bytes, read_le, read_be, read_ether_addr, read_bytes, read_bytes_copy] <;>
    split_ifs <;> simp

theorem buf_step_error (b : buf) (call : buf_call) (h : b.error ≠ 0) :
    (buf_step b call).2.error ≠ 0 := by
  rcases buf_step_cases b call with ⟨_, h2⟩ | h2
  · rw [h2]
    show (-1 : Int) ≠ 0
    decide
  · rw [h2]
    exact h

/-- A call that is out of range sets the error flag and changes nothing else
of the buffer; `buf_advance`, `write_ether_addr` and `write_bytes` then return
-1. -/
theorem buf_step_out_of_range (b : buf) (call : buf_call) (h : buf_rest b < call.needed) :
    (buf_step b call).2 = { b with error := -1 } ∧
    (call.failure = -1 → (buf_step b call).1 = -1) := by
  cases call <;>
    simp only [buf_step, buf_call.failure, buf_call.needed, buf_advance, write_le, write_be,
      write_ether_addr, write_bytes, read_le, read_be, read_ether_addr, read_bytes,
      read_bytes_copy, gt_iff_lt] at h ⊢ <;>
    rw [if_pos h] <;> simp

/-- A call that is in range leaves the error flag as it found it, and what it
returns and does to the buffer is the same whatever the flag holds. -/
theorem buf_step_in_range (b : buf) (call : buf_call) (h : ¬ buf_rest b < call.needed)
    (e : Int) :
    (buf_step b call).2.error = b.error ∧
    buf_step { b with error := e } call
      = ((buf_step b call).1, { (buf_step b call).2 with error := e }) := by
  have hrest : buf_rest { b with error := e } = buf_rest b := rfl
  cases call <;>
    simp only [buf_step, buf_call.needed, buf_advance, write_le, write_be,
      write_ether_addr, write_bytes, read_le, read_be, read_ether_addr, read_bytes,
      read_bytes_copy, gt_iff_lt, hrest] at h ⊢ <;>
    simp [if_neg h]

/-- The value a read delivers does not depend on the error flag. -/
theorem read_value_error (b : buf) (e : Int) (n length : Nat) :
    (read_le n { b with error := e }).value = (read_le n b).value ∧
    (read_be n { b with error := e }).value = (read_be n b).value ∧
    (read_ether_addr { b with error := e }).value = (read_ether_addr b).value ∧
    (read_bytes { b with error := e } length).value = (read_bytes b length).value ∧
    (read_bytes_copy { b with error := e } length).value = (read_bytes_copy b length).value := by
  have hrest : buf_rest { b with error := e } = buf_rest b := rfl
  simp only [read_le, read_be, read_ether_addr, read_bytes, read_bytes_copy, hrest]
  refine ⟨?_, ?_, ?_, ?_, ?_⟩ <;> split_ifs <;> rfl

/-- C22, amended. The error flag of a buffer, once set, is not cleared by any
sequence of read, write and advance calls.  A call that is itself out of range
(`buf_rest` is below the number of bytes it asks for) sets the flag to -1 and
leaves the cursor position and the buffer contents unchanged, and
`buf_advance`, `write_ether_addr` and `write_bytes` then return -1.  A call
that is in range is carried out whether or not the flag is already set: it
leaves the flag as it found it, and its return value, its effect on the cursor
and the contents and the value a read delivers are the same whatever the flag
holds. -/
theorem buf_error_sticky (b : buf) (calls : List buf_call) (call : buf_call) :
    (b.error ≠ 0 → (buf_run b calls).error ≠ 0) ∧
    (buf_rest b < call.needed →
      (buf_step b call).2 = { b with error := -1 } ∧
      (call.failure = -1 → (buf_step b call).1 = -1)) ∧
    (¬ buf_rest b < call.needed →
      (buf_step b call).2.error = b.error ∧
      ∀ e : Int, buf_step { b with error := e } call
        = ((buf_step b call).1, { (buf_step b call).2 with error := e })) ∧
    (∀ (e : Int) (n length : Nat),
      (read_le n { b with error := e }).value = (read_le n b).value ∧
      (read_be n { b with error := e }).value = (read_be n b).value ∧
      (read_ether_addr { b with error := e }).value = (read_ether_addr b).value ∧
      (read_bytes { b with error := e } length).value = (read_bytes b length).value ∧
      (read_bytes_copy { b with error := e } length).value
        = (read_bytes_copy b length).value) := by
  refine ⟨?_, buf_step_out_of_range b call,
    fun h => ⟨(buf_step_in_range b call h 0).1, fun e => (buf_step_in_range b call h e).2⟩,
    fun e n length => read_value_error b e n length⟩
  intro herror
  induction calls generalizing b with
  | nil => exact herror
  | cons c calls ih => exact ih _ (buf_step_error b c herror)

theorem buf_error_sticky_witness :
    (buf_run (read_le32 (buf_new_const [7, 8] 2)).buf
      [buf_call.read_le 1, buf_call.advance 1, buf_call.write_le 1 0]).error ≠ 0 ∧
    (buf_step (buf_new_const [7, 8] 2) (buf_call.advance 3)).2
      = { buf_new_const [7, 8] 2 with error := -1 } ∧
    (buf_step (buf_new_const [7, 8] 2) (buf_call.advance 3)).1 = -1 ∧
    buf_step (read_le32 (buf_new_const [7, 8] 2)).buf (buf_call.read_le 1)
      = ((buf_step (buf_new_const [7, 8] 2) (buf_call.read_le 1)).1,
        { (buf_step (buf_new_const [7, 8] 2) (buf_call.read_le 1)).2 with error := -1 }) :=
  ⟨(buf_error_sticky (read_le32 (buf_new_const [7, 8] 2)).buf
      [buf_call.read_le 1, buf_call.advance 1, buf_call.write_le 1 0] (buf_call.read_le 1)).1
      (by decide),
    ((buf_error_sticky (buf_new_const [7, 8] 2) [] (buf_call.advance 3)).2.1 (by decide)).1,
    ((buf_error_sticky (buf_new_const [7, 8] 2) [] (buf_call.advance 3)).2.1 (by decide)).2 rfl,
    ((buf_error_sticky (buf_new_const [7, 8] 2) [] (buf_call.read_le 1)).2.2.1 (by decide)).2 (-1)⟩

/-! ### Discovery beacons -/

/-- C23, as stated, fails: a master whose last discovery beacon is 512 TU old
may send a discovery beacon at synced time 512 TU, the start of a discovery
window. -/
theorem nan_can_send_discovery_beacon_in_dw :
    nan_can_send_discovery_beacon (state_S1 0) (512 * 1024) = true ∧
    nan_timer_in_dw (state_S1 0).timer (512 * 1024) = true := by
  decide

/-- C23, amended. When `nan_can_send_discovery_beacon(state, now)` is true the
role is MASTER, the initial scan is done and at least 100 TU (102400 usec) have
passed since the last discovery beacon; the discovery window is not examined. -/
theorem nan_can_send_discovery_beacon_implies (state : nan_state) (now_usec : Nat)
    (hcan : nan_can_send_discovery_beacon state now_usec = true) :
    state.sync.role = nan_role.MASTER ∧
    nan_timer_initial_scan_done state.timer now_usec = true ∧
    102400 ≤ sub_u64 now_usec state.timer.last_discovery_beacon_usec := by
  unfold nan_can_send_discovery_beacon at hcan
  split_ifs at hcan with h1 h2
  · exact ⟨not_not.mp h1, h2, by
      simpa [nan_timer_can_send_discovery_beacon, NAN_DISCOVERY_BEACON_INTERVAL_TU] using hcan⟩

theorem nan_can_send_discovery_beacon_implies_witness :
    (state_S1 0).sync.role = nan_role.MASTER ∧
    nan_timer_initial_scan_done (state_S1 0).timer 200000 = true ∧
    102400 ≤ sub_u64 200000 (state_S1 0).timer.last_discovery_beacon_usec :=
  nan_can_send_discovery_beacon_implies (state_S1 0) 200000 (by decide)

/-- C26: 1000 usec after the last discovery beacon the next slot is 101400
usec away, but `nan_timer_next_discovery_beacon_usec` returns the elapsed time
plus the interval, 103400 usec, which exceeds the interval of 102400 usec. -/
theorem nan_timer_next_discovery_beacon_usec_elapsed :
    (nan_timer_state_init 0).last_discovery_beacon_usec = 0 ∧
    nan_timer_can_send_discovery_beacon (nan_timer_state_init 0) 1000 = false ∧
    nan_timer_next_discovery_beacon_usec (nan_timer_state_init 0) 1000 = 103400 := by
  decide

/-! ### Service updates -/

/-- C24: after `nan_publish("chat", ..., "ab", 2)` and
`nan_update_publish(state, 1, "xyz", 3)` the call has returned 0 and the
service holds the three bytes "xyz", but its `service_specific_info_length` is
still 2. -/
theorem nan_update_publish_keeps_length :
    (nan_update_publish publisher_chat 1 [120, 121, 122] 3).1 = 0 ∧
    (nan_update_publish publisher_chat 1 [120, 121, 122] 3).2.published_services.map
      (fun service => (service.instance_id, service.service_specific_info,
        service.service_specific_info_length))
      = [(1, some [120, 121, 122], 2)] := by
  decide

/-- C25: after B of scenario S3, with an Active subscription to "chat", has
processed A's Publish descriptor for "chat" (and called its listener), the
subscribed service still has `is_subscribed` false and is still returned by
`nan_get_services_to_announce`. -/
theorem nan_handle_received_service_discovery_keeps_is_subscribed :
    subscriber_chat.subscribed_services.map
      (fun service => (service.parameters.type, service.time_to_live)) = [(1, -1)] ∧
    (nan_handle_received_service_discovery subscriber_chat listeners_chat ⟨2, 0, 0, 0, 0, 2⟩
      ⟨2, 0, 0, 0, 0, 1⟩ ⟨2, 0, 0, 0, 0, 2⟩ descriptor_chat).2.calls.length = 1 ∧
    (nan_handle_received_service_discovery subscriber_chat listeners_chat ⟨2, 0, 0, 0, 0, 2⟩
      ⟨2, 0, 0, 0, 0, 1⟩ ⟨2, 0, 0, 0, 0, 2⟩ descriptor_chat).1.subscribed_services.map
      (fun service => service.parameters.flag) = [false] ∧
    (nan_get_services_to_announce
      (nan_handle_received_service_discovery subscriber_chat listeners_chat ⟨2, 0, 0, 0, 0, 2⟩
        ⟨2, 0, 0, 0, 0, 1⟩ ⟨2, 0, 0, 0, 0, 2⟩ descriptor_chat).1 []).map
      (fun service => service.instance_id) = [1] := by
  decide

/-! ### The outbound buffer is a FIFO -/

/-- C28: a MASTER with no peers at all does not keep its role: the first step
of `nan_master_election` leaves MASTER, and the second step, whose `else`
branch is meant for NON_SYNC, turns it into SYNC. -/
theorem nan_master_election_master_alone :
    (nan_sync_state_init ⟨2, 0, 0, 0, 0, 1⟩).role = nan_role.MASTER ∧
    (nan_master_election_master_step (nan_sync_state_init ⟨2, 0, 0, 0, 0, 1⟩)
      ⟨0, 0, 0, 0, 0, 0, 0⟩).role = nan_role.MASTER ∧
    (nan_master_election (nan_sync_state_init ⟨2, 0, 0, 0, 0, 1⟩) [] 1000).role
      = nan_role.SYNC := by
  decide

/-- C29, as stated, fails: a SYNC device knows one peer, not close (rssi -70)
and with a higher master rank, whose last update is older than the discovery
window plus guard; the peer is not counted and the role stays SYNC. -/
theorem nan_master_election_ignores_stale_peer :
    peer_stale.rssi_average = -70 ∧
    nan_get_peer_master_rank peer_stale
      > ({ nan_sync_state_init ⟨2, 0, 0, 0, 0, 1⟩ with role := nan_role.SYNC }).master_rank ∧
    (nan_master_election { nan_sync_state_init ⟨2, 0, 0, 0, 0, 1⟩ with role := nan_role.SYNC }
      [peer_stale] 1000000).role = nan_role.SYNC := by
  decide

theorem nan_master_election_count_close (state : nan_sync_state) (now_usec : Nat)
    (c : nan_master_election_counts) (peer : nan_peer)
    (h : sub_u64 now_usec peer.last_update ≤ 20480 → ¬ peer.rssi_average > -60) :
    (nan_master_election_count state now_usec c peer).count_rssi_close = c.count_rssi_close := by
  unfold nan_master_election_count NAN_DW_LENGTH_TU RSSI_CLOSE RSSI_MIDDLE
  simp only
  by_cases hstale : sub_u64 now_usec peer.last_update > (16 + 4) * 1024
  · rw [if_pos hstale]
  · rw [if_neg hstale]
    have hclose : ¬ peer.rssi_average > -60 := h (by omega)
    rw [if_neg hclose]
    split_ifs <;> rfl

theorem nan_master_election_count_higher (state : nan_sync_state) (now_usec : Nat)
    (c : nan_master_election_counts) (peer : nan_peer) :
    c.count_higher_mr ≤ (nan_master_election_count state now_usec c peer).count_higher_mr ∧
    (sub_u64 now_usec peer.last_update ≤ 20480 →
      nan_get_peer_master_rank peer > state.master_rank →
      c.count_higher_mr < (nan_master_election_count state now_usec c peer).count_higher_mr) := by
  unfold nan_master_election_count NAN_DW_LENGTH_TU
  simp only
  by_cases hstale : sub_u64 now_usec peer.last_update > (16 + 4) * 1024
  · rw [if_pos hstale]
    exact ⟨Nat.le_refl _, fun h => by omega⟩
  · rw [if_neg hstale]
    constructor
    · split_ifs <;> simp
    · intro _ hrank
      split_ifs <;> simp

theorem nan_master_election_counts_close (state : nan_sync_state) (now_usec : Nat)
    (peers : List nan_peer) (c : nan_master_election_counts)
    (h : ∀ peer ∈ peers, sub_u64 now_usec peer.last_update ≤ 20480 → ¬ peer.rssi_average > -60) :
    (peers.foldl (nan_master_election_count state now_usec) c).count_rssi_close
      = c.count_rssi_close := by
  induction peers generalizing c with
  | nil => rfl
  | cons peer peers ih =>
    rw [List.foldl_cons, ih _ (fun p hp => h p (List.mem_cons_of_mem _ hp))]
    exact nan_master_election_count_close state now_usec c peer (h peer (List.mem_cons_self _ _))

theorem nan_master_election_counts_higher_le (state : nan_sync_state) (now_usec : Nat)
    (peers : List nan_peer) (c : nan_master_election_counts) :
    c.count_higher_mr
      ≤ (peers.foldl (nan_master_election_count state now_usec) c).count_higher_mr := by
  induction peers generalizing c with
  | nil => exact Nat.le_refl _
  | cons peer peers ih =>
    rw [List.foldl_cons]
    exact Nat.le_trans (nan_master_election_count_higher state now_usec c peer).1 (ih _)

theorem nan_master_election_counts_higher (state : nan_sync_state) (now_usec : Nat)
    (peers : List nan_peer) (c : nan_master_election_counts)
    (h : ∃ peer ∈ peers, sub_u64 now_usec peer.last_update ≤ 20480 ∧
      nan_get_peer_master_rank peer > state.master_rank) :
    c.count_higher_mr
      < (peers.foldl (nan_master_election_count state now_usec) c).count_higher_mr := by
  induction peers generalizing c with
  | nil =>
    obtain ⟨p, hp, _⟩ := h
    cases hp
  | cons peer peers ih =>
    rw [List.foldl_cons]
    obtain ⟨p, hp, hfresh, hrank⟩ := h
    rcases List.mem_cons.mp hp with rfl | hp
    · exact Nat.lt_of_lt_of_le
        ((nan_master_election_count_higher state now_usec c p).2 hfresh hrank)
        (nan_master_election_counts_higher_le state now_usec peers _)
    · exact Nat.lt_of_le_of_lt (nan_master_election_count_higher state now_usec c peer).1
        (ih _ ⟨p, hp, hfresh, hrank⟩)

/-- C29, amended. If the role is SYNC or NON_SYNC and, among the known peers
whose last update is at most 20 TU (20480 usec) before `now_usec`, none has
`rssi_average > -60` and at least one has a master rank above the device's,
then the master step of `nan_master_election`, its first `if`/`else`, sets the
role MASTER. -/
theorem nan_master_election_master_step_to_master (state : nan_sync_state)
    (peers : List nan_peer) (now_usec : Nat) (hrole : state.role ≠ nan_role.MASTER)
    (hclose : ∀ peer ∈ peers,
      sub_u64 now_usec peer.last_update ≤ 20480 → ¬ peer.rssi_average > -60)
    (hhigher : ∃ peer ∈ peers, sub_u64 now_usec peer.last_update ≤ 20480 ∧
      nan_get_peer_master_rank peer > state.master_rank) :
    (nan_master_election_master_step state
      (peers.foldl (nan_master_election_count state now_usec) ⟨0, 0, 0, 0, 0, 0, 0⟩)).role
      = nan_role.MASTER := by
  have h1 := nan_master_election_counts_close state now_usec peers ⟨0, 0, 0, 0, 0, 0, 0⟩ hclose
  have h2 := nan_master_election_counts_higher state now_usec peers ⟨0, 0, 0, 0, 0, 0, 0⟩ hhigher
  unfold nan_master_election_master_step
  rw [if_neg hrole, if_pos ⟨h1, Nat.lt_of_le_of_lt (Nat.zero_le _) h2⟩]

theorem nan_master_election_master_step_to_master_witness :
    (nan_master_election_master_step
      { nan_sync_state_init ⟨2, 0, 0, 0, 0, 1⟩ with role := nan_role.SYNC }
      ([{ peer_stale with last_update := 1000000 }].foldl
        (nan_master_election_count
          { nan_sync_state_init ⟨2, 0, 0, 0, 0, 1⟩ with role := nan_role.SYNC } 1000000)
        ⟨0, 0, 0, 0, 0, 0, 0⟩)).role = nan_role.MASTER :=
  nan_master_election_master_step_to_master
    { nan_sync_state_init ⟨2, 0, 0, 0, 0, 1⟩ with role := nan_role.SYNC }
    [{ peer_stale with last_update := 1000000 }] 1000000 (by decide) (by decide)
    ⟨{ peer_stale with last_update := 1000000 }, List.mem_cons_self _ _, by decide, by decide⟩

/-! ### Anchor master expiration -/

/-- C30: a device that adopted an anchor master whose AMBTT is 5 stores
`ambtt` 5 and `last_ambtt` 0; at three DW ends in a row, with the stored
`ambtt` unchanged, `nan_check_anchor_master_expiration` finds
`ambtt != last_ambtt`, resets the counter and does not adopt the device as
its own anchor master. -/
theorem nan_check_anchor_master_expiration_never_expires :
    nan_is_anchor_master_self state_following = false ∧
    state_following.ambtt = 5 ∧ state_following.last_ambtt = 0 ∧
    nan_check_anchor_master_expiration state_following = state_following ∧
    nan_is_anchor_master_self
      (nan_check_anchor_master_expiration (nan_check_anchor_master_expiration
        (nan_check_anchor_master_expiration state_following))) = false := by
  decide

/-! ### Discovery window end, early cleanup, truncated attributes, cursor -/

/-- C32: at synced time 16 TU the timer counts as in a discovery window, and
`nan_timer_dw_end_usec` returns 512 TU (524288 usec) where
`(16 - 16) * 1024 = 0` is claimed and at most 16 TU can remain. -/
theorem nan_timer_dw_end_usec_at_dw_length :
    nan_timer_in_dw (nan_timer_state_init 0) (16 * 1024) = true ∧
    nan_timer_get_fixed_time_tu (nan_timer_state_init 0) (16 * 1024) % 512 = 16 ∧
    nan_timer_dw_end_usec (nan_timer_state_init 0) (16 * 1024) = 512 * 1024 := by
  decide

/-- C33: with the default timeout of 5242880 usec, a peer last updated at 500
is removed by a cleanup at 1000, although `last_update + timeout_usec >= now`:
`now_usec - state->timeout_usec` wraps around in `uint64_t`. -/
theorem nan_peers_clean_removes_before_timeout :
    (∀ peer ∈ peers_early.peers, peer.last_update + peers_early.timeout_usec ≥ 1000) ∧
    sub_u64 1000 peers_early.timeout_usec = 2 ^ 64 - 5241880 ∧
    nan_peers_clean 2 peers_early 1000 = clean_result.returned
      { peers_early with peers := [], peer_remove_calls := peers_early.peers } := by
  decide

/-- C36: an attribute that declares 10 bytes where 2 remain makes the walk end
with `RX_UNEXPECTED_FORMAT`, and one that declares 10 bytes where none remain
is accepted with `RX_OK`; `RX_TOO_SHORT`, which `nan_attribute_read_next`
returns in both cases, is not passed on. -/
theorem NAN_ITERATE_ATTRIBUTES_truncated :
    (nan_attribute_read_next (buf_new_const [5, 10, 0, 1, 2] 5) 0 0 0).ret = RX_TOO_SHORT ∧
    (NAN_ITERATE_ATTRIBUTES nan_rx_beacon_handle 2 (buf_new_const [5, 10, 0, 1, 2] 5) RX_OK
      (nan_peer_new ⟨2, 0, 0, 0, 0, 2⟩ ⟨0x50, 0x6f, 0x9a, 1, 0, 0⟩)).map (fun r => r.2.1)
      = some RX_UNEXPECTED_FORMAT ∧
    (nan_attribute_read_next (buf_new_const [5, 10, 0] 3) 0 0 0).ret = RX_TOO_SHORT ∧
    (NAN_ITERATE_ATTRIBUTES nan_rx_beacon_handle 2 (buf_new_const [5, 10, 0] 3) RX_OK
      (nan_peer_new ⟨2, 0, 0, 0, 0, 2⟩ ⟨0x50, 0x6f, 0x9a, 1, 0, 0⟩)).map (fun r => r.2.1)
      = some RX_OK := by
  decide

/-- C37: `read_ether_addr` on a buffer of six bytes succeeds, returns 6 and
delivers the six octets, but leaves the cursor at 0. -/
theorem read_ether_addr_keeps_cursor :
    (read_ether_addr (buf_new_const [2, 0, 0, 0, 0, 1] 6)).ret = 6 ∧
    (read_ether_addr (buf_new_const [2, 0, 0, 0, 0, 1] 6)).value = some [2, 0, 0, 0, 0, 1] ∧
    (read_ether_addr (buf_new_const [2, 0, 0, 0, 0, 1] 6)).buf.error = 0 ∧
    buf_position (read_ether_addr (buf_new_const [2, 0, 0, 0, 0, 1] 6)).buf = 0 ∧
    buf_position (write_ether_addr (buf_new_owned 6) ⟨2, 0, 0, 0, 0, 1⟩).2 = 6 := by
  decide

/-- C39: a device that is its own anchor master with address 02:00:00:00:00:05
changes its interface address to 02:00:00:00:00:01; `nan_update_master_rank`
returns true and stores the new, smaller master rank, but tests
`nan_is_anchor_master_self` only after that, so the anchor master rank stays
the old one and the device is no longer its own anchor master. -/
theorem nan_update_master_rank_loses_anchor :
    nan_is_anchor_master_self (nan_sync_state_init ⟨2, 0, 0, 0, 0, 5⟩) = true ∧
    (nan_sync_state_init ⟨2, 0, 0, 0, 0, 5⟩).anchor_master_rank
      = (nan_sync_state_init ⟨2, 0, 0, 0, 0, 5⟩).master_rank ∧
    (nan_update_master_rank (nan_sync_state_init ⟨2, 0, 0, 0, 0, 5⟩)
      (some ⟨2, 0, 0, 0, 0, 1⟩)).1 = true ∧
    (nan_update_master_rank (nan_sync_state_init ⟨2, 0, 0, 0, 0, 5⟩)
      (some ⟨2, 0, 0, 0, 0, 1⟩)).2.master_rank
      = nan_calculate_master_rank 0 0 ⟨2, 0, 0, 0, 0, 1⟩ ∧
    (nan_update_master_rank (nan_sync_state_init ⟨2, 0, 0, 0, 0, 5⟩)
      (some ⟨2, 0, 0, 0, 0, 1⟩)).2.anchor_master_rank
      = nan_calculate_master_rank 0 0 ⟨2, 0, 0, 0, 0, 5⟩ ∧
    nan_is_anchor_master_self (nan_update_master_rank (nan_sync_state_init ⟨2, 0, 0, 0, 0, 5⟩)
      (some ⟨2, 0, 0, 0, 0, 1⟩)).2 = false := by
  decide

/-! ### Outlier rejection -/

/-- C31: with synced time 2^32 usec and peer timestamp 0 the difference is
2^32 usec, far beyond one DW interval (524288 usec), yet `nan_timer_sync_error`
does not skip it: the `int` that holds the difference is 0, and the sample is
added to the ring, whose position goes from 0 to 1. -/
theorem nan_timer_sync_error_accepts_wrapped_difference :
    nan_timer_get_synced_time_usec (nan_timer_state_init 0) (2 ^ 32) = 2 ^ 32 ∧
    (nan_timer_sync_error (nan_timer_state_init 0) (2 ^ 32) 0).average_error_state.position = 1 ∧
    (nan_timer_state_init 0).average_error_state.position = 0 := by
  decide

theorem nan_timer_sync_error_sample (synced timestamp : Nat)
    (hlo : -(2 ^ 31) < (synced : Int) - (timestamp : Int))
    (hhi : (synced : Int) - (timestamp : Int) < 2 ^ 31) :
    to_i32 (sub_u64 (to_u64 (to_i32 synced)) timestamp) = (synced : Int) - (timestamp : Int) := by
  unfold to_i32 sub_u64 to_u64
  split_ifs <;> omega

/-- Where the difference `synced_time_usec(now) - timestamp` fits an `int` (its
magnitude is below 2^31) the outlier rejection works: when the magnitude
exceeds one DW interval (512 * 1024 usec) `nan_timer_sync_error` leaves the
timer unchanged, otherwise it adds exactly that difference as one sample to the
moving average. -/
theorem nan_timer_sync_error_outlier (state : nan_timer_state) (now_usec timestamp : Nat)
    (hlo : -(2 ^ 31) < (nan_timer_get_synced_time_usec state now_usec : Int) - (timestamp : Int))
    (hhi : (nan_timer_get_synced_time_usec state now_usec : Int) - (timestamp : Int) < 2 ^ 31) :
    (512 * 1024 < ((nan_timer_get_synced_time_usec state now_usec : Int)
        - (timestamp : Int)).natAbs →
      nan_timer_sync_error state now_usec timestamp = state) ∧
    (((nan_timer_get_synced_time_usec state now_usec : Int) - (timestamp : Int)).natAbs
        ≤ 512 * 1024 →
      nan_timer_sync_error state now_usec timestamp =
        { state with
          average_error_state :=
            (moving_average_add to_i32 state.average_error_state state.average_error
              ((nan_timer_get_synced_time_usec state now_usec : Int) - (timestamp : Int))).1
          average_error :=
            (moving_average_add to_i32 state.average_error_state state.average_error
              ((nan_timer_get_synced_time_usec state now_usec : Int) - (timestamp : Int))).2 }) := by
  have hsample := nan_timer_sync_error_sample _ timestamp hlo hhi
  unfold nan_timer_sync_error
  simp only [hsample, NAN_DW_INTERVAL_TU]
  generalize (nan_timer_get_synced_time_usec state now_usec : Int) - (timestamp : Int) = d
    at hlo hhi
  have habs : to_i32 (d.natAbs : Int) = (d.natAbs : Int) :=
    to_i32_of_nonneg_lt _ (by omega) (by omega)
  rw [habs]
  constructor
  · intro h
    rw [if_pos (by omega)]
  · intro h
    rw [if_neg (by omega)]

theorem nan_timer_sync_error_outlier_witness :
    nan_timer_sync_error (nan_timer_state_init 0) 2000000 1000000 = nan_timer_state_init 0 :=
  (nan_timer_sync_error_outlier (nan_timer_state_init 0) 2000000 1000000 (by decide)
    (by decide)).1 (by decide)

/-! ### Announce candidates -/

/-- C34, as stated, fails: a Published service of type Solicited whose
`do_publish` is set but whose `time_to_live` is 0 is not announced. -/
theorem nan_should_announce_service_ttl_zero :
    ({ service_chat with time_to_live := 0, parameters := { type := 1, flag := true } }).type
      = nan_service_type.PUBLISHED ∧
    nan_publish_type.PUBLISH_SOLICITED.toNat = 1 ∧
    nan_should_announce_service
      { service_chat with time_to_live := 0, parameters := { type := 1, flag := true } }
      = false := by
  decide

theorem foldl_list_add {α : Type} (items list : List α) :
    items.foldl list_add list = list ++ items := by
  induction items generalizing list with
  | nil => simp
  | cons item items ih => simp [List.foldl_cons, ih, list_add]

theorem nan_get_services_to_announce_eq (state : nan_service_state)
    (announced_services : List nan_service) :
    nan_get_services_to_announce state announced_services
      = announced_services ++ state.published_services.filter nan_should_announce_service
        ++ state.subscribed_services.filter nan_should_announce_service := by
  unfold nan_get_services_to_announce
  simp only [foldl_list_add]

/-- C34, amended. For a service whose publish or subscribe type is one of the
enumerators, `nan_should_announce_service(s)` is true if and only if s is
Published with type Unsolicited or Both and `time_to_live != 0`, or s is
Published with type Solicited or Both, `do_publish` is set and
`time_to_live != 0`, or s is Subscribed with type Active, `time_to_live != 0`
and `is_subscribed` false; `nan_get_services_to_announce` appends to an empty
list exactly the services satisfying it, the published ones first, each once,
in registry order. -/
theorem nan_should_announce_service_iff (service : nan_service) (state : nan_service_state)
    (hpublish : service.type = nan_service_type.PUBLISHED → service.parameters.type < 3)
    (hsubscribe : service.type = nan_service_type.SUBSCRIBED → service.parameters.type < 2) :
    (nan_should_announce_service service = true ↔
      (service.type = nan_service_type.PUBLISHED ∧
        (service.parameters.type = nan_publish_type.PUBLISH_UNSOLICITED.toNat ∨
          service.parameters.type = nan_publish_type.PUBLISH_BOTH.toNat) ∧
        service.time_to_live ≠ 0) ∨
      (service.type = nan_service_type.PUBLISHED ∧
        (service.parameters.type = nan_publish_type.PUBLISH_SOLICITED.toNat ∨
          service.parameters.type = nan_publish_type.PUBLISH_BOTH.toNat) ∧
        service.parameters.flag = true ∧ service.time_to_live ≠ 0) ∨
      (service.type = nan_service_type.SUBSCRIBED ∧
        service.parameters.type = nan_subscribe_type.SUBSCRIBE_ACTIVE.toNat ∧
        service.time_to_live ≠ 0 ∧ service.parameters.flag = false)) ∧
    nan_get_services_to_announce state []
      = state.published_services.filter nan_should_announce_service
        ++ state.subscribed_services.filter nan_should_announce_service := by
  refine ⟨?_, by rw [nan_get_services_to_announce_eq, List.nil_append]⟩
  unfold nan_should_announce_service
  simp only [nan_publish_type.toNat, nan_subscribe_type.toNat]
  cases htype : service.type with
  | PUBLISHED =>
    have h3 := hpublish htype
    have hcases : service.parameters.type = 0 ∨ service.parameters.type = 1 ∨
        service.parameters.type = 2 := by omega
    by_cases httl : service.time_to_live = 0
    · simp [httl]
    · rcases hcases with h | h | h
      · simp [httl, h]
      · by_cases hflag : service.parameters.flag = true
        · simp [httl, h, hflag]
        · simp [httl, h, hflag]
      · simp [httl, h]
  | SUBSCRIBED =>
    have h2 := hsubscribe htype
    have hcases : service.parameters.type = 0 ∨ service.parameters.type = 1 := by omega
    by_cases httl : service.time_to_live = 0
    · simp [httl]
    · rcases hcases with h | h
      · simp [httl, h]
      · by_cases hflag : service.parameters.flag = true
        · simp [httl, h, hflag]
        · simp [httl, h, hflag]

theorem nan_should_announce_service_iff_witness :
    nan_should_announce_service service_chat = true ∧
    nan_get_services_to_announce publisher_chat [] = publisher_chat.published_services :=
  have h := nan_should_announce_service_iff service_chat publisher_chat (fun _ => by decide)
    (fun h => absurd h (by decide))
  ⟨h.1.2 (Or.inl ⟨rfl, Or.inl rfl, by decide⟩), h.2.trans (by decide)⟩

/-! ### Announcement budget -/

theorem nan_announce_round_eq (state : nan_service_state) :
    (nan_announce_round state).1
      = state.published_services.filter nan_should_announce_service
        ++ state.subscribed_services.filter nan_should_announce_service ∧
    (nan_announce_round state).2.published_services
      = state.published_services.map nan_announce_step ∧
    (nan_announce_round state).2.subscribed_services
      = state.subscribed_services.map nan_announce_step ∧
    (nan_announce_round state).2.last_instance_id = state.last_instance_id := by
  unfold nan_announce_round nan_update_announced_services
  simp only [nan_get_services_to_announce_eq, List.nil_append]
  refine ⟨trivial, ?_, ?_, trivial⟩
  · apply List.map_congr_left
    intro service hmem
    unfold nan_announce_step
    by_cases h : nan_should_announce_service service = true
    · rw [if_pos h, if_pos]
      exact List.mem_append_left _ (List.mem_filter.mpr ⟨hmem, h⟩)
    · rw [if_neg h, if_neg]
      intro hin
      rcases List.mem_append.mp hin with hin | hin
      · exact h (List.mem_filter.mp hin).2
      · exact h (List.mem_filter.mp hin).2
  · apply List.map_congr_left
    intro service hmem
    unfold nan_announce_step
    by_cases h : nan_should_announce_service service = true
    · rw [if_pos h, if_pos]
      exact List.mem_append_right _ (List.mem_filter.mpr ⟨hmem, h⟩)
    · rw [if_neg h, if_neg]
      intro hin
      rcases List.mem_append.mp hin with hin | hin
      · exact h (List.mem_filter.mp hin).2
      · exact h (List.mem_filter.mp hin).2

theorem nan_should_announce_service_unsolicited (service : nan_service)
    (hpublished : service.type = nan_service_type.PUBLISHED)
    (htype : service.parameters.type = nan_publish_type.PUBLISH_UNSOLICITED.toNat) :
    nan_should_announce_service service = decide (service.time_to_live ≠ 0) := by
  unfold nan_should_announce_service
  simp only [nan_publish_type.toNat] at htype ⊢
  by_cases httl : service.time_to_live = 0
  · simp [hpublished, httl]
  · simp [hpublished, httl, htype]

theorem nan_announce_step_unsolicited (service : nan_service)
    (hpublished : service.type = nan_service_type.PUBLISHED)
    (htype : service.parameters.type = nan_publish_type.PUBLISH_UNSOLICITED.toNat) :
    (nan_announce_step service).type = nan_service_type.PUBLISHED ∧
    (nan_announce_step service).parameters.type = nan_publish_type.PUBLISH_UNSOLICITED.toNat ∧
    (nan_announce_step service).time_to_live
      = (if service.time_to_live > 0 then service.time_to_live - 1 else service.time_to_live) := by
  unfold nan_announce_step
  rw [nan_should_announce_service_unsolicited service hpublished htype]
  unfold nan_update_announced_service
  by_cases httl : service.time_to_live = 0
  · simp [httl, hpublished, htype]
  · by_cases hpos : service.time_to_live > 0
    · simp [httl, hpos, hpublished, htype]
    · simp [httl, hpos, hpublished, htype]

theorem nan_announce_step_budget (k n : Nat) (service : nan_service)
    (hpublished : service.type = nan_service_type.PUBLISHED)
    (htype : service.parameters.type = nan_publish_type.PUBLISH_UNSOLICITED.toNat)
    (httl : service.time_to_live = (n : Int)) :
    (nan_should_announce_service (Nat.iterate nan_announce_step k service) = true ↔ k < n) := by
  induction k generalizing n service with
  | zero =>
    rw [Function.iterate_zero, id, nan_should_announce_service_unsolicited service hpublished htype,
      httl]
    simp
    omega
  | succ k ih =>
    rw [Function.iterate_succ, Function.comp]
    obtain ⟨h1, h2, h3⟩ := nan_announce_step_unsolicited service hpublished htype
    by_cases hn : n = 0
    · subst hn
      have hstep : (nan_announce_step service).time_to_live = ((0 : Nat) : Int) := by
        rw [h3, httl]; simp
      rw [ih 0 _ h1 h2 hstep]
      omega
    · have hstep : (nan_announce_step service).time_to_live = ((n - 1 : Nat) : Int) := by
        rw [h3, httl, if_pos (by omega)]
        omega
      rw [ih (n - 1) _ h1 h2 hstep]
      omega

theorem nan_announce_step_unbounded (k : Nat) (service : nan_service)
    (hpublished : service.type = nan_service_type.PUBLISHED)
    (htype : service.parameters.type = nan_publish_type.PUBLISH_UNSOLICITED.toNat)
    (httl : service.time_to_live = -1) :
    nan_should_announce_service (Nat.iterate nan_announce_step k service) = true ∧
    (Nat.iterate nan_announce_step k service).time_to_live = -1 := by
  induction k generalizing service with
  | zero =>
    rw [Function.iterate_zero, id, nan_should_announce_service_unsolicited service hpublished htype,
      httl]
    exact ⟨by decide, rfl⟩
  | succ k ih =>
    rw [Function.iterate_succ, Function.comp]
    obtain ⟨h1, h2, h3⟩ := nan_announce_step_unsolicited service hpublished htype
    exact ih _ h1 h2 (by rw [h3, httl]; decide)

theorem nan_announce_rounds_eq (k : Nat) (state : nan_service_state) :
    (nan_announce_rounds k state).published_services
      = state.published_services.map (Nat.iterate nan_announce_step k) ∧
    (nan_announce_rounds k state).subscribed_services
      = state.subscribed_services.map (Nat.iterate nan_announce_step k) := by
  unfold nan_announce_rounds
  induction k generalizing state with
  | zero => simp
  | succ k ih =>
    rw [Function.iterate_succ, Function.comp]
    obtain ⟨_, h2, h3, _⟩ := nan_announce_round_eq state
    obtain ⟨i1, i2⟩ := ih (nan_announce_round state).2
    rw [i1, i2, h2, h3]
    simp [Function.iterate_succ]

/-- C35. One announce round lists the registered services that
`nan_should_announce_service` accepts and applies
`nan_update_announced_services` to exactly those, so that after `k` rounds
every registered service has gone through `k` steps.  A Published Unsolicited
service with `time_to_live = n >= 0` is accepted in round `k + 1` if and only
if `k < n`, that is in the first `n` rounds and never afterwards; with
`time_to_live = -1` it is accepted in every round and `time_to_live` stays
-1.  And for every list of announced services, every registered published
service in the list, whatever its publish type, is replaced in the registry by
its update, whose `do_publish` is false. -/
theorem nan_announce_budget (state : nan_service_state) (service : nan_service) (n k : Nat) :
    ((nan_announce_round state).1
      = state.published_services.filter nan_should_announce_service
        ++ state.subscribed_services.filter nan_should_announce_service ∧
      (nan_announce_rounds k state).published_services
        = state.published_services.map (Nat.iterate nan_announce_step k) ∧
      (nan_announce_rounds k state).subscribed_services
        = state.subscribed_services.map (Nat.iterate nan_announce_step k)) ∧
    (service.type = nan_service_type.PUBLISHED →
      service.parameters.type = nan_publish_type.PUBLISH_UNSOLICITED.toNat →
      (service.time_to_live = (n : Int) →
        (nan_should_announce_service (Nat.iterate nan_announce_step k service) = true ↔ k < n)) ∧
      (service.time_to_live = -1 →
        nan_should_announce_service (Nat.iterate nan_announce_step k service) = true ∧
        (Nat.iterate nan_announce_step k service).time_to_live = -1)) ∧
    (∀ (announced_services : List nan_service) (announced : nan_service),
      announced ∈ announced_services → announced ∈ state.published_services →
      announced.type = nan_service_type.PUBLISHED →
      nan_update_announced_service announced
        ∈ (nan_update_announced_services state announced_services).published_services ∧
      (nan_update_announced_service announced).parameters.flag = false) := by
  obtain ⟨h1, _, _, _⟩ := nan_announce_round_eq state
  obtain ⟨h2, h3⟩ := nan_announce_rounds_eq k state
  refine ⟨⟨h1, h2, h3⟩, fun hpublished htype =>
    ⟨nan_announce_step_budget k n service hpublished htype,
      nan_announce_step_unbounded k service hpublished htype⟩, ?_⟩
  intro announced_services announced hin hmem hpublished
  constructor
  · unfold nan_update_announced_services
    exact List.mem_map.mpr ⟨announced, hmem, by rw [if_pos hin]⟩
  · unfold nan_update_announced_service
    split_ifs <;> simp_all

theorem nan_announce_budget_witness :
    (nan_should_announce_service
      (Nat.iterate nan_announce_step 1 { service_chat with time_to_live := 2 }) = true ↔ 1 < 2) ∧
    ¬ (nan_should_announce_service
      (Nat.iterate nan_announce_step 2 { service_chat with time_to_live := 2 }) = true) ∧
    (nan_update_announced_service
      { service_chat with parameters := { type := 1, flag := true } }).parameters.flag = false :=
  ⟨((nan_announce_budget publisher_chat { service_chat with time_to_live := 2 } 2 1).2.1
      rfl rfl).1 rfl,
    fun h => absurd
      ((((nan_announce_budget publisher_chat { service_chat with time_to_live := 2 } 2 2).2.1
        rfl rfl).1 rfl).mp h) (by decide),
    ((nan_announce_budget
      { publisher_chat with
        published_services := [{ service_chat with parameters := { type := 1, flag := true } }] }
      service_chat 0 0).2.2
      [{ service_chat with parameters := { type := 1, flag := true } }]
      { service_chat with parameters := { type := 1, flag := true } }
      (by decide) (by decide) rfl).2⟩

/-! ### Moving average -/

set_option maxHeartbeats 2000000 in
theorem nan_master_election_count_add (state : nan_sync_state) (now_usec : Nat)
    (c : nan_master_election_counts) (peer : nan_peer) :
    nan_master_election_count state now_usec c peer
      = c.add (nan_master_election_count state now_usec ⟨0, 0, 0, 0, 0, 0, 0⟩ peer) := by
  unfold nan_master_election_count nan_master_election_counts.add
  simp only
  by_cases hstale : sub_u64 now_usec peer.last_update > (NAN_DW_LENGTH_TU + 4) * 1024
  · simp only [if_pos hstale, Nat.add_zero]
  · by_cases hclose : peer.rssi_average > RSSI_CLOSE <;>
    by_cases hmiddle : peer.rssi_average > RSSI_MIDDLE <;>
    by_cases hrank : nan_get_peer_master_rank peer > state.master_rank <;>
    cases hcandidate : peer.master_candidate <;>
    simp only [hstale, hclose, hmiddle, hrank, hcandidate, ↓reduceIte, Bool.false_eq_true,
      Nat.add_zero, Nat.zero_add]

theorem nan_master_election_count_comm (state : nan_sync_state) (now_usec : Nat)
    (c : nan_master_election_counts) (p q : nan_peer) :
    nan_master_election_count state now_usec (nan_master_election_count state now_usec c p) q
      = nan_master_election_count state now_usec (nan_master_election_count state now_usec c q) p := by
  rw [nan_master_election_count_add state now_usec (nan_master_election_count state now_usec c p) q,
    nan_master_election_count_add state now_usec c p,
    nan_master_election_count_add state now_usec (nan_master_election_count state now_usec c q) p,
    nan_master_election_count_add state now_usec c q]
  generalize nan_master_election_count state now_usec ⟨0, 0, 0, 0, 0, 0, 0⟩ p = a
  generalize nan_master_election_count state now_usec ⟨0, 0, 0, 0, 0, 0, 0⟩ q = b
  simp only [nan_master_election_counts.add, nan_master_election_counts.mk.injEq]
  refine ⟨?_, ?_, ?_, ?_, ?_, ?_, ?_⟩ <;> omega

theorem nan_master_election_count_skipped (state : nan_sync_state) (now_usec : Nat)
    (c : nan_master_election_counts) (peer : nan_peer)
    (h : nan_master_election_counted now_usec peer = false) :
    nan_master_election_count state now_usec c peer = c := by
  unfold nan_master_election_counted at h
  unfold nan_master_election_count
  rw [if_pos (by simpa using h)]

theorem nan_master_election_count_master_rank (state other : nan_sync_state) (now_usec : Nat)
    (h : other.master_rank = state.master_rank) :
    nan_master_election_count other now_usec = nan_master_election_count state now_usec := by
  funext c peer
  unfold nan_master_election_count
  rw [h]

theorem nan_master_election_counts_filter (state : nan_sync_state) (now_usec : Nat)
    (peers : List nan_peer) (c : nan_master_election_counts) :
    (peers.filter (nan_master_election_counted now_usec)).foldl
        (nan_master_election_count state now_usec) c
      = peers.foldl (nan_master_election_count state now_usec) c := by
  induction peers generalizing c with
  | nil => rfl
  | cons p ps ih =>
    cases h : nan_master_election_counted now_usec p
    · rw [List.filter_cons_of_neg (by simp [h]), List.foldl_cons,
        nan_master_election_count_skipped state now_usec c p h, ih]
    · rw [List.filter_cons_of_pos h, List.foldl_cons, List.foldl_cons, ih]

theorem nan_master_election_steps_role (state other : nan_sync_state)
    (c : nan_master_election_counts) (h : other.role = state.role) :
    (nan_master_election_sync_step (nan_master_election_master_step other c) c).role
      = (nan_master_election_sync_step (nan_master_election_master_step state c) c).role := by
  unfold nan_master_election_sync_step nan_master_election_master_step
  rw [h]
  split_ifs <;> simp_all

theorem nan_master_election_steps_frame (state : nan_sync_state)
    (c : nan_master_election_counts) :
    nan_master_election_sync_step (nan_master_election_master_step state c) c
      = { state with
          role := (nan_master_election_sync_step
            (nan_master_election_master_step state c) c).role } := by
  unfold nan_master_election_sync_step nan_master_election_master_step
  split_ifs <;> rfl

/-- C40: `nan_master_election` changes no field of the sync state other than
`role`; the resulting role is the same for two states with the same role and
master rank and two peer lists whose counted peers (last update no more than
20 TU before `now_usec`) are the same up to order; so the election over the
list without the peers that are not counted gives the same result, and so does
the election over a reordered list; a peer updated more than 20 TU before
`now_usec` is not counted. -/
theorem nan_master_election_frame (state other : nan_sync_state) (peers others : List nan_peer)
    (now_usec : Nat) (hrole : other.role = state.role)
    (hrank : other.master_rank = state.master_rank)
    (hpeers : (others.filter (nan_master_election_counted now_usec)).Perm
      (peers.filter (nan_master_election_counted now_usec))) :
    nan_master_election state peers now_usec
      = { state with role := (nan_master_election state peers now_usec).role } ∧
    (nan_master_election other others now_usec).role
      = (nan_master_election state peers now_usec).role ∧
    nan_master_election state (peers.filter (nan_master_election_counted now_usec)) now_usec
      = nan_master_election state peers now_usec ∧
    (∀ reordered : List nan_peer, reordered.Perm peers →
      nan_master_election state reordered now_usec = nan_master_election state peers now_usec) ∧
    (∀ peer : nan_peer, now_usec < 2 ^ 64 → peer.last_update + 20 * 1024 < now_usec →
      nan_master_election_counted now_usec peer = false) := by
  have hperm : ∀ (l₁ l₂ : List nan_peer) (c : nan_master_election_counts), l₁.Perm l₂ →
      l₁.foldl (nan_master_election_count state now_usec) c
        = l₂.foldl (nan_master_election_count state now_usec) c := by
    intro l₁ l₂ c h
    exact List.Perm.foldl_eq' h
      (fun p _ q _ z => nan_master_election_count_comm state now_usec z p q) c
  refine ⟨?_, ?_, ?_, ?_, ?_⟩
  · exact nan_master_election_steps_frame state _
  · unfold nan_master_election
    simp only
    rw [nan_master_election_count_master_rank state other now_usec hrank,
      ← nan_master_election_counts_filter state now_usec others,
      hperm _ _ _ hpeers, nan_master_election_counts_filter state now_usec peers]
    exact nan_master_election_steps_role state other _ hrole
  · unfold nan_master_election
    simp only
    rw [nan_master_election_counts_filter state now_usec peers]
  · intro reordered h
    unfold nan_master_election
    simp only
    rw [hperm _ _ _ h]
  · intro peer hnow hearly
    unfold nan_master_election_counted sub_u64 NAN_DW_LENGTH_TU
    rw [decide_eq_false_iff_not, not_not]
    omega

theorem nan_master_election_frame_witness :
    (nan_master_election { nan_sync_state_init ⟨2, 0, 0, 0, 0, 1⟩ with hop_count := 3 }
        [peer_close] 21000).role
      = (nan_master_election (nan_sync_state_init ⟨2, 0, 0, 0, 0, 1⟩)
          [peer_stale, peer_close] 21000).role ∧
    nan_master_election_counted 21000 peer_stale = false :=
  ⟨(nan_master_election_frame (nan_sync_state_init ⟨2, 0, 0, 0, 0, 1⟩)
      { nan_sync_state_init ⟨2, 0, 0, 0, 0, 1⟩ with hop_count := 3 }
      [peer_stale, peer_close] [peer_close] 21000 rfl rfl (by decide)).2.1,
    (nan_master_election_frame (nan_sync_state_init ⟨2, 0, 0, 0, 0, 1⟩)
      { nan_sync_state_init ⟨2, 0, 0, 0, 0, 1⟩ with hop_count := 3 }
      [peer_stale, peer_close] [peer_close] 21000 rfl rfl (by decide)).2.2.2.2 peer_stale
      (by decide) (by decide)⟩

end OpenNAN
